import Mathlib

/-!
# Verification of the vault-wolf IB TWS wire codec, transport and client core

Shallow embedding of the Rust sources:
* `ibtws-rust/src/encoder.rs`   — `MessageEncoder`, field encoders, `finalize`
* `vault-wolf-ibapi/src/decoder.rs` — `MessageDecoder`, per-message decoders,
  `decode_server_msg` dispatch
* `ibtws-rust/src/transport.rs` — framing (`read_message`) and the V100+
  handshake (`process_connect_ack`)
* `ibtws-rust/src/client.rs`    — client state, `send_raw`, request methods
* `ibtws-rust/src/proto_decode.rs` — protobuf message dispatch
* `vault-wolf-ibapi/src/protocol.rs`, `models/*` — constants and data model

Modelling conventions:
* Rust byte buffers are `List Nat` (each element a byte value `< 256`).
* Rust `String` / `&str` values are their UTF-8 byte lists; `read_field_str`
  models Rust's `str::from_utf8` check with an explicit UTF-8 validator.
* `i32` / `i64` are `Int` with explicit range checks where the Rust code
  parses or bound-checks; raw 4-byte values use explicit `% 2^32` two's
  complement arithmetic.
* `rust_decimal::Decimal` is a mantissa/scale pair, which is exactly its
  representation; `Display`/`FromStr` preserve the scale on both sides.
* `f64` is modelled by `WireF64`: positive infinity plus finite values in
  canonical decimal form (mantissa with no trailing zero, scale).  This
  models the contract of Rust's float formatting/parsing used by the code
  (`Display` prints the shortest decimal string that parses back to the
  same value, so print/parse round-trips and decimal-literal equality
  agrees with value equality); NaN and exotic parse forms (exponents,
  leading dot) fall outside every claim and are not modelled.
* Fallible Rust functions returning `Result` are `Except`; a Rust panic is
  a distinguished `DecFail.panic` outcome that — unlike `Err` — is *not*
  caught by `decode_server_msg`'s error wrapper.
-/

set_option maxRecDepth 8000

namespace VaultWolf

/-! ## Byte-level numeric printing and parsing -/

/-- Decimal digits of `n`, most significant first, as digit *values*
(`0`–`9`).  Fuel-based structural recursion so the kernel can evaluate it;
`fuel ≥ n` is enough since `n / 10 < n` for `n ≠ 0`. -/
def natDigitsAux : Nat → Nat → List Nat
  | _, 0 => []
  | n, fuel + 1 => if n = 0 then [] else natDigitsAux (n / 10) fuel ++ [n % 10]

/-- ASCII decimal bytes of a natural number, as Rust `Display` prints it. -/
def natToBytes (n : Nat) : List Nat :=
  if n = 0 then [48] else (natDigitsAux n n).map (· + 48)

/-- ASCII decimal bytes of an integer, as Rust `Display` prints it
(`-` prefix for negatives). -/
def intToBytes (i : Int) : List Nat :=
  if i < 0 then 45 :: natToBytes i.natAbs else natToBytes i.natAbs

/-- Is `b` an ASCII digit byte? -/
def isDigitByte (b : Nat) : Bool := 48 ≤ b && b ≤ 57

/-- Value of a list of ASCII digit bytes, most significant first. -/
def digitsVal (l : List Nat) : Nat :=
  l.foldl (fun acc b => acc * 10 + (b - 48)) 0

/-- Parse a non-empty all-digit byte list to a natural number. -/
def parseNatBytes (l : List Nat) : Option Nat :=
  if l ≠ [] ∧ l.all isDigitByte then some (digitsVal l) else none

/-- Parse an optionally signed decimal integer, mirroring the shape of
Rust's `str::parse::<iN>` (optional single `+`/`-`, then digits). -/
def parseIntBytes (l : List Nat) : Option Int :=
  match l with
  | [] => none
  | b :: rest =>
    if b = 45 then (parseNatBytes rest).map (fun n : Nat => -(n : Int))
    else if b = 43 then (parseNatBytes rest).map (fun n : Nat => (n : Int))
    else (parseNatBytes (b :: rest)).map (fun n : Nat => (n : Int))

/-- Parse with a two's-complement width bound, as `parse::<i32>` /
`parse::<i64>` do (out-of-range input is an error). -/
def parseIntWidth (bits : Nat) (l : List Nat) : Option Int :=
  (parseIntBytes l).bind fun v =>
    if -(2 ^ (bits - 1) : Int) ≤ v ∧ v < 2 ^ (bits - 1) then some v else none

/-! ### Round-trip lemmas for the numeric codecs -/

theorem digitsVal_append (l1 l2 : List Nat) :
    digitsVal (l1 ++ l2) = digitsVal l1 * 10 ^ l2.length + digitsVal l2 := by
  induction l2 using List.reverseRecOn with
  | nil => simp [digitsVal]
  | append_singleton xs x ih =>
    simp only [digitsVal, List.foldl_append, List.foldl_cons, List.foldl_nil] at *
    rw [ih, List.length_append, List.length_cons, List.length_nil, pow_add]
    ring

theorem natDigitsAux_val (n fuel : Nat) (h : n ≤ fuel) :
    digitsVal ((natDigitsAux n fuel).map (· + 48)) = n := by
  induction fuel using Nat.strong_induction_on generalizing n with
  | _ fuel ih =>
    match fuel with
    | 0 =>
      interval_cases n
      simp [natDigitsAux, digitsVal]
    | fuel + 1 =>
      by_cases hn : n = 0
      · simp [natDigitsAux, hn, digitsVal]
      · have hdiv : n / 10 ≤ fuel := by
          have : n / 10 < n := Nat.div_lt_self (Nat.pos_of_ne_zero hn) (by norm_num)
          omega
        have := ih fuel (Nat.lt_succ_self fuel) (n / 10) hdiv
        simp only [natDigitsAux, hn, if_false, List.map_append, List.map_cons,
          List.map_nil]
        rw [digitsVal_append, this]
        simp [digitsVal]
        omega

theorem natDigitsAux_digits (n fuel : Nat) :
    ∀ b ∈ natDigitsAux n fuel, b < 10 := by
  induction fuel using Nat.strong_induction_on generalizing n with
  | _ fuel ih =>
    match fuel with
    | 0 => simp [natDigitsAux]
    | fuel + 1 =>
      intro b hb
      by_cases hn : n = 0
      · simp [natDigitsAux, hn] at hb
      · simp only [natDigitsAux, hn, if_false, List.mem_append,
          List.mem_singleton] at hb
        rcases hb with hb | hb
        · exact ih fuel (Nat.lt_succ_self fuel) (n / 10) b hb
        · subst hb; exact Nat.mod_lt _ (by norm_num)

theorem natDigitsAux_ne_nil (n fuel : Nat) (hn : n ≠ 0) (h : n ≤ fuel) :
    natDigitsAux n fuel ≠ [] := by
  match fuel with
  | 0 => omega
  | fuel + 1 => simp [natDigitsAux, hn]

theorem natToBytes_all_digits (n : Nat) : (natToBytes n).all isDigitByte := by
  by_cases hn : n = 0
  · simp [natToBytes, hn, isDigitByte]
  · simp only [natToBytes, hn, if_false, List.all_eq_true, List.mem_map]
    rintro b ⟨d, hd, rfl⟩
    have := natDigitsAux_digits n n d hd
    simp [isDigitByte]
    omega

theorem natToBytes_ne_nil (n : Nat) : natToBytes n ≠ [] := by
  by_cases hn : n = 0
  · simp [natToBytes, hn]
  · simp only [natToBytes, hn, if_false, ne_eq, List.map_eq_nil_iff]
    exact natDigitsAux_ne_nil n n hn le_rfl

theorem parseNatBytes_natToBytes (n : Nat) :
    parseNatBytes (natToBytes n) = some n := by
  have hne := natToBytes_ne_nil n
  have hall := natToBytes_all_digits n
  simp only [parseNatBytes, hne, hall, ne_eq, not_false_iff, true_and,
    if_true, Option.some.injEq]
  by_cases hn : n = 0
  · simp [natToBytes, hn, digitsVal]
  · simp only [natToBytes, hn, if_false]
    exact natDigitsAux_val n n le_rfl

/-- Printing then parsing an integer is the identity (no width bound). -/
theorem parseIntBytes_intToBytes (i : Int) :
    parseIntBytes (intToBytes i) = some i := by
  by_cases hneg : i < 0
  · have habs : ((i.natAbs : Int)) = -i := Int.ofNat_natAbs_of_nonpos (le_of_lt hneg)
    simp [intToBytes, hneg, parseIntBytes, parseNatBytes_natToBytes, habs]
  · simp only [intToBytes, hneg, if_false]
    rcases hh : natToBytes i.natAbs with _ | ⟨b, rest⟩
    · exact absurd hh (natToBytes_ne_nil _)
    · have hb : isDigitByte b := by
        have := natToBytes_all_digits i.natAbs
        rw [hh] at this
        simp only [List.all_cons, Bool.and_eq_true] at this
        exact this.1
      have hbb : 48 ≤ b ∧ b ≤ 57 := by
        simp only [isDigitByte, Bool.and_eq_true, decide_eq_true_eq] at hb
        exact hb
      have hb45 : b ≠ 45 := by omega
      have hb43 : b ≠ 43 := by omega
      rw [show parseIntBytes (b :: rest) = (parseNatBytes (b :: rest)).map
          (fun n : Nat => (n : Int)) by simp [parseIntBytes, hb45, hb43]]
      rw [← hh, parseNatBytes_natToBytes]
      simp only [Option.map_some', Option.some.injEq]
      exact Int.natAbs_of_nonneg (by omega)

/-- Printing then parsing with an `iN` width bound is the identity for
in-range values. -/
theorem parseIntWidth_intToBytes (bits : Nat) (i : Int)
    (h1 : -(2 ^ (bits - 1) : Int) ≤ i) (h2 : i < 2 ^ (bits - 1)) :
    parseIntWidth bits (intToBytes i) = some i := by
  simp [parseIntWidth, parseIntBytes_intToBytes, h1, h2]

/-! ## Decimal strings: the shared print/parse core for `f64` and `Decimal` -/

/-- Unsigned fixed-point decimal bytes: the digits of `n` padded on the left
with zeros to at least `e + 1` digits, with a `.` before the last `e`
digits (`n = 1505`, `e = 1` ↦ `"150.5"`; `e = 0` ↦ plain integer). -/
def udecimalBytes (n : Nat) (e : Nat) : List Nat :=
  let ds0 := natDigitsAux n n
  let ds := List.replicate (e + 1 - ds0.length) 0 ++ ds0
  (ds.take (ds.length - e)).map (· + 48) ++
    (if e = 0 then [] else 46 :: (ds.drop (ds.length - e)).map (· + 48))

/-- Signed fixed-point decimal bytes (value `m / 10 ^ e`). -/
def decimalBytes (m : Int) (e : Nat) : List Nat :=
  (if m < 0 then [45] else []) ++ udecimalBytes m.natAbs e

/-- Parse an unsigned decimal numeral `digits [ '.' digits ]` into
(numerator, scale).  This is the numeral subset the repository's own
encoders emit; exotic forms Rust would also accept (exponents, leading or
trailing dot) are outside every claim and rejected here. -/
def parseUnsignedDecimal (l : List Nat) : Option (Nat × Nat) :=
  let ip := l.takeWhile (fun b => b ≠ 46)
  let rest := l.drop ip.length
  if rest = [] then (parseNatBytes ip).map (fun n : Nat => (n, 0))
  else if rest.head? = some 46 then
    let frac := rest.tail
    if ip ≠ [] ∧ ip.all isDigitByte ∧ frac ≠ [] ∧ frac.all isDigitByte then
      some (digitsVal (ip ++ frac), frac.length)
    else none
  else none

/-- Parse an optionally signed decimal numeral into (mantissa, scale). -/
def parseSignedDecimal (l : List Nat) : Option (Int × Nat) :=
  match l with
  | [] => none
  | b :: rest =>
    if b = 45 then (parseUnsignedDecimal rest).map
      (fun p : Nat × Nat => (-(p.1 : Int), p.2))
    else if b = 43 then (parseUnsignedDecimal rest).map
      (fun p : Nat × Nat => ((p.1 : Int), p.2))
    else (parseUnsignedDecimal (b :: rest)).map
      (fun p : Nat × Nat => ((p.1 : Int), p.2))

/-! ### Decimal-string round-trip lemmas -/

theorem takeWhile_append_all {P : Nat → Bool} (l1 l2 : List Nat)
    (h : ∀ b ∈ l1, P b) :
    (l1 ++ l2).takeWhile P = l1 ++ l2.takeWhile P := by
  induction l1 with
  | nil => simp
  | cons a l ih =>
    have ha : P a := h a (List.mem_cons_self a l)
    simp only [List.cons_append, List.takeWhile_cons, ha, if_true]
    rw [ih (fun b hb => h b (List.mem_cons_of_mem a hb))]

theorem digitsVal_replicate_zero (k : Nat) (l : List Nat) :
    digitsVal ((List.replicate k 0).map (· + 48) ++ l) = digitsVal l := by
  induction k with
  | zero => simp
  | succ k ih =>
    simp only [List.replicate_succ, List.map_cons, List.cons_append]
    simpa [digitsVal] using ih

/-- The padded digit list of `udecimalBytes`. -/
def paddedDigits (n e : Nat) : List Nat :=
  List.replicate (e + 1 - (natDigitsAux n n).length) 0 ++ natDigitsAux n n

theorem paddedDigits_lt (n e : Nat) : ∀ b ∈ paddedDigits n e, b < 10 := by
  intro b hb
  rcases List.mem_append.1 hb with h | h
  · have := List.eq_of_mem_replicate h
    omega
  · exact natDigitsAux_digits n n b h

theorem paddedDigits_len (n e : Nat) : e + 1 ≤ (paddedDigits n e).length := by
  simp only [paddedDigits, List.length_append, List.length_replicate]
  by_cases h : (natDigitsAux n n).length = 0
  · omega
  · omega

theorem digitsVal_paddedDigits (n e : Nat) :
    digitsVal ((paddedDigits n e).map (· + 48)) = n := by
  simp only [paddedDigits, List.map_append]
  rw [digitsVal_replicate_zero]
  by_cases hn : n = 0
  · simp [hn, natDigitsAux, digitsVal]
  · exact natDigitsAux_val n n le_rfl

theorem udecimalBytes_eq (n e : Nat) :
    udecimalBytes n e =
      ((paddedDigits n e).take ((paddedDigits n e).length - e)).map (· + 48) ++
      (if e = 0 then [] else
        46 :: ((paddedDigits n e).drop ((paddedDigits n e).length - e)).map (· + 48)) := rfl

theorem parseUnsignedDecimal_all_digits (ip : List Nat) (hipne : ip ≠ [])
    (hipdig : ∀ b ∈ ip, isDigitByte b) :
    parseUnsignedDecimal ip = some (digitsVal ip, 0) := by
  have htw : ip.takeWhile (fun b => (b ≠ 46 : Bool)) = ip := by
    have := takeWhile_append_all (P := fun b => (b ≠ 46 : Bool)) ip []
      (fun b hb => by
        have := hipdig b hb
        simp only [isDigitByte, Bool.and_eq_true, decide_eq_true_eq] at this
        simp only [ne_eq, decide_eq_true_eq]
        omega)
    simpa using this
  simp only [parseUnsignedDecimal, htw]
  rw [show List.drop ip.length ip = [] from List.drop_length ip]
  simp only [if_pos rfl, parseNatBytes, hipne, ne_eq, not_false_iff, true_and,
    List.all_eq_true]
  rw [if_pos (fun b hb => hipdig b hb)]
  rfl

theorem parseUnsignedDecimal_split (ip frac : List Nat)
    (hipne : ip ≠ []) (hipdig : ∀ b ∈ ip, isDigitByte b)
    (hfracne : frac ≠ []) (hfracdig : ∀ b ∈ frac, isDigitByte b) :
    parseUnsignedDecimal (ip ++ 46 :: frac) =
      some (digitsVal (ip ++ frac), frac.length) := by
  have htw : (ip ++ 46 :: frac).takeWhile (fun b => (b ≠ 46 : Bool)) = ip := by
    rw [takeWhile_append_all (P := fun b => (b ≠ 46 : Bool)) ip (46 :: frac)
      (fun b hb => by
        have := hipdig b hb
        simp only [isDigitByte, Bool.and_eq_true, decide_eq_true_eq] at this
        simp only [ne_eq, decide_eq_true_eq]
        omega)]
    simp [List.takeWhile_cons]
  simp only [parseUnsignedDecimal, htw]
  rw [List.drop_left]
  rw [if_neg (by simp : ¬ (46 :: frac = ([] : List Nat))),
    if_pos (by simp : (46 :: frac).head? = some 46)]
  simp only [List.tail_cons, List.all_eq_true, ne_eq]
  rw [if_pos ⟨hipne, fun b hb => hipdig b hb, hfracne, fun b hb => hfracdig b hb⟩]

theorem parseUnsignedDecimal_udecimalBytes (n e : Nat) :
    parseUnsignedDecimal (udecimalBytes n e) = some (n, e) := by
  have hlen := paddedDigits_len n e
  have hlt := paddedDigits_lt n e
  have hdig : ∀ b ∈ (paddedDigits n e).map (· + 48), isDigitByte b := by
    simp only [List.mem_map]
    rintro b ⟨d, hd, rfl⟩
    have := hlt d hd
    simp only [isDigitByte, Bool.and_eq_true, decide_eq_true_eq]
    omega
  by_cases he : e = 0
  · subst he
    have hbytes : udecimalBytes n 0 = (paddedDigits n 0).map (· + 48) := by
      rw [udecimalBytes_eq]
      simp
    have hne : (paddedDigits n 0).map (· + 48) ≠ [] := by
      simp only [ne_eq, List.map_eq_nil_iff]
      intro h
      rw [h] at hlen
      simp at hlen
    rw [hbytes, parseUnsignedDecimal_all_digits _ hne hdig,
      digitsVal_paddedDigits]
  · have hip : ((paddedDigits n e).take ((paddedDigits n e).length - e)).length =
        (paddedDigits n e).length - e := by
      simp [List.length_take]
    have hfrac : ((paddedDigits n e).drop ((paddedDigits n e).length - e)).length = e := by
      simp [List.length_drop]
      omega
    have hbytes : udecimalBytes n e =
        ((paddedDigits n e).take ((paddedDigits n e).length - e)).map (· + 48) ++
        (46 :: ((paddedDigits n e).drop ((paddedDigits n e).length - e)).map (· + 48)) := by
      rw [udecimalBytes_eq]
      simp [he]
    have hipdig : ∀ b ∈ ((paddedDigits n e).take ((paddedDigits n e).length - e)).map
        (· + 48), isDigitByte b := by
      intro b hb
      apply hdig
      simp only [List.mem_map] at hb ⊢
      obtain ⟨d, hd, rfl⟩ := hb
      exact ⟨d, List.mem_of_mem_take hd, rfl⟩
    have hfracdig : ∀ b ∈ ((paddedDigits n e).drop ((paddedDigits n e).length - e)).map
        (· + 48), isDigitByte b := by
      intro b hb
      apply hdig
      simp only [List.mem_map] at hb ⊢
      obtain ⟨d, hd, rfl⟩ := hb
      exact ⟨d, List.mem_of_mem_drop hd, rfl⟩
    have hipne : ((paddedDigits n e).take ((paddedDigits n e).length - e)).map
        (· + 48) ≠ [] := by
      simp only [ne_eq, List.map_eq_nil_iff]
      intro h
      have := congrArg List.length h
      rw [hip] at this
      simp at this
      omega
    have hfracne : ((paddedDigits n e).drop ((paddedDigits n e).length - e)).map
        (· + 48) ≠ [] := by
      simp only [ne_eq, List.map_eq_nil_iff]
      intro h
      have := congrArg List.length h
      rw [hfrac] at this
      simp at this
      omega
    rw [hbytes, parseUnsignedDecimal_split _ _ hipne hipdig hfracne hfracdig,
      ← List.map_append, List.take_append_drop, digitsVal_paddedDigits]
    simp only [List.length_map, List.length_drop, Option.some.injEq,
      Prod.mk.injEq, true_and]
    omega

theorem udecimalBytes_head_digit (n e : Nat) :
    ∀ b rest, udecimalBytes n e = b :: rest → 48 ≤ b ∧ b ≤ 57 := by
  intro b rest h
  have hlen := paddedDigits_len n e
  have hlt := paddedDigits_lt n e
  have hip : ((paddedDigits n e).take ((paddedDigits n e).length - e)).length =
      (paddedDigits n e).length - e := by
    simp [List.length_take]
  rw [udecimalBytes_eq] at h
  rcases hh : (paddedDigits n e).take ((paddedDigits n e).length - e) with _ | ⟨d, ds'⟩
  · rw [hh] at hip
    simp at hip
    omega
  · rw [hh] at h
    simp only [List.map_cons, List.cons_append, List.cons.injEq] at h
    have hd : d < 10 := hlt d (List.mem_of_mem_take (hh ▸ List.mem_cons_self d ds'))
    omega

theorem parseSignedDecimal_decimalBytes (m : Int) (e : Nat) :
    parseSignedDecimal (decimalBytes m e) = some (m, e) := by
  by_cases hm : m < 0
  · have habs : ((m.natAbs : Int)) = -m := Int.ofNat_natAbs_of_nonpos (le_of_lt hm)
    simp [decimalBytes, hm, parseSignedDecimal,
      parseUnsignedDecimal_udecimalBytes, habs]
  · rcases hh : udecimalBytes m.natAbs e with _ | ⟨b, rest⟩
    · have := parseUnsignedDecimal_udecimalBytes m.natAbs e
      rw [hh] at this
      simp [parseUnsignedDecimal, parseNatBytes] at this
    · have hb := udecimalBytes_head_digit m.natAbs e b rest hh
      have hb45 : b ≠ 45 := by omega
      have hb43 : b ≠ 43 := by omega
      have hbytes : decimalBytes m e = b :: rest := by
        simp [decimalBytes, hm, hh]
      rw [hbytes]
      rw [show parseSignedDecimal (b :: rest) =
          (parseUnsignedDecimal (b :: rest)).map
            (fun p : Nat × Nat => ((p.1 : Int), p.2)) by
        simp [parseSignedDecimal, hb45, hb43]]
      rw [← hh, parseUnsignedDecimal_udecimalBytes]
      simp only [Option.map_some', Option.some.injEq, Prod.mk.injEq, and_true]
      exact Int.natAbs_of_nonneg (by omega)

/-! ## The `f64` and `Decimal` value models -/

/-- Model of Rust `f64` as used on this wire: positive infinity, or a finite
value `mant / 10 ^ scale` kept in canonical decimal form (no trailing zero
in the fraction).  See the header comment for why this models the
`Display`/`FromStr` contract the code relies on. -/
inductive WireF64
  | inf
  | finite (mant : Int) (scale : Nat)
deriving DecidableEq

/-- Strip factors of ten shared between the mantissa and the scale. -/
def stripZeros (m : Int) : Nat → Int × Nat
  | 0 => (m, 0)
  | e + 1 => if m % 10 = 0 then stripZeros (m / 10) e else (m, e + 1)

/-- Canonical finite `f64` value `m / 10 ^ e`. -/
def normF64 (m : Int) (e : Nat) : WireF64 :=
  .finite (stripZeros m e).1 (stripZeros m e).2

/-- A finite `WireF64` is canonical when its scale cannot be reduced. -/
def WireF64.canonical : WireF64 → Prop
  | .inf => True
  | .finite m e => e = 0 ∨ m % 10 ≠ 0

theorem normF64_canonical_fixed (m : Int) (e : Nat)
    (h : (WireF64.finite m e).canonical) : normF64 m e = .finite m e := by
  rcases h with h | h
  · subst h
    rfl
  · cases e with
    | zero => rfl
    | succ e => simp [normF64, stripZeros, h]

/-- Model of `rust_decimal::Decimal`: a 96-bit mantissa with a scale of at
most 28, printed with exactly `scale` fractional digits and parsed
scale-preservingly — which is `rust_decimal`'s own representation and
`Display`/`FromStr` behaviour. -/
structure WireDecimal where
  mant : Int
  scale : Nat
deriving DecidableEq

/-- `Decimal::ZERO`. -/
def WireDecimal.zero : WireDecimal := ⟨0, 0⟩

/-- `rust_decimal` `Display`: `scale` fractional digits. -/
def decimalToBytes (d : WireDecimal) : List Nat := decimalBytes d.mant d.scale

/-- `rust_decimal` `FromStr` on the numeral subset the encoders emit, with
the 96-bit mantissa / max-28 scale limits enforced as parse errors. -/
def parseDecimalBytes (l : List Nat) : Option WireDecimal :=
  (parseSignedDecimal l).bind (fun p =>
    if p.1.natAbs < 2 ^ 96 ∧ p.2 ≤ 28 then some ⟨p.1, p.2⟩ else none)

theorem parseDecimalBytes_decimalToBytes (d : WireDecimal)
    (h1 : d.mant.natAbs < 2 ^ 96) (h2 : d.scale ≤ 28) :
    parseDecimalBytes (decimalToBytes d) = some d := by
  have h1' : d.mant.natAbs < 79228162514264337593543950336 :=
    lt_of_lt_of_eq h1 (by norm_num)
  simp [parseDecimalBytes, decimalToBytes, parseSignedDecimal_decimalBytes,
    h1', h2]

/-- `f64` `Display` as the repository's `write_display` sees it (the
encoder special-cases `+∞` *before* calling this, so the `inf` branch --
Rust would print `"inf"` -- is unreachable from `encode_field_f64`). -/
def f64DisplayBytes : WireF64 → List Nat
  | .inf => [105, 110, 102]
  | .finite m e => decimalBytes m e

/-- `f64` `FromStr` on the numeral subset relevant to the wire (the
`"Infinity"` literal is handled by the decoder before this is reached). -/
def parseF64Bytes (l : List Nat) : Option WireF64 :=
  (parseSignedDecimal l).map (fun p => normF64 p.1 p.2)

theorem parseF64Bytes_display (m : Int) (e : Nat)
    (h : (WireF64.finite m e).canonical) :
    parseF64Bytes (f64DisplayBytes (.finite m e)) = some (.finite m e) := by
  simp [parseF64Bytes, f64DisplayBytes, parseSignedDecimal_decimalBytes,
    normF64_canonical_fixed m e h]

/-! ## UTF-8 validation (Rust `str::from_utf8`) -/

/-- UTF-8 continuation byte. -/
def isCont (b : Nat) : Bool := 128 ≤ b && b ≤ 191

/-- Exact UTF-8 validity of a byte list, as Rust's `str::from_utf8`
checks it (including the surrogate and overlong-form exclusions).
Fuel-based so the kernel evaluates it; `utf8Valid` passes `l.length`,
which always suffices since every step consumes at least one byte. -/
def utf8ValidAux : Nat → List Nat → Bool
  | _, [] => true
  | 0, _ :: _ => false
  | fuel + 1, b :: rest =>
    if b < 128 then utf8ValidAux fuel rest
    else if 194 ≤ b && b ≤ 223 then
      decide (1 ≤ rest.length) && isCont (rest.headD 0) &&
        utf8ValidAux fuel (rest.drop 1)
    else if b = 224 then
      decide (2 ≤ rest.length) && (160 ≤ rest.headD 0 && rest.headD 0 ≤ 191) &&
        isCont (rest.getD 1 0) && utf8ValidAux fuel (rest.drop 2)
    else if (225 ≤ b && b ≤ 236) || b = 238 || b = 239 then
      decide (2 ≤ rest.length) && isCont (rest.headD 0) &&
        isCont (rest.getD 1 0) && utf8ValidAux fuel (rest.drop 2)
    else if b = 237 then
      decide (2 ≤ rest.length) && (128 ≤ rest.headD 0 && rest.headD 0 ≤ 159) &&
        isCont (rest.getD 1 0) && utf8ValidAux fuel (rest.drop 2)
    else if b = 240 then
      decide (3 ≤ rest.length) && (144 ≤ rest.headD 0 && rest.headD 0 ≤ 191) &&
        isCont (rest.getD 1 0) && isCont (rest.getD 2 0) &&
        utf8ValidAux fuel (rest.drop 3)
    else if 241 ≤ b && b ≤ 243 then
      decide (3 ≤ rest.length) && isCont (rest.headD 0) &&
        isCont (rest.getD 1 0) && isCont (rest.getD 2 0) &&
        utf8ValidAux fuel (rest.drop 3)
    else if b = 244 then
      decide (3 ≤ rest.length) && (128 ≤ rest.headD 0 && rest.headD 0 ≤ 143) &&
        isCont (rest.getD 1 0) && isCont (rest.getD 2 0) &&
        utf8ValidAux fuel (rest.drop 3)
    else false

/-- UTF-8 validity, the embedding of `str::from_utf8(..).is_ok()`. -/
def utf8Valid (l : List Nat) : Bool := utf8ValidAux l.length l

theorem utf8ValidAux_ascii (fuel : Nat) (l : List Nat)
    (hf : l.length ≤ fuel) (h : ∀ b ∈ l, b < 128) :
    utf8ValidAux fuel l = true := by
  induction fuel generalizing l with
  | zero =>
    cases l with
    | nil => rfl
    | cons b rest => simp at hf
  | succ fuel ih =>
    cases l with
    | nil => rfl
    | cons b rest =>
      have hb : b < 128 := h b (List.mem_cons_self b rest)
      rw [utf8ValidAux, if_pos hb]
      exact ih rest (by simp at hf; omega)
        (fun x hx => h x (List.mem_cons_of_mem b hx))

/-- Pure-ASCII byte lists are valid UTF-8. -/
theorem utf8Valid_of_ascii (l : List Nat) (h : ∀ b ∈ l, b < 128) :
    utf8Valid l = true :=
  utf8ValidAux_ascii l.length l le_rfl h

/-- The bytes of an ASCII string literal; the convenience used by concrete
statements below (all concrete wire strings in this development are
ASCII). -/
def strBytes (s : String) : List Nat := s.data.map Char.toNat

/-! ## Model enums (`models/enums.rs`, `protocol.rs`)

Wire-string enums carry their `Display`/`FromStr` maps over byte lists;
integer-coded enums carry their `TryFrom<i32>` maps. -/

/-- `SecType` (closed tag with `Other(String)` escape). -/
inductive SecType
  | stock | option | future | forex | index | futureOption | bond | fund
  | warrant | commodity | combo | news | crypto
  | other (s : List Nat)
deriving DecidableEq

/-- `SecType` `Display`. -/
def SecType.toBytes : SecType → List Nat
  | .stock => strBytes "STK"
  | .option => strBytes "OPT"
  | .future => strBytes "FUT"
  | .forex => strBytes "CASH"
  | .index => strBytes "IND"
  | .futureOption => strBytes "FOP"
  | .bond => strBytes "BOND"
  | .fund => strBytes "FUND"
  | .warrant => strBytes "WAR"
  | .commodity => strBytes "CMDTY"
  | .combo => strBytes "BAG"
  | .news => strBytes "NEWS"
  | .crypto => strBytes "CRYPTO"
  | .other s => s

/-- `SecType` `FromStr` (infallible; unknown tags become `Other`). -/
def SecType.fromBytes (s : List Nat) : SecType :=
  if s = strBytes "STK" then .stock
  else if s = strBytes "OPT" then .option
  else if s = strBytes "FUT" then .future
  else if s = strBytes "CASH" then .forex
  else if s = strBytes "IND" then .index
  else if s = strBytes "FOP" then .futureOption
  else if s = strBytes "BOND" then .bond
  else if s = strBytes "FUND" then .fund
  else if s = strBytes "WAR" then .warrant
  else if s = strBytes "CMDTY" then .commodity
  else if s = strBytes "BAG" then .combo
  else if s = strBytes "NEWS" then .news
  else if s = strBytes "CRYPTO" then .crypto
  else .other s

/-- `Right` (option right). -/
inductive Right
  | call | put | undefined
deriving DecidableEq

def Right.toBytes : Right → List Nat
  | .call => strBytes "C"
  | .put => strBytes "P"
  | .undefined => []

def Right.fromBytes (s : List Nat) : Right :=
  if s = strBytes "C" ∨ s = strBytes "CALL" then .call
  else if s = strBytes "P" ∨ s = strBytes "PUT" then .put
  else .undefined

/-- `SecIdType`. -/
inductive SecIdType
  | cusip | sedol | isin | ric
  | other (s : List Nat)
deriving DecidableEq

/-- `Action` (fallible `FromStr`). -/
inductive Action
  | buy | sell | sellShort
deriving DecidableEq

def Action.toBytes : Action → List Nat
  | .buy => strBytes "BUY"
  | .sell => strBytes "SELL"
  | .sellShort => strBytes "SSHORT"

def Action.fromBytes (s : List Nat) : Option Action :=
  if s = strBytes "BUY" then some .buy
  else if s = strBytes "SELL" then some .sell
  else if s = strBytes "SSHORT" then some .sellShort
  else none

/-- `OrderType`. -/
inductive OrderType
  | market | limit | stop | stopLimit | trailingStop | trailingStopLimit
  | relative | marketOnClose | limitOnClose | marketOnOpen | limitOnOpen
  | peggedToMarket | peggedToMidpoint | peggedToBenchmark | volatility
  | marketIfTouched | limitIfTouched | marketWithProtection | midPrice
  | snapToMarket | snapToMidpoint | peggedToPrimary
  | other (s : List Nat)
deriving DecidableEq

def OrderType.toBytes : OrderType → List Nat
  | .market => strBytes "MKT"
  | .limit => strBytes "LMT"
  | .stop => strBytes "STP"
  | .stopLimit => strBytes "STP LMT"
  | .trailingStop => strBytes "TRAIL"
  | .trailingStopLimit => strBytes "TRAIL LIMIT"
  | .relative => strBytes "REL"
  | .marketOnClose => strBytes "MOC"
  | .limitOnClose => strBytes "LOC"
  | .marketOnOpen => strBytes "MOO"
  | .limitOnOpen => strBytes "LOO"
  | .peggedToMarket => strBytes "PEG MKT"
  | .peggedToMidpoint => strBytes "PEG MID"
  | .peggedToBenchmark => strBytes "PEG BENCH"
  | .volatility => strBytes "VOL"
  | .marketIfTouched => strBytes "MIT"
  | .limitIfTouched => strBytes "LIT"
  | .marketWithProtection => strBytes "MKT PRT"
  | .midPrice => strBytes "MIDPRICE"
  | .snapToMarket => strBytes "SNAP MKT"
  | .snapToMidpoint => strBytes "SNAP MID"
  | .peggedToPrimary => strBytes "PEG PRIM"
  | .other s => s

def OrderType.fromBytes (s : List Nat) : OrderType :=
  if s = strBytes "MKT" then .market
  else if s = strBytes "LMT" then .limit
  else if s = strBytes "STP" then .stop
  else if s = strBytes "STP LMT" then .stopLimit
  else if s = strBytes "TRAIL" then .trailingStop
  else if s = strBytes "TRAIL LIMIT" then .trailingStopLimit
  else if s = strBytes "REL" then .relative
  else if s = strBytes "MOC" then .marketOnClose
  else if s = strBytes "LOC" then .limitOnClose
  else if s = strBytes "MOO" then .marketOnOpen
  else if s = strBytes "LOO" then .limitOnOpen
  else if s = strBytes "PEG MKT" then .peggedToMarket
  else if s = strBytes "PEG MID" then .peggedToMidpoint
  else if s = strBytes "PEG BENCH" then .peggedToBenchmark
  else if s = strBytes "VOL" then .volatility
  else if s = strBytes "MIT" then .marketIfTouched
  else if s = strBytes "LIT" then .limitIfTouched
  else if s = strBytes "MKT PRT" then .marketWithProtection
  else if s = strBytes "MIDPRICE" then .midPrice
  else if s = strBytes "SNAP MKT" then .snapToMarket
  else if s = strBytes "SNAP MID" then .snapToMidpoint
  else if s = strBytes "PEG PRIM" then .peggedToPrimary
  else .other s

/-- `TimeInForce`. -/
inductive TimeInForce
  | day | goodTilCancelled | immediateOrCancel | goodTilDate | atTheOpening
  | fillOrKill | dayTilCancelled
  | other (s : List Nat)
deriving DecidableEq

def TimeInForce.toBytes : TimeInForce → List Nat
  | .day => strBytes "DAY"
  | .goodTilCancelled => strBytes "GTC"
  | .immediateOrCancel => strBytes "IOC"
  | .goodTilDate => strBytes "GTD"
  | .atTheOpening => strBytes "OPG"
  | .fillOrKill => strBytes "FOK"
  | .dayTilCancelled => strBytes "DTC"
  | .other s => s

def TimeInForce.fromBytes (s : List Nat) : TimeInForce :=
  if s = strBytes "DAY" then .day
  else if s = strBytes "GTC" then .goodTilCancelled
  else if s = strBytes "IOC" then .immediateOrCancel
  else if s = strBytes "GTD" then .goodTilDate
  else if s = strBytes "OPG" then .atTheOpening
  else if s = strBytes "FOK" then .fillOrKill
  else if s = strBytes "DTC" then .dayTilCancelled
  else .other s

/-- `Origin` with `TryFrom<i32>`. -/
inductive Origin
  | customer | firm | unknown
deriving DecidableEq

def Origin.tryFrom (v : Int) : Option Origin :=
  if v = 0 then some .customer
  else if v = 1 then some .firm
  else if v = 2 then some .unknown
  else none

/-- `AuctionStrategy`. -/
inductive AuctionStrategy
  | unset | match_ | improvement | transparent
deriving DecidableEq

def AuctionStrategy.tryFrom (v : Int) : Option AuctionStrategy :=
  if v = 0 then some .unset
  else if v = 1 then some .match_
  else if v = 2 then some .improvement
  else if v = 3 then some .transparent
  else none

/-- `LegOpenClose`. -/
inductive LegOpenClose
  | same | open_ | close | unknown
deriving DecidableEq

def LegOpenClose.tryFrom (v : Int) : Option LegOpenClose :=
  if v = 0 then some .same
  else if v = 1 then some .open_
  else if v = 2 then some .close
  else if v = 3 then some .unknown
  else none

/-- `TriggerMethod`. -/
inductive TriggerMethod
  | default | doubleBidAsk | last | doubleLast | bidAsk | lastOrBidAsk
  | midPoint
deriving DecidableEq

def TriggerMethod.tryFrom (v : Int) : Option TriggerMethod :=
  if v = 0 then some .default
  else if v = 1 then some .doubleBidAsk
  else if v = 2 then some .last
  else if v = 3 then some .doubleLast
  else if v = 4 then some .bidAsk
  else if v = 7 then some .lastOrBidAsk
  else if v = 8 then some .midPoint
  else none

/-- `UsePriceMgmtAlgo`. -/
inductive UsePriceMgmtAlgo
  | dontUse | use | default
deriving DecidableEq

def UsePriceMgmtAlgo.tryFrom (v : Int) : Option UsePriceMgmtAlgo :=
  if v = 0 then some .dontUse
  else if v = 1 then some .use
  else if v = 2 then some .default
  else none

/-- `OrderConditionType`. -/
inductive OrderConditionType
  | price | time | margin | execution | volume | percentChange
deriving DecidableEq

def OrderConditionType.tryFrom (v : Int) : Option OrderConditionType :=
  if v = 1 then some .price
  else if v = 3 then some .time
  else if v = 4 then some .margin
  else if v = 5 then some .execution
  else if v = 6 then some .volume
  else if v = 7 then some .percentChange
  else none

/-- `OptionExerciseType` (only its default is exercised by the decoders). -/
inductive OptionExerciseType
  | none | exercise | lapse | doNothing | assigned | autoexerciseClearing
  | expired | netting | autoexerciseTrading
deriving DecidableEq

/-- `FundAssetType`. -/
inductive FundAssetType
  | none | others | moneyMarket | fixedIncome | multiAsset | equity | sector
  | guaranteed | alternative
deriving DecidableEq

/-- `FundDistributionPolicyIndicator`. -/
inductive FundDistributionPolicyIndicator
  | none | accumulationFund | incomeFund
deriving DecidableEq

/-- `TickType`: the Rust enum's 106 variants are exactly the contiguous
codes `0..=105` (`BID_SIZE` through `NOT_SET`), so we model it by its
discriminant; `TryFrom<i32>` is the range check and `Into<i32>` the
projection.  Named codes used by the decoders are given below. -/
structure TickType where
  code : Int
deriving DecidableEq

def TickType.tryFrom (v : Int) : Option TickType :=
  if 0 ≤ v ∧ v ≤ 105 then some ⟨v⟩ else none

/-- `TickType::Bid` (code 1). -/
def TickType.bid : TickType := ⟨1⟩

/-- `TickType::ModelOption` (code 13). -/
def TickType.modelOption : TickType := ⟨13⟩

/-- `TickType::DelayedModelOptionComputation` (code 83). -/
def TickType.delayedModelOptionComputation : TickType := ⟨83⟩

/-! ## Data model records (`models/*.rs`)

Structure field defaults mirror the Rust `Default` impls, so `{}` is the
embedding of `T::default()`.  Rust `String` fields are byte lists. -/

/-- `TagValue`. -/
structure TagValue where
  tag : List Nat := []
  value : List Nat := []
deriving DecidableEq

/-- `SoftDollarTier`. -/
structure SoftDollarTier where
  name : List Nat := []
  val : List Nat := []
  display_name : List Nat := []
deriving DecidableEq

/-- `FamilyCode`. -/
structure FamilyCode where
  account_id : List Nat := []
  family_code_str : List Nat := []
deriving DecidableEq

/-- `NewsProvider`. -/
structure NewsProvider where
  provider_code : List Nat := []
  provider_name : List Nat := []
deriving DecidableEq

/-- `HistogramEntry`. -/
structure HistogramEntry where
  price : WireF64 := .finite 0 0
  size : Option WireDecimal := none
deriving DecidableEq

/-- `PriceIncrement`. -/
structure PriceIncrement where
  low_edge : WireF64 := .finite 0 0
  increment : WireF64 := .finite 0 0
deriving DecidableEq

/-- `IneligibilityReason`. -/
structure IneligibilityReason where
  id : List Nat := []
  description : List Nat := []
deriving DecidableEq

/-- `SmartComponent`; `exchange_letter` is the first byte of the letter
field (`chars().next().unwrap_or(' ')`; the field is ASCII on this wire). -/
structure SmartComponent where
  bit_number : Int := 0
  exchange : List Nat := []
  exchange_letter : Nat := 32
deriving DecidableEq

/-- `DepthMktDataDescription`. -/
structure DepthMktDataDescription where
  exchange : List Nat := []
  sec_type : List Nat := []
  listing_exch : List Nat := []
  service_data_type : List Nat := []
  agg_group : Option Int := none
deriving DecidableEq

/-- `TickAttrib`. -/
structure TickAttrib where
  can_auto_execute : Bool := false
  past_limit : Bool := false
  pre_open : Bool := false
deriving DecidableEq

/-- `TickAttribBidAsk`. -/
structure TickAttribBidAsk where
  bid_past_low : Bool := false
  ask_past_high : Bool := false
deriving DecidableEq

/-- `TickAttribLast`. -/
structure TickAttribLast where
  past_limit : Bool := false
  unreported : Bool := false
deriving DecidableEq

/-- `ComboLeg` (Rust default has `exempt_code = -1`). -/
structure ComboLeg where
  con_id : Int := 0
  ratio : Int := 0
  action : Option Action := none
  exchange : List Nat := []
  open_close : LegOpenClose := .same
  short_sale_slot : Int := 0
  designated_location : List Nat := []
  exempt_code : Int := -1
deriving DecidableEq

/-- `DeltaNeutralContract`. -/
structure DeltaNeutralContract where
  con_id : Int := 0
  delta : WireF64 := .finite 0 0
  price : WireF64 := .finite 0 0
deriving DecidableEq

/-- `Contract`. -/
structure Contract where
  con_id : Int := 0
  symbol : List Nat := []
  sec_type : Option SecType := none
  last_trade_date_or_contract_month : List Nat := []
  last_trade_date : List Nat := []
  strike : Option WireF64 := none
  right : Option Right := none
  multiplier : List Nat := []
  exchange : List Nat := []
  primary_exchange : List Nat := []
  currency : List Nat := []
  local_symbol : List Nat := []
  trading_class : List Nat := []
  include_expired : Bool := false
  sec_id_type : Option SecIdType := none
  sec_id : List Nat := []
  description : List Nat := []
  issuer_id : List Nat := []
  combo_legs_descrip : List Nat := []
  combo_legs : Option (List ComboLeg) := none
  delta_neutral_contract : Option DeltaNeutralContract := none
deriving DecidableEq

/-- `ContractDetails` (the `next_option_partial` source field is named
`next_option_part` here). -/
structure ContractDetails where
  contract : Contract := {}
  market_name : List Nat := []
  min_tick : WireF64 := .finite 0 0
  order_types : List Nat := []
  valid_exchanges : List Nat := []
  price_magnifier : Int := 0
  under_con_id : Int := 0
  long_name : List Nat := []
  contract_month : List Nat := []
  industry : List Nat := []
  category : List Nat := []
  subcategory : List Nat := []
  time_zone_id : List Nat := []
  trading_hours : List Nat := []
  liquid_hours : List Nat := []
  ev_rule : List Nat := []
  ev_multiplier : WireF64 := .finite 0 0
  agg_group : Option Int := none
  under_symbol : List Nat := []
  under_sec_type : List Nat := []
  market_rule_ids : List Nat := []
  real_expiration_date : List Nat := []
  last_trade_time : List Nat := []
  stock_type : List Nat := []
  min_size : Option WireDecimal := none
  size_increment : Option WireDecimal := none
  suggested_size_increment : Option WireDecimal := none
  sec_id_list : Option (List TagValue) := none
  cusip : List Nat := []
  ratings : List Nat := []
  desc_append : List Nat := []
  bond_type : List Nat := []
  coupon_type : List Nat := []
  callable : Bool := false
  putable : Bool := false
  coupon : WireF64 := .finite 0 0
  convertible : Bool := false
  maturity : List Nat := []
  issue_date : List Nat := []
  next_option_date : List Nat := []
  next_option_type : List Nat := []
  next_option_part : Bool := false
  notes : List Nat := []
  fund_name : List Nat := []
  fund_family : List Nat := []
  fund_type : List Nat := []
  fund_front_load : List Nat := []
  fund_back_load : List Nat := []
  fund_back_load_time_interval : List Nat := []
  fund_management_fee : List Nat := []
  fund_closed : Bool := false
  fund_closed_for_new_investors : Bool := false
  fund_closed_for_new_money : Bool := false
  fund_notify_amount : List Nat := []
  fund_minimum_initial_purchase : List Nat := []
  fund_subsequent_minimum_purchase : List Nat := []
  fund_blue_sky_states : List Nat := []
  fund_blue_sky_territories : List Nat := []
  fund_distribution_policy_indicator : FundDistributionPolicyIndicator := .none
  fund_asset_type : FundAssetType := .none
  ineligibility_reason_list : Option (List IneligibilityReason) := none
deriving DecidableEq

/-- `ContractDescription`. -/
structure ContractDescription where
  contract : Contract := {}
  derivative_sec_types : List (List Nat) := []
deriving DecidableEq

/-- `Bar`. -/
structure Bar where
  time : List Nat := []
  open_ : WireF64 := .finite 0 0
  high : WireF64 := .finite 0 0
  low : WireF64 := .finite 0 0
  close : WireF64 := .finite 0 0
  volume : Option WireDecimal := none
  wap : Option WireDecimal := none
  count : Int := 0
deriving DecidableEq

/-- `HistoricalTick`. -/
structure HistoricalTick where
  time : Int := 0
  price : WireF64 := .finite 0 0
  size : Option WireDecimal := none
deriving DecidableEq

/-- `HistoricalTickBidAsk`. -/
structure HistoricalTickBidAsk where
  time : Int := 0
  tick_attrib_bid_ask : TickAttribBidAsk := {}
  price_bid : WireF64 := .finite 0 0
  price_ask : WireF64 := .finite 0 0
  size_bid : Option WireDecimal := none
  size_ask : Option WireDecimal := none
deriving DecidableEq

/-- `HistoricalTickLast`. -/
structure HistoricalTickLast where
  time : Int := 0
  tick_attrib_last : TickAttribLast := {}
  price : WireF64 := .finite 0 0
  size : Option WireDecimal := none
  exchange : List Nat := []
  special_conditions : List Nat := []
deriving DecidableEq

/-- `HistoricalSession`. -/
structure HistoricalSession where
  start_date_time : List Nat := []
  end_date_time : List Nat := []
  ref_date : List Nat := []
deriving DecidableEq

/-- `Execution`. -/
structure Execution where
  exec_id : List Nat := []
  time : List Nat := []
  acct_number : List Nat := []
  exchange : List Nat := []
  side : List Nat := []
  shares : Option WireDecimal := none
  price : WireF64 := .finite 0 0
  perm_id : Int := 0
  client_id : Int := 0
  order_id : Int := 0
  liquidation : Int := 0
  cum_qty : Option WireDecimal := none
  avg_price : WireF64 := .finite 0 0
  order_ref : List Nat := []
  ev_rule : List Nat := []
  ev_multiplier : WireF64 := .finite 0 0
  model_code : List Nat := []
  last_liquidity : Int := 0
  pending_price_revision : Bool := false
  submitter : List Nat := []
  opt_exercise_or_lapse_type : OptionExerciseType := .none
deriving DecidableEq

/-- `CommissionAndFeesReport` (`r#yield` is `yield_rate` here). -/
structure CommissionAndFeesReport where
  exec_id : List Nat := []
  commission_and_fees : WireF64 := .finite 0 0
  currency : List Nat := []
  realized_pnl : WireF64 := .finite 0 0
  yield_rate : WireF64 := .finite 0 0
  yield_redemption_date : Int := 0
deriving DecidableEq

/-- `OrderComboLeg`. -/
structure OrderComboLeg where
  price : Option WireF64 := none
deriving DecidableEq

/-- `OrderCondition`: the six-variant flattened condition sum. -/
inductive OrderCondition
  | price (is_conjunction_connection : Bool) (is_more : Bool) (con_id : Int)
      (exchange : List Nat) (priceVal : WireF64) (trigger_method : TriggerMethod)
  | time (is_conjunction_connection : Bool) (is_more : Bool) (timeVal : List Nat)
  | margin (is_conjunction_connection : Bool) (is_more : Bool) (percent : Int)
  | execution (is_conjunction_connection : Bool) (exchange : List Nat)
      (sec_type : List Nat) (symbol : List Nat)
  | volume (is_conjunction_connection : Bool) (is_more : Bool) (con_id : Int)
      (exchange : List Nat) (volumeVal : Int)
  | percentChange (is_conjunction_connection : Bool) (is_more : Bool)
      (con_id : Int) (exchange : List Nat) (change_percent : Option WireF64)
deriving DecidableEq

/-- `OrderAllocation`. -/
structure OrderAllocation where
  account : List Nat := []
  position : Option WireDecimal := none
  position_desired : Option WireDecimal := none
  position_after : Option WireDecimal := none
  desired_alloc_qty : Option WireDecimal := none
  allowed_alloc_qty : Option WireDecimal := none
  is_monetary : Bool := false
deriving DecidableEq

/-- `OrderState`. -/
structure OrderState where
  status : List Nat := []
  init_margin_before : List Nat := []
  maint_margin_before : List Nat := []
  equity_with_loan_before : List Nat := []
  init_margin_change : List Nat := []
  maint_margin_change : List Nat := []
  equity_with_loan_change : List Nat := []
  init_margin_after : List Nat := []
  maint_margin_after : List Nat := []
  equity_with_loan_after : List Nat := []
  commission_and_fees : Option WireF64 := none
  min_commission_and_fees : Option WireF64 := none
  max_commission_and_fees : Option WireF64 := none
  commission_and_fees_currency : List Nat := []
  margin_currency : List Nat := []
  init_margin_before_outside_rth : Option WireF64 := none
  maint_margin_before_outside_rth : Option WireF64 := none
  equity_with_loan_before_outside_rth : Option WireF64 := none
  init_margin_change_outside_rth : Option WireF64 := none
  maint_margin_change_outside_rth : Option WireF64 := none
  equity_with_loan_change_outside_rth : Option WireF64 := none
  init_margin_after_outside_rth : Option WireF64 := none
  maint_margin_after_outside_rth : Option WireF64 := none
  equity_with_loan_after_outside_rth : Option WireF64 := none
  suggested_size : Option WireDecimal := none
  reject_reason : List Nat := []
  order_allocations : Option (List OrderAllocation) := none
  warning_text : List Nat := []
  completed_time : List Nat := []
  completed_status : List Nat := []
deriving DecidableEq

/-- `Order` with the Rust `Default` values (`transmit = true`,
`origin = Customer`, `exempt_code = -1`, `auction_strategy = Unset`,
`use_price_mgmt_algo = Default`). -/
structure Order where
  order_id : Int := 0
  client_id : Int := 0
  perm_id : Int := 0
  action : Option Action := none
  total_quantity : Option WireDecimal := none
  order_type : Option OrderType := none
  lmt_price : Option WireF64 := none
  aux_price : Option WireF64 := none
  tif : Option TimeInForce := none
  active_start_time : List Nat := []
  active_stop_time : List Nat := []
  oca_group : List Nat := []
  oca_type : Int := 0
  order_ref : List Nat := []
  transmit : Bool := true
  parent_id : Int := 0
  block_order : Bool := false
  sweep_to_fill : Bool := false
  display_size : Int := 0
  trigger_method : Int := 0
  outside_rth : Bool := false
  hidden : Bool := false
  good_after_time : List Nat := []
  good_till_date : List Nat := []
  rule_80a : List Nat := []
  all_or_none : Bool := false
  min_qty : Option Int := none
  percent_offset : Option WireF64 := none
  override_percentage_constraints : Bool := false
  trail_stop_price : Option WireF64 := none
  trailing_percent : Option WireF64 := none
  fa_group : List Nat := []
  fa_method : List Nat := []
  fa_percentage : List Nat := []
  open_close : List Nat := []
  origin : Origin := .customer
  short_sale_slot : Int := 0
  designated_location : List Nat := []
  exempt_code : Int := -1
  discretionary_amt : WireF64 := .finite 0 0
  opt_out_smart_routing : Bool := false
  auction_strategy : AuctionStrategy := .unset
  starting_price : Option WireF64 := none
  stock_ref_price : Option WireF64 := none
  delta : Option WireF64 := none
  stock_range_lower : Option WireF64 := none
  stock_range_upper : Option WireF64 := none
  randomize_size : Bool := false
  randomize_price : Bool := false
  volatility : Option WireF64 := none
  volatility_type : Option Int := none
  delta_neutral_order_type : List Nat := []
  delta_neutral_aux_price : Option WireF64 := none
  delta_neutral_con_id : Int := 0
  delta_neutral_settling_firm : List Nat := []
  delta_neutral_clearing_account : List Nat := []
  delta_neutral_clearing_intent : List Nat := []
  delta_neutral_open_close : List Nat := []
  delta_neutral_short_sale : Bool := false
  delta_neutral_short_sale_slot : Int := 0
  delta_neutral_designated_location : List Nat := []
  continuous_update : Bool := false
  reference_price_type : Option Int := none
  basis_points : Option WireF64 := none
  basis_points_type : Option Int := none
  scale_init_level_size : Option Int := none
  scale_subs_level_size : Option Int := none
  scale_price_increment : Option WireF64 := none
  scale_price_adjust_value : Option WireF64 := none
  scale_price_adjust_interval : Option Int := none
  scale_profit_offset : Option WireF64 := none
  scale_auto_reset : Bool := false
  scale_init_position : Option Int := none
  scale_init_fill_qty : Option Int := none
  scale_random_percent : Bool := false
  scale_table : List Nat := []
  hedge_type : List Nat := []
  hedge_param : List Nat := []
  account : List Nat := []
  settling_firm : List Nat := []
  clearing_account : List Nat := []
  clearing_intent : List Nat := []
  algo_strategy : List Nat := []
  algo_params : Option (List TagValue) := none
  smart_combo_routing_params : Option (List TagValue) := none
  algo_id : List Nat := []
  what_if : Bool := false
  not_held : Bool := false
  solicited : Bool := false
  model_code : List Nat := []
  order_combo_legs : Option (List OrderComboLeg) := none
  order_misc_options : Option (List TagValue) := none
  reference_contract_id : Option Int := none
  pegged_change_amount : Option WireF64 := none
  is_pegged_change_amount_decrease : Bool := false
  reference_change_amount : Option WireF64 := none
  reference_exchange_id : List Nat := []
  adjusted_order_type : List Nat := []
  trigger_price : Option WireF64 := none
  adjusted_stop_price : Option WireF64 := none
  adjusted_stop_limit_price : Option WireF64 := none
  adjusted_trailing_amount : Option WireF64 := none
  adjustable_trailing_unit : Option Int := none
  lmt_price_offset : Option WireF64 := none
  conditions : List OrderCondition := []
  conditions_cancel_order : Bool := false
  conditions_ignore_rth : Bool := false
  ext_operator : List Nat := []
  soft_dollar_tier : SoftDollarTier := {}
  cash_qty : Option WireF64 := none
  mifid2_decision_maker : List Nat := []
  mifid2_decision_algo : List Nat := []
  mifid2_execution_trader : List Nat := []
  mifid2_execution_algo : List Nat := []
  dont_use_auto_price_for_hedge : Bool := false
  is_oms_container : Bool := false
  discretionary_up_to_limit_price : Bool := false
  auto_cancel_date : List Nat := []
  filled_quantity : Option WireDecimal := none
  ref_futures_con_id : Option Int := none
  auto_cancel_parent : Bool := false
  shareholder : List Nat := []
  imbalance_only : Bool := false
  route_marketable_to_bbo : Bool := false
  parent_perm_id : Option Int := none
  use_price_mgmt_algo : UsePriceMgmtAlgo := .default
  duration : Option Int := none
  post_to_ats : Option Int := none
  advanced_error_override : List Nat := []
  manual_order_time : List Nat := []
  min_trade_qty : Option Int := none
  min_compete_size : Option Int := none
  compete_against_best_offset : Option WireF64 := none
  mid_offset_at_whole : Option WireF64 := none
  mid_offset_at_half : Option WireF64 := none
  customer_account : List Nat := []
  professional_customer : Bool := false
  bond_accrued_interest : List Nat := []
  include_overnight : Bool := false
  manual_order_indicator : Option Int := none
  submitter : List Nat := []
deriving DecidableEq

/-- `ScannerDataItem`. -/
structure ScannerDataItem where
  rank : Int := 0
  contract_details : ContractDetails := {}
  distance : List Nat := []
  benchmark : List Nat := []
  projection : List Nat := []
  legs_str : List Nat := []
deriving DecidableEq

/-! ## `IBEvent` (`wrapper.rs`) -/

/-- All server events (`wrapper.rs::IBEvent`); `Box`es are inlined. -/
inductive IBEvent
  | nextValidId (order_id : Int)
  | managedAccounts (accounts : List Nat)
  | error (req_id : Int) (error_time : Int) (code : Int) (message : List Nat)
      (advanced_order_reject_json : List Nat)
  | connectionClosed
  | tickPrice (req_id : Int) (tick_type : TickType) (price : WireF64)
      (size : WireDecimal) (attrib : TickAttrib)
  | tickSize (req_id : Int) (tick_type : TickType) (size : WireDecimal)
  | tickOptionComputation (req_id : Int) (tick_type : TickType)
      (tick_attrib : Int) (implied_vol : Option WireF64)
      (delta : Option WireF64) (opt_price : Option WireF64)
      (pv_dividend : Option WireF64) (gamma : Option WireF64)
      (vega : Option WireF64) (theta : Option WireF64)
      (und_price : Option WireF64)
  | tickGeneric (req_id : Int) (tick_type : TickType) (value : WireF64)
  | tickString (req_id : Int) (tick_type : TickType) (value : List Nat)
  | tickEfp (req_id : Int) (tick_type : TickType) (basis_points : WireF64)
      (formatted_basis_points : List Nat) (total_dividends : WireF64)
      (hold_days : Int) (future_last_trade_date : List Nat)
      (dividend_impact : WireF64) (dividends_to_last_trade_date : WireF64)
  | tickSnapshotEnd (req_id : Int)
  | tickReqParams (req_id : Int) (min_tick : WireF64)
      (bbo_exchange : List Nat) (snapshot_permissions : Int)
  | tickNews (req_id : Int) (timestamp : Int) (provider_code : List Nat)
      (article_id : List Nat) (headline : List Nat) (extra_data : List Nat)
  | marketDataType (req_id : Int) (market_data_type : Int)
  | tickByTickAllLast (req_id : Int) (tick_type : Int) (time : Int)
      (price : WireF64) (size : WireDecimal) (attrib : TickAttribLast)
      (exchange : List Nat) (special_conditions : List Nat)
  | tickByTickBidAsk (req_id : Int) (time : Int) (bid_price : WireF64)
      (ask_price : WireF64) (bid_size : WireDecimal) (ask_size : WireDecimal)
      (attrib : TickAttribBidAsk)
  | tickByTickMidPoint (req_id : Int) (time : Int) (mid_point : WireF64)
  | orderStatus (order_id : Int) (status : List Nat) (filled : WireDecimal)
      (remaining : WireDecimal) (avg_fill_price : WireF64) (perm_id : Int)
      (parent_id : Int) (last_fill_price : WireF64) (client_id : Int)
      (why_held : List Nat) (mkt_cap_price : WireF64)
  | openOrder (order_id : Int) (contract : Contract) (order : Order)
      (order_state : OrderState)
  | openOrderEnd
  | completedOrder (contract : Contract) (order : Order)
      (order_state : OrderState)
  | completedOrdersEnd
  | orderBound (perm_id : Int) (client_id : Int) (order_id : Int)
  | execDetails (req_id : Int) (contract : Contract) (execution : Execution)
  | execDetailsEnd (req_id : Int)
  | commissionReport (report : CommissionAndFeesReport)
  | updateAccountValue (key : List Nat) (value : List Nat)
      (currency : List Nat) (account_name : List Nat)
  | updatePortfolio (contract : Contract) (position : WireDecimal)
      (market_price : WireF64) (market_value : WireF64)
      (average_cost : WireF64) (unrealized_pnl : WireF64)
      (realized_pnl : WireF64) (account_name : List Nat)
  | updateAccountTime (timestamp : List Nat)
  | accountDownloadEnd (account : List Nat)
  | accountSummary (req_id : Int) (account : List Nat) (tag : List Nat)
      (value : List Nat) (currency : List Nat)
  | accountSummaryEnd (req_id : Int)
  | position (account : List Nat) (contract : Contract)
      (positionVal : WireDecimal) (avg_cost : WireF64)
  | positionEnd
  | positionMulti (req_id : Int) (account : List Nat) (model_code : List Nat)
      (contract : Contract) (pos : WireDecimal) (avg_cost : WireF64)
  | positionMultiEnd (req_id : Int)
  | accountUpdateMulti (req_id : Int) (account : List Nat)
      (model_code : List Nat) (key : List Nat) (value : List Nat)
      (currency : List Nat)
  | accountUpdateMultiEnd (req_id : Int)
  | contractDetails (req_id : Int) (details : ContractDetails)
  | bondContractDetails (req_id : Int) (details : ContractDetails)
  | contractDetailsEnd (req_id : Int)
  | symbolSamples (req_id : Int) (descriptions : List ContractDescription)
  | deltaNeutralValidation (req_id : Int)
      (delta_neutral_contract : DeltaNeutralContract)
  | securityDefinitionOptionalParameter (req_id : Int) (exchange : List Nat)
      (underlying_con_id : Int) (trading_class : List Nat)
      (multiplier : List Nat) (expirations : List (List Nat))
      (strikes : List WireF64)
  | securityDefinitionOptionalParameterEnd (req_id : Int)
  | updateMktDepth (req_id : Int) (positionVal : Int) (operation : Int)
      (side : Int) (price : WireF64) (size : WireDecimal)
  | updateMktDepthL2 (req_id : Int) (positionVal : Int)
      (market_maker : List Nat) (operation : Int) (side : Int)
      (price : WireF64) (size : WireDecimal) (is_smart_depth : Bool)
  | mktDepthExchanges (descriptions : List DepthMktDataDescription)
  | historicalData (req_id : Int) (bars : List Bar)
  | historicalDataEnd (req_id : Int) (start : List Nat) (endStr : List Nat)
  | historicalDataUpdate (req_id : Int) (bar : Bar)
  | headTimestamp (req_id : Int) (head_timestamp : List Nat)
  | historicalTicks (req_id : Int) (ticks : List HistoricalTick) (done : Bool)
  | historicalTicksBidAsk (req_id : Int) (ticks : List HistoricalTickBidAsk)
      (done : Bool)
  | historicalTicksLast (req_id : Int) (ticks : List HistoricalTickLast)
      (done : Bool)
  | historicalSchedule (req_id : Int) (start_date_time : List Nat)
      (end_date_time : List Nat) (time_zone : List Nat)
      (sessions : List HistoricalSession)
  | realtimeBar (req_id : Int) (time : Int) (open_ : WireF64) (high : WireF64)
      (low : WireF64) (close : WireF64) (volume : WireDecimal)
      (wap : WireDecimal) (count : Int)
  | scannerData (req_id : Int) (items : List ScannerDataItem)
  | scannerDataEnd (req_id : Int)
  | scannerParameters (xml : List Nat)
  | fundamentalData (req_id : Int) (data : List Nat)
  | pnl (req_id : Int) (daily_pnl : WireF64) (unrealized_pnl : WireF64)
      (realized_pnl : WireF64)
  | pnlSingle (req_id : Int) (pos : WireDecimal) (daily_pnl : WireF64)
      (unrealized_pnl : WireF64) (realized_pnl : WireF64) (value : WireF64)
  | updateNewsBulletin (msg_id : Int) (msg_type : Int) (message : List Nat)
      (origin_exch : List Nat)
  | newsArticle (req_id : Int) (article_type : Int) (article_text : List Nat)
  | historicalNews (req_id : Int) (time : List Nat) (provider_code : List Nat)
      (article_id : List Nat) (headline : List Nat)
  | historicalNewsEnd (req_id : Int) (has_more : Bool)
  | newsProviders (providers : List NewsProvider)
  | receiveFa (fa_data_type : Int) (xml : List Nat)
  | replaceFaEnd (req_id : Int) (text : List Nat)
  | marketRule (market_rule_id : Int) (price_increments : List PriceIncrement)
  | rerouteMktDataReq (req_id : Int) (con_id : Int) (exchange : List Nat)
  | rerouteMktDepthReq (req_id : Int) (con_id : Int) (exchange : List Nat)
  | smartComponents (req_id : Int) (components : List SmartComponent)
  | familyCodes (codes : List FamilyCode)
  | softDollarTiers (req_id : Int) (tiers : List SoftDollarTier)
  | histogramData (req_id : Int) (data : List HistogramEntry)
  | currentTime (time : Int)
  | currentTimeInMillis (time_in_millis : Int)
  | wshMetaData (req_id : Int) (data_json : List Nat)
  | wshEventData (req_id : Int) (data_json : List Nat)
  | userInfo (req_id : Int) (white_branding_id : List Nat)
  | displayGroupList (req_id : Int) (groups : List Nat)
  | displayGroupUpdated (req_id : Int) (contract_info : List Nat)
  | verifyMessageApi (api_data : List Nat)
  | verifyCompleted (is_successful : Bool) (error_text : List Nat)
  | verifyAndAuthMessageApi (api_data : List Nat) (xyz_challenge : List Nat)
  | verifyAndAuthCompleted (is_successful : Bool) (error_text : List Nat)
  | unknown (msg_id : Int) (data : List Nat)


/-! ## Errors (`errors.rs`) and the decoder monad (`decoder.rs`) -/

/-- `IBApiError` kinds.  Only `Protocol` keeps its message payload (C6
depends on the redirect target embedded in it); the other variants'
format-string payloads carry no claim-relevant data and are dropped. -/
inductive IBApiError
  | connection
  | encoding
  | decoding
  | protocol (msg : List Nat)
  | disconnected
deriving DecidableEq

/-- A decoder-side failure: either a Rust `Err(IBApiError)` — which
`decode_server_msg` catches — or a Rust panic, which it does not. -/
inductive DecFail
  | err (e : IBApiError)
  | panicked
deriving DecidableEq

/-- `MessageDecoder`'s state: buffer, cursor, negotiated server version. -/
structure Dec where
  data : List Nat
  pos : Nat
  server_version : Int
deriving DecidableEq

/-- The decoder computation type: explicit state over `Except`. -/
def DecM (α : Type) : Type := Dec → Except DecFail (α × Dec)

instance : Monad DecM where
  pure a := fun s => .ok (a, s)
  bind x f := fun s =>
    match x s with
    | .ok (a, s') => f a s'
    | .error e => .error e

/-- Raise `IBApiError::Decoding`. -/
def throwDecoding {α : Type} : DecM α := fun _ => .error (.err .decoding)

/-- A Rust panic inside a decoder. -/
def panicNow {α : Type} : DecM α := fun _ => .error .panicked

/-- `Vec::with_capacity(count as usize)` for the (non-zero-sized) element
types of the decoders.  A negative decoded count sign-extends through `as
usize` to at least `2^63`, and `Vec::with_capacity` panics ("capacity
overflow") whenever the requested capacity alone exceeds `isize::MAX`
(`2^63 - 1`); the further element-size-dependent overflow cases concern
only astronomically large positive counts and are not modelled. -/
def vecWithCapacity (count : Int) : DecM Unit :=
  if (count.emod (2 ^ 64)).toNat ≤ 2 ^ 63 - 1 then pure () else panicNow

/-- Read the negotiated server version (`MessageDecoder::server_version`). -/
def getServerVersion : DecM Int := fun s => .ok (s.server_version, s)

/-- Server-version gates (`protocol.rs::server_version`), outgoing and
incoming message IDs (`protocol.rs`), restricted to those this
development uses. -/
def svDELTA_NEUTRAL : Int := 40
def svREQ_MKT_DATA_CONID : Int := 47
def svSSHORTX_OLD : Int := 51
def svTRADING_CLASS : Int := 68
def svLINKING : Int := 70
def svOPTIONAL_CAPABILITIES : Int := 72
def svPEGGED_TO_BENCHMARK : Int := 102
def svMODELS_SUPPORT : Int := 103
def svSOFT_DOLLAR_TIER : Int := 106
def svPAST_LIMIT : Int := 109
def svMD_SIZE_MULTIPLIER : Int := 110
def svCASH_QTY : Int := 111
def svREQ_SMART_COMPONENTS : Int := 114
def svSERVICE_DATA_TYPE : Int := 120
def svAGG_GROUP : Int := 121
def svUNDERLYING_INFO : Int := 122
def svSYNT_REALTIME_BARS : Int := 124
def svMARKET_RULES : Int := 126
def svUNREALIZED_PNL : Int := 129
def svMARKET_CAP_PRICE : Int := 131
def svPRE_OPEN_BID_ASK : Int := 132
def svREAL_EXPIRATION_DATE : Int := 134
def svREALIZED_PNL : Int := 135
def svLAST_LIQUIDITY : Int := 136
def svAUTO_PRICE_FOR_HEDGE : Int := 141
def svWHAT_IF_EXT_FIELDS : Int := 142
def svORDER_CONTAINER : Int := 145
def svSMART_DEPTH : Int := 146
def svD_PEG_ORDERS : Int := 148
def svPRICE_MGMT_ALGO : Int := 151
def svSTOCK_TYPE : Int := 152
def svPRICE_BASED_VOLATILITY : Int := 156
def svDURATION : Int := 158
def svPOST_TO_ATS : Int := 160
def svAUTO_CANCEL_PARENT : Int := 162
def svFRACTIONAL_SIZE_SUPPORT : Int := 163
def svSIZE_RULES : Int := 164
def svADVANCED_ORDER_REJECT : Int := 166
def svPEGBEST_PEGMID_OFFSETS : Int := 170
def svFA_PROFILE_DESUPPORT : Int := 177
def svPENDING_PRICE_REVISION : Int := 178
def svFUND_DATA_FIELDS : Int := 179
def svLAST_TRADE_DATE : Int := 182
def svCUSTOMER_ACCOUNT : Int := 183
def svPROFESSIONAL_CUSTOMER : Int := 184
def svBOND_ACCRUED_INTEREST : Int := 185
def svINELIGIBILITY_REASONS : Int := 186
def svBOND_TRADING_HOURS : Int := 188
def svINCLUDE_OVERNIGHT : Int := 189
def svPERM_ID_AS_LONG : Int := 191
def svCME_TAGGING_FIELDS_IN_OPEN_ORDER : Int := 193
def svERROR_TIME : Int := 194
def svFULL_ORDER_PREVIEW_FIELDS : Int := 195
def svHISTORICAL_DATA_END : Int := 196
def svCURRENT_TIME_IN_MILLIS : Int := 197
def svSUBMITTER : Int := 198
def svIMBALANCE_ONLY : Int := 199
def svPROTOBUF : Int := 201

/-- `MIN_CLIENT_VER`. -/
def MIN_CLIENT_VER : Int := 100
/-- `MAX_CLIENT_VER`. -/
def MAX_CLIENT_VER : Int := 203
/-- `MAX_MSG_LEN` (16 MiB − 1). -/
def MAX_MSG_LEN : Nat := 0xFFFFFF
/-- `HEADER_LEN`. -/
def HEADER_LEN : Nat := 4
/-- `outgoing::PROTOBUF_MSG_ID`. -/
def PROTOBUF_MSG_ID : Int := 200

/-! ### `MessageDecoder` field primitives -/

/-- `MessageDecoder::read_field_str`: check `has_remaining`, find the next
null terminator, validate UTF-8, return the field and advance past the
null. -/
def readFieldStr : DecM (List Nat) := fun s =>
  if s.pos < s.data.length then
    match (s.data.drop s.pos).findIdx? (fun b => decide (b = 0)) with
    | none => .error (.err .decoding)
    | some off =>
      let field := (s.data.drop s.pos).take off
      if utf8Valid field then .ok (field, { s with pos := s.pos + off + 1 })
      else .error (.err .decoding)
  else .error (.err .decoding)

/-- `decode_string`. -/
def decodeString : DecM (List Nat) := readFieldStr

/-- `decode_i32`: empty field is `0`, else `parse::<i32>`. -/
def decodeI32 : DecM Int := do
  let s ← readFieldStr
  if s = [] then pure 0
  else match parseIntWidth 32 s with
    | some v => pure v
    | none => throwDecoding

/-- `decode_i64`: empty field is `0`, else `parse::<i64>`. -/
def decodeI64 : DecM Int := do
  let s ← readFieldStr
  if s = [] then pure 0
  else match parseIntWidth 64 s with
    | some v => pure v
    | none => throwDecoding

/-- `decode_f64`: empty field is `0.0`, `"Infinity"` is `+∞`. -/
def decodeF64 : DecM WireF64 := do
  let s ← readFieldStr
  if s = [] then pure (.finite 0 0)
  else if s = strBytes "Infinity" then pure .inf
  else match parseF64Bytes s with
    | some v => pure v
    | none => throwDecoding

/-- `decode_bool`: decoded integer `> 0`. -/
def decodeBool : DecM Bool := do
  let v ← decodeI32
  pure (decide (0 < v))

/-- `decode_decimal`: empty field is `Decimal::ZERO`. -/
def decodeDecimal : DecM WireDecimal := do
  let s ← readFieldStr
  if s = [] then pure WireDecimal.zero
  else match parseDecimalBytes s with
    | some v => pure v
    | none => throwDecoding

/-- `decode_time` (`decode_i64` under the hood). -/
def decodeTime : DecM Int := decodeI64

/-- `decode_i32_max`: empty field is `None`. -/
def decodeI32Max : DecM (Option Int) := do
  let s ← readFieldStr
  if s = [] then pure none
  else match parseIntWidth 32 s with
    | some v => pure (some v)
    | none => throwDecoding

/-- `decode_i64_max`: empty field is `None`. -/
def decodeI64Max : DecM (Option Int) := do
  let s ← readFieldStr
  if s = [] then pure none
  else match parseIntWidth 64 s with
    | some v => pure (some v)
    | none => throwDecoding

/-- `decode_f64_max`: empty field is `None`; `"Infinity"` is `Some(+∞)`. -/
def decodeF64Max : DecM (Option WireF64) := do
  let s ← readFieldStr
  if s = [] then pure none
  else if s = strBytes "Infinity" then pure (some .inf)
  else match parseF64Bytes s with
    | some v => pure (some v)
    | none => throwDecoding

/-- `decode_decimal_max`: empty field is `None`. -/
def decodeDecimalMax : DecM (Option WireDecimal) := do
  let s ← readFieldStr
  if s = [] then pure none
  else match parseDecimalBytes s with
    | some v => pure (some v)
    | none => throwDecoding

/-- `decode_raw_int`: 4-byte big-endian two's-complement `i32`, no null
terminator. -/
def decodeRawInt : DecM Int := fun s =>
  if s.data.length - s.pos < 4 then .error (.err .decoding)
  else
    let b := s.data.drop s.pos
    let n : Nat := b.getD 0 0 * 2 ^ 24 + b.getD 1 0 * 2 ^ 16 +
      b.getD 2 0 * 2 ^ 8 + b.getD 3 0
    .ok (if n < 2 ^ 31 then (n : Int) else (n : Int) - 2 ^ 32,
      { s with pos := s.pos + 4 })

/-- `decode_msg_id`: raw int for protobuf-capable servers, else text. -/
def decodeMsgId : DecM Int := fun s =>
  if s.server_version ≥ svPROTOBUF then decodeRawInt s else decodeI32 s

/-- `decode_enum` for a fallible `FromStr` (`None` from the map is the
`Err` of the Rust `FromStr`; infallible enums pass a total map). -/
def decodeEnumT {ε : Type} (fromB : List Nat → Option ε) : DecM ε := do
  let s ← readFieldStr
  match fromB s with
  | some v => pure v
  | none => throwDecoding

/-- `decode_enum_opt`: empty field is `None`. -/
def decodeEnumOptT {ε : Type} (fromB : List Nat → Option ε) :
    DecM (Option ε) := do
  let s ← readFieldStr
  if s = [] then pure none
  else match fromB s with
    | some v => pure (some v)
    | none => throwDecoding

/-- `skip_field`. -/
def skipField : DecM Unit := do
  let _ ← readFieldStr
  pure ()

/-- `skip_fields`. -/
def skipFields : Nat → DecM Unit
  | 0 => pure ()
  | n + 1 => do
    skipField
    skipFields n

/-- `remaining` (`&data[pos..]`). -/
def remainingBytes : DecM (List Nat) := fun s => .ok (s.data.drop s.pos, s)

/-- Run a decoder body `count.toNat` times (`for _ in 0..count`; a
non-positive count runs zero iterations, exactly as the Rust range). -/
def forCount {α : Type} (count : Int) (body : DecM α) : DecM (List α) :=
  let rec go : Nat → DecM (List α)
    | 0 => pure []
    | n + 1 => do
      let x ← body
      let xs ← go n
      pure (x :: xs)
  go count.toNat

/-! ## Per-message decoders (`decoder.rs`) -/

/-- `f64::MAX` (used by decoders as an internal "unset" marker). -/
def f64MAX : WireF64 := .finite ((2 ^ 53 - 1) * 2 ^ 971) 0

/-- `i32::MAX` (`UNSET_INTEGER`). -/
def i32MAX : Int := 2 ^ 31 - 1

/-- `decode_id_long`: `i64` when `sv ≥ PERM_ID_AS_LONG`, else `i32`. -/
def decodeIdLong : DecM Int := do
  let sv ← getServerVersion
  if sv ≥ svPERM_ID_AS_LONG then decodeI64 else decodeI32

/-- `decode_tick_type`. -/
def decodeTickType : DecM TickType := do
  let raw ← decodeI32
  match TickType.tryFrom raw with
  | some t => pure t
  | none => throwDecoding

/-- `decode_order_contract`: the 11-field contract of OPEN_ORDER /
COMPLETED_ORDER / POSITION_MULTI (no `primary_exchange`, no
`include_expired`). -/
def decodeOrderContract : DecM Contract := do
  let con_id ← decodeI32
  let symbol ← decodeString
  let sec_type ← decodeEnumOptT (fun s => some (SecType.fromBytes s))
  let ltd ← decodeString
  let strike ← decodeF64Max
  let right ← decodeEnumOptT (fun s => some (Right.fromBytes s))
  let multiplier ← decodeString
  let exchange ← decodeString
  let currency ← decodeString
  let local_symbol ← decodeString
  let trading_class ← decodeString
  pure { con_id := con_id, symbol := symbol, sec_type := sec_type,
         last_trade_date_or_contract_month := ltd, strike := strike,
         right := right, multiplier := multiplier, exchange := exchange,
         currency := currency, local_symbol := local_symbol,
         trading_class := trading_class }

/-- `decode_order_condition`. -/
def decodeOrderCondition (condition_type : Int) : DecM OrderCondition := do
  let conj ← decodeString
  let is_conjunction := conj = strBytes "a"
  match OrderConditionType.tryFrom condition_type with
  | some .price => do
    let is_more ← decodeBool
    let con_id ← decodeI32
    let exchange ← decodeString
    let priceVal ← decodeF64
    let tm ← decodeI32
    let trigger_method := (TriggerMethod.tryFrom tm).getD .default
    pure (.price is_conjunction is_more con_id exchange priceVal trigger_method)
  | some .time => do
    let is_more ← decodeBool
    let timeVal ← decodeString
    pure (.time is_conjunction is_more timeVal)
  | some .margin => do
    let is_more ← decodeBool
    let percent ← decodeI32
    pure (.margin is_conjunction is_more percent)
  | some .execution => do
    let exchange ← decodeString
    let sec_type ← decodeString
    let symbol ← decodeString
    pure (.execution is_conjunction exchange sec_type symbol)
  | some .volume => do
    let is_more ← decodeBool
    let con_id ← decodeI32
    let exchange ← decodeString
    let volumeVal ← decodeI32
    pure (.volume is_conjunction is_more con_id exchange volumeVal)
  | some .percentChange => do
    let is_more ← decodeBool
    let con_id ← decodeI32
    let exchange ← decodeString
    let change_percent ← decodeF64Max
    pure (.percentChange is_conjunction is_more con_id exchange change_percent)
  | none => throwDecoding

/-- `decode_err_msg` (ERR_MSG, 4). -/
def decodeErrMsg : DecM IBEvent := do
  let version ← decodeI32
  if version < 2 then do
    let msg ← decodeString
    pure (.error (-1) 0 0 msg [])
  else do
    let id ← decodeI32
    let error_code ← decodeI32
    let error_msg ← decodeString
    let sv ← getServerVersion
    let aorj ← if sv ≥ svADVANCED_ORDER_REJECT then decodeString else pure []
    let error_time ← if sv ≥ svERROR_TIME then decodeTime else pure 0
    pure (.error id error_time error_code error_msg aorj)

/-- `decode_next_valid_id` (NEXT_VALID_ID, 9). -/
def decodeNextValidId : DecM IBEvent := do
  let _version ← decodeI32
  let order_id ← decodeI64
  pure (.nextValidId order_id)

/-- `decode_managed_accts` (MANAGED_ACCTS, 15). -/
def decodeManagedAccts : DecM IBEvent := do
  let _version ← decodeI32
  let accounts ← decodeString
  pure (.managedAccounts accounts)

/-- `decode_current_time` (CURRENT_TIME, 49). -/
def decodeCurrentTime : DecM IBEvent := do
  let _version ← decodeI32
  let time ← decodeTime
  pure (.currentTime time)

/-- `decode_current_time_in_millis` (CURRENT_TIME_IN_MILLIS, 109). -/
def decodeCurrentTimeInMillis : DecM IBEvent := do
  let t ← decodeTime
  pure (.currentTimeInMillis t)

/-- `decode_tick_price` (TICK_PRICE, 1). -/
def decodeTickPrice : DecM IBEvent := do
  let sv ← getServerVersion
  let _version ← decodeI32
  let req_id ← decodeI32
  let tick_type ← decodeTickType
  let price ← decodeF64
  let size ← decodeDecimal
  let attr_mask ← decodeI32
  let attrib : TickAttrib :=
    { can_auto_execute :=
        sv ≥ svPAST_LIMIT ∧ attr_mask.emod 2 = 1,
      past_limit := sv ≥ svPAST_LIMIT ∧ (attr_mask.fdiv 2).emod 2 = 1,
      pre_open := sv ≥ svPRE_OPEN_BID_ASK ∧ (attr_mask.fdiv 4).emod 2 = 1 }
  pure (.tickPrice req_id tick_type price size attrib)

/-- `decode_tick_size` (TICK_SIZE, 2). -/
def decodeTickSize : DecM IBEvent := do
  let _version ← decodeI32
  let req_id ← decodeI32
  let tick_type ← decodeTickType
  let size ← decodeDecimal
  pure (.tickSize req_id tick_type size)

/-- `decode_tick_option_computation` (TICK_OPTION_COMPUTATION, 21). -/
def decodeTickOptionComputation : DecM IBEvent := do
  let sv ← getServerVersion
  let version ← if sv < svPRICE_BASED_VOLATILITY then decodeI32 else pure i32MAX
  let req_id ← decodeI32
  let tick_type ← decodeTickType
  let tick_attrib ← if sv ≥ svPRICE_BASED_VOLATILITY then decodeI32 else pure 0
  let iv0 ← decodeF64
  let implied_vol := if iv0 = .finite (-1) 0 then f64MAX else iv0
  let d0 ← decodeF64
  let delta := if d0 = .finite (-2) 0 then f64MAX else d0
  let is_model := tick_type = TickType.modelOption ∨
    tick_type = TickType.delayedModelOptionComputation
  let six ← if version ≥ 6 ∨ is_model then do
      let op0 ← decodeF64
      let op := if op0 = .finite (-1) 0 then f64MAX else op0
      let pvd0 ← decodeF64
      let pvd := if pvd0 = .finite (-1) 0 then f64MAX else pvd0
      let g0 ← decodeF64
      let g := if g0 = .finite (-2) 0 then f64MAX else g0
      let v0 ← decodeF64
      let v := if v0 = .finite (-2) 0 then f64MAX else v0
      let t0 ← decodeF64
      let t := if t0 = .finite (-2) 0 then f64MAX else t0
      let u0 ← decodeF64
      let u := if u0 = .finite (-1) 0 then f64MAX else u0
      pure (some op, some pvd, some g, some v, some t, some u)
    else
      pure ((none : Option WireF64), (none : Option WireF64),
        (none : Option WireF64), (none : Option WireF64),
        (none : Option WireF64), (none : Option WireF64))
  let toOpt : WireF64 → Option WireF64 := fun v =>
    if v = f64MAX then none else some v
  pure (.tickOptionComputation req_id tick_type tick_attrib
    (toOpt implied_vol) (toOpt delta) (six.1.bind toOpt)
    (six.2.1.bind toOpt) (six.2.2.1.bind toOpt) (six.2.2.2.1.bind toOpt)
    (six.2.2.2.2.1.bind toOpt) (six.2.2.2.2.2.bind toOpt))

/-- `decode_tick_generic` (TICK_GENERIC, 45). -/
def decodeTickGeneric : DecM IBEvent := do
  let _version ← decodeI32
  let req_id ← decodeI32
  let tick_type ← decodeTickType
  let value ← decodeF64
  pure (.tickGeneric req_id tick_type value)

/-- `decode_tick_string` (TICK_STRING, 46). -/
def decodeTickString : DecM IBEvent := do
  let _version ← decodeI32
  let req_id ← decodeI32
  let tick_type ← decodeTickType
  let value ← decodeString
  pure (.tickString req_id tick_type value)

/-- `decode_tick_efp` (TICK_EFP, 47). -/
def decodeTickEfp : DecM IBEvent := do
  let _version ← decodeI32
  let req_id ← decodeI32
  let tick_type ← decodeTickType
  let basis_points ← decodeF64
  let formatted ← decodeString
  let total_dividends ← decodeF64
  let hold_days ← decodeI32
  let future_ltd ← decodeString
  let dividend_impact ← decodeF64
  let dtl ← decodeF64
  pure (.tickEfp req_id tick_type basis_points formatted total_dividends
    hold_days future_ltd dividend_impact dtl)

/-- `decode_tick_snapshot_end` (TICK_SNAPSHOT_END, 57). -/
def decodeTickSnapshotEnd : DecM IBEvent := do
  let _version ← decodeI32
  let req_id ← decodeI32
  pure (.tickSnapshotEnd req_id)

/-- `decode_tick_req_params` (TICK_REQ_PARAMS, 81). -/
def decodeTickReqParams : DecM IBEvent := do
  let req_id ← decodeI32
  let min_tick ← decodeF64
  let bbo_exchange ← decodeString
  let snapshot_permissions ← decodeI32
  pure (.tickReqParams req_id min_tick bbo_exchange snapshot_permissions)

/-- `decode_tick_news` (TICK_NEWS, 84). -/
def decodeTickNews : DecM IBEvent := do
  let req_id ← decodeI32
  let timestamp ← decodeTime
  let provider_code ← decodeString
  let article_id ← decodeString
  let headline ← decodeString
  let extra_data ← decodeString
  pure (.tickNews req_id timestamp provider_code article_id headline
    extra_data)

/-- `decode_market_data_type` (MARKET_DATA_TYPE, 58). -/
def decodeMarketDataType : DecM IBEvent := do
  let _version ← decodeI32
  let req_id ← decodeI32
  let mdt ← decodeI32
  pure (.marketDataType req_id mdt)

/-- `decode_tick_by_tick` (TICK_BY_TICK, 99). -/
def decodeTickByTick : DecM IBEvent := do
  let req_id ← decodeI32
  let tick_type ← decodeI32
  let time ← decodeTime
  if tick_type = 1 ∨ tick_type = 2 then do
    let price ← decodeF64
    let size ← decodeDecimal
    let attr_mask ← decodeI32
    let exchange ← decodeString
    let special_conditions ← decodeString
    pure (.tickByTickAllLast req_id tick_type time price size
      { past_limit := attr_mask.emod 2 = 1,
        unreported := (attr_mask.fdiv 2).emod 2 = 1 }
      exchange special_conditions)
  else if tick_type = 3 then do
    let bid_price ← decodeF64
    let ask_price ← decodeF64
    let bid_size ← decodeDecimal
    let ask_size ← decodeDecimal
    let attr_mask ← decodeI32
    pure (.tickByTickBidAsk req_id time bid_price ask_price bid_size ask_size
      { bid_past_low := attr_mask.emod 2 = 1,
        ask_past_high := (attr_mask.fdiv 2).emod 2 = 1 })
  else if tick_type = 4 then do
    let mid_point ← decodeF64
    pure (.tickByTickMidPoint req_id time mid_point)
  else
    pure (.unknown 99 [])

/-- `decode_order_status` (ORDER_STATUS, 3). -/
def decodeOrderStatus : DecM IBEvent := do
  let sv ← getServerVersion
  if sv < svMARKET_CAP_PRICE then skipField else pure ()
  let order_id ← decodeIdLong
  let status ← decodeString
  let filled ← decodeDecimal
  let remaining ← decodeDecimal
  let avg_fill_price ← decodeF64
  let perm_id ← decodeIdLong
  let parent_id ← decodeI32
  let last_fill_price ← decodeF64
  let client_id ← decodeI32
  let why_held ← decodeString
  let mkt_cap_price ← if sv ≥ svMARKET_CAP_PRICE then decodeF64
    else pure (.finite 0 0)
  pure (.orderStatus order_id status filled remaining avg_fill_price perm_id
    parent_id last_fill_price client_id why_held mkt_cap_price)

/-- `decode_order_bound` (ORDER_BOUND, 100). -/
def decodeOrderBound : DecM IBEvent := do
  let perm_id ← decodeI64
  let client_id ← decodeI32
  let order_id ← decodeI32
  pure (.orderBound perm_id client_id order_id)

/-- `f64 > 0.0` on the model (used by the scale-order guards). -/
def WireF64.isPos : WireF64 → Bool
  | .inf => true
  | .finite m _ => decide (0 < m)

/-- `decode_open_order` (OPEN_ORDER, 5). -/
def decodeOpenOrder : DecM IBEvent := do
  let sv ← getServerVersion
  let version ← if sv < svORDER_CONTAINER then decodeI32 else pure sv
  let order_id ← decodeIdLong
  let contract ← decodeOrderContract
  let order : Order := { order_id := order_id }
  let action ← decodeEnumOptT Action.fromBytes
  let total_quantity ← decodeDecimalMax
  let order_type ← decodeEnumOptT (fun s => some (OrderType.fromBytes s))
  let lmt_price ← decodeF64Max
  let aux_price ← decodeF64Max
  let tif ← decodeEnumOptT (fun s => some (TimeInForce.fromBytes s))
  let oca_group ← decodeString
  let account ← decodeString
  let open_close ← decodeString
  let origin0 ← decodeI32
  let origin := (Origin.tryFrom origin0).getD .customer
  let order_ref ← decodeString
  let client_id ← decodeI32
  let perm_id ← decodeIdLong
  let outside_rth ← decodeBool
  let hidden ← decodeBool
  let discretionary_amt ← decodeF64
  let good_after_time ← decodeString
  skipField
  let fa_group ← decodeString
  let fa_method ← decodeString
  let fa_percentage ← decodeString
  if sv < svFA_PROFILE_DESUPPORT then skipField else pure ()
  let model_code ← if sv ≥ svMODELS_SUPPORT then decodeString else pure []
  let good_till_date ← decodeString
  let rule_80a ← decodeString
  let percent_offset ← decodeF64Max
  let settling_firm ← decodeString
  let short_sale_slot ← decodeI32
  let designated_location ← decodeString
  let exempt_code ←
    if sv = svSSHORTX_OLD then do
      skipField
      pure order.exempt_code
    else if version ≥ 23 then decodeI32
    else pure order.exempt_code
  let auction0 ← decodeI32
  let auction_strategy := (AuctionStrategy.tryFrom auction0).getD .unset
  let starting_price ← decodeF64Max
  let stock_ref_price ← decodeF64Max
  let delta ← decodeF64Max
  let stock_range_lower ← decodeF64Max
  let stock_range_upper ← decodeF64Max
  let display_size ← decodeI32
  let block_order ← decodeBool
  let sweep_to_fill ← decodeBool
  let all_or_none ← decodeBool
  let min_qty ← decodeI32Max
  let oca_type ← decodeI32
  skipFields 3
  let parent_id ← decodeI32
  let trigger_method ← decodeI32
  let volatility ← decodeF64Max
  let volatility_type ← decodeI32Max
  let delta_neutral_order_type ← decodeString
  let delta_neutral_aux_price ← decodeF64Max
  let dn1 ←
    if version ≥ 27 ∧ delta_neutral_order_type ≠ [] then do
      let dn_con_id ← decodeI64
      let dn_settling ← decodeString
      let dn_clearing_acct ← decodeString
      let dn_clearing_intent ← decodeString
      pure (dn_con_id, dn_settling, dn_clearing_acct, dn_clearing_intent)
    else pure (0, [], [], [])
  let dn2 ←
    if version ≥ 31 ∧ delta_neutral_order_type ≠ [] then do
      let dn_open_close ← decodeString
      let dn_short_sale ← decodeBool
      let dn_sss ← decodeI32
      let dn_dl ← decodeString
      pure (dn_open_close, dn_short_sale, dn_sss, dn_dl)
    else pure ([], false, 0, [])
  let continuous_update ← decodeBool
  let reference_price_type ← decodeI32Max
  let trail_stop_price ← decodeF64Max
  let trailing_percent ← if version ≥ 30 then decodeF64Max else pure none
  let basis_points ← decodeF64Max
  let basis_points_type ← decodeI32Max
  let combo_legs_descrip ← decodeString
  let legs ←
    if version ≥ 29 then do
      let count ← decodeI32
      let legs ←
        if count > 0 then do
          let _ ← vecWithCapacity count
          let l ← forCount count (do
            let leg_con_id ← decodeI32
            let ratio ← decodeI32
            let leg_action ← decodeEnumOptT Action.fromBytes
            let leg_exchange ← decodeString
            let oc0 ← decodeI32
            let leg_open_close := (LegOpenClose.tryFrom oc0).getD .same
            let tail ←
              if version ≥ 26 then do
                let sss ← decodeI32
                let dl ← decodeString
                let ec ← decodeI32
                pure (sss, dl, ec)
              else pure ((0 : Int), ([] : List Nat), (-1 : Int))
            pure { con_id := leg_con_id, ratio := ratio, action := leg_action,
                   exchange := leg_exchange, open_close := leg_open_close,
                   short_sale_slot := tail.1, designated_location := tail.2.1,
                   exempt_code := tail.2.2 : ComboLeg })
          pure (some l)
        else pure none
      let ocl_count ← decodeI32
      let ocls ←
        if ocl_count > 0 then do
          let _ ← vecWithCapacity ocl_count
          let l ← forCount ocl_count (do
            let p ← decodeF64Max
            pure ({ price := p } : OrderComboLeg))
          pure (some l)
        else pure none
      pure (legs, ocls)
    else pure (none, none)
  let smart_params ←
    if version ≥ 26 then do
      let count ← decodeI32
      if count > 0 then do
        let _ ← vecWithCapacity count
        let l ← forCount count (do
          let tag ← decodeString
          let value ← decodeString
          pure ({ tag := tag, value := value } : TagValue))
        pure (some l)
      else pure none
    else pure none
  let scale1 ←
    if version ≥ 20 then do
      let a ← decodeI32Max
      let b ← decodeI32Max
      pure (a, b)
    else do
      skipField
      let a ← decodeI32Max
      pure (a, none)
  let scale_price_increment ← decodeF64Max
  let scaleTail ←
    if version ≥ 28 ∧ (match scale_price_increment with
        | some inc => inc.isPos
        | none => false) = true then do
      let spav ← decodeF64Max
      let spai ← decodeI32Max
      let spo ← decodeF64Max
      let sar ← decodeBool
      let sip ← decodeI32Max
      let sifq ← decodeI32Max
      let srp ← decodeBool
      pure (spav, spai, spo, sar, sip, sifq, srp)
    else pure (none, none, none, false, none, none, false)
  let hedge ←
    if version ≥ 24 then do
      let hedge_type ← decodeString
      if hedge_type ≠ [] then do
        let hedge_param ← decodeString
        pure (hedge_type, hedge_param)
      else pure (hedge_type, [])
    else pure ([], [])
  let opt_out_smart_routing ← if version ≥ 25 then decodeBool else pure false
  let clearing_account ← decodeString
  let clearing_intent ← decodeString
  let not_held ← if version ≥ 22 then decodeBool else pure false
  let dnc ←
    if version ≥ 20 then do
      let has_dn ← decodeBool
      if has_dn then do
        let c ← decodeI32
        let d ← decodeF64
        let p ← decodeF64
        pure (some { con_id := c, delta := d, price := p :
          DeltaNeutralContract })
      else pure none
    else pure none
  let algo ←
    if version ≥ 21 then do
      let algo_strategy ← decodeString
      if algo_strategy ≠ [] then do
        let count ← decodeI32
        if count > 0 then do
          let _ ← vecWithCapacity count
          let l ← forCount count (do
            let tag ← decodeString
            let value ← decodeString
            pure ({ tag := tag, value := value } : TagValue))
          pure (algo_strategy, some l)
        else pure (algo_strategy, none)
      else pure (algo_strategy, none)
    else pure ([], none)
  let solicited ← if version ≥ 33 then decodeBool else pure false
  let what_if ← decodeBool
  let os_status ← decodeString
  let osExt ←
    if sv ≥ svWHAT_IF_EXT_FIELDS then do
      let a ← decodeString
      let b ← decodeString
      let c ← decodeString
      let d ← decodeString
      let e ← decodeString
      let f ← decodeString
      pure (a, b, c, d, e, f)
    else pure ([], [], [], [], [], [])
  let init_margin_after ← decodeString
  let maint_margin_after ← decodeString
  let equity_with_loan_after ← decodeString
  let commission_and_fees ← decodeF64Max
  let min_commission_and_fees ← decodeF64Max
  let max_commission_and_fees ← decodeF64Max
  let commission_and_fees_currency ← decodeString
  let osPreview ←
    if sv ≥ svFULL_ORDER_PREVIEW_FIELDS then do
      let margin_currency ← decodeString
      let a ← decodeF64Max
      let b ← decodeF64Max
      let c ← decodeF64Max
      let d ← decodeF64Max
      let e ← decodeF64Max
      let f ← decodeF64Max
      let g ← decodeF64Max
      let h ← decodeF64Max
      let i ← decodeF64Max
      let suggested_size ← decodeDecimalMax
      let reject_reason ← decodeString
      let alloc_count ← decodeI32
      let allocs ←
        if alloc_count > 0 then do
          let _ ← vecWithCapacity alloc_count
          let l ← forCount alloc_count (do
            let account ← decodeString
            let position ← decodeDecimalMax
            let position_desired ← decodeDecimalMax
            let position_after ← decodeDecimalMax
            let desired_alloc_qty ← decodeDecimalMax
            let allowed_alloc_qty ← decodeDecimalMax
            let is_monetary ← decodeBool
            pure ({ account := account, position := position,
                    position_desired := position_desired,
                    position_after := position_after,
                    desired_alloc_qty := desired_alloc_qty,
                    allowed_alloc_qty := allowed_alloc_qty,
                    is_monetary := is_monetary } : OrderAllocation))
          pure (some l)
        else pure none
      pure (margin_currency, a, b, c, d, e, f, g, h, i, suggested_size,
        reject_reason, allocs)
    else pure ([], none, none, none, none, none, none, none, none, none,
      none, [], none)
  let warning_text ← decodeString
  let randomize ←
    if version ≥ 34 then do
      let rs ← decodeBool
      let rp ← decodeBool
      pure (rs, rp)
    else pure (false, false)
  let pegBench ←
    if sv ≥ svPEGGED_TO_BENCHMARK ∧ order_type = some OrderType.peggedToBenchmark
    then do
      let rcid ← decodeI32Max
      let ipcad ← decodeBool
      let pca ← decodeF64Max
      let rca ← decodeF64Max
      let rei ← decodeString
      pure (rcid, ipcad, pca, rca, rei)
    else pure (none, false, none, none, [])
  let conds ←
    if sv ≥ svPEGGED_TO_BENCHMARK then do
      let cond_size ← decodeI32
      if cond_size > 0 then do
        let _ ← vecWithCapacity cond_size
        let cs ← forCount cond_size (do
          let ct ← decodeI32
          decodeOrderCondition ct)
        let cir ← decodeBool
        let cco ← decodeBool
        pure (cs, cir, cco)
      else pure ([], false, false)
    else pure ([], false, false)
  let adjusted ←
    if sv ≥ svPEGGED_TO_BENCHMARK then do
      let aot ← decodeString
      let tp ← decodeF64Max
      let tsp ← decodeF64Max
      let lpo ← decodeF64Max
      let asp ← decodeF64Max
      let aslp ← decodeF64Max
      let ata ← decodeF64Max
      let atu ← decodeI32Max
      pure (aot, tp, tsp, lpo, asp, aslp, ata, atu)
    else pure ([], none, trail_stop_price, none, none, none, none, none)
  let sdt ←
    if sv ≥ svSOFT_DOLLAR_TIER then do
      let name ← decodeString
      let val ← decodeString
      let display_name ← decodeString
      pure ({ name := name, val := val, display_name := display_name } :
        SoftDollarTier)
    else pure {}
  let cash_qty ← if sv ≥ svCASH_QTY then decodeF64Max else pure none
  let dont_use_aph ← if sv ≥ svAUTO_PRICE_FOR_HEDGE then decodeBool
    else pure false
  let is_oms_container ← if sv ≥ svORDER_CONTAINER then decodeBool
    else pure false
  let dutlp ← if sv ≥ svD_PEG_ORDERS then decodeBool else pure false
  let upma ←
    if sv ≥ svPRICE_MGMT_ALGO then do
      let v ← decodeI32
      pure ((UsePriceMgmtAlgo.tryFrom v).getD .default)
    else pure UsePriceMgmtAlgo.default
  let duration ← if sv ≥ svDURATION then decodeI32Max else pure none
  let post_to_ats ← if sv ≥ svPOST_TO_ATS then decodeI32Max else pure none
  let autoCancel ←
    if sv ≥ svAUTO_CANCEL_PARENT then do
      let acd ← decodeString
      let fq ← decodeDecimalMax
      let rfci ← decodeI32Max
      let acp ← decodeBool
      let sh ← decodeString
      let io ← decodeBool
      let rmtb ← decodeBool
      let ppi ← decodeI64Max
      pure (acd, fq, rfci, acp, sh, io, rmtb, ppi)
    else pure ([], none, none, false, [], false, false, none)
  let pegMid ←
    if sv ≥ svPEGBEST_PEGMID_OFFSETS then do
      let mtq ← decodeI32Max
      let mcs ← decodeI32Max
      let cabo ← decodeF64Max
      let moaw ← decodeF64Max
      let moah ← decodeF64Max
      pure (mtq, mcs, cabo, moaw, moah)
    else pure (none, none, none, none, none)
  let customer_account ← if sv ≥ svCUSTOMER_ACCOUNT then decodeString
    else pure []
  let professional_customer ← if sv ≥ svPROFESSIONAL_CUSTOMER then decodeBool
    else pure false
  let bond_accrued_interest ← if sv ≥ svBOND_ACCRUED_INTEREST then decodeString
    else pure []
  let include_overnight ← if sv ≥ svINCLUDE_OVERNIGHT then decodeBool
    else pure false
  let cme ←
    if sv ≥ svCME_TAGGING_FIELDS_IN_OPEN_ORDER then do
      let eo ← decodeString
      let moi ← decodeI32Max
      pure (eo, moi)
    else pure ([], none)
  let submitter ← if sv ≥ svSUBMITTER then decodeString else pure []
  let imbalance_only2 ←
    if sv ≥ svIMBALANCE_ONLY ∧ version ≥ svIMBALANCE_ONLY then do
      let io ← decodeBool
      pure (some io)
    else pure none
  let order : Order :=
    { order with
      action := action, total_quantity := total_quantity,
      order_type := order_type, lmt_price := lmt_price,
      aux_price := aux_price, tif := tif, oca_group := oca_group,
      account := account, open_close := open_close, origin := origin,
      order_ref := order_ref, client_id := client_id, perm_id := perm_id,
      outside_rth := outside_rth, hidden := hidden,
      discretionary_amt := discretionary_amt,
      good_after_time := good_after_time, fa_group := fa_group,
      fa_method := fa_method, fa_percentage := fa_percentage,
      model_code := model_code, good_till_date := good_till_date,
      rule_80a := rule_80a, percent_offset := percent_offset,
      settling_firm := settling_firm, short_sale_slot := short_sale_slot,
      designated_location := designated_location, exempt_code := exempt_code,
      auction_strategy := auction_strategy, starting_price := starting_price,
      stock_ref_price := stock_ref_price, delta := delta,
      stock_range_lower := stock_range_lower,
      stock_range_upper := stock_range_upper, display_size := display_size,
      block_order := block_order, sweep_to_fill := sweep_to_fill,
      all_or_none := all_or_none, min_qty := min_qty, oca_type := oca_type,
      parent_id := parent_id, trigger_method := trigger_method,
      volatility := volatility, volatility_type := volatility_type,
      delta_neutral_order_type := delta_neutral_order_type,
      delta_neutral_aux_price := delta_neutral_aux_price,
      delta_neutral_con_id := dn1.1,
      delta_neutral_settling_firm := dn1.2.1,
      delta_neutral_clearing_account := dn1.2.2.1,
      delta_neutral_clearing_intent := dn1.2.2.2,
      delta_neutral_open_close := dn2.1,
      delta_neutral_short_sale := dn2.2.1,
      delta_neutral_short_sale_slot := dn2.2.2.1,
      delta_neutral_designated_location := dn2.2.2.2,
      continuous_update := continuous_update,
      reference_price_type := reference_price_type,
      trail_stop_price := adjusted.2.2.1,
      trailing_percent := trailing_percent, basis_points := basis_points,
      basis_points_type := basis_points_type,
      order_combo_legs := legs.2, smart_combo_routing_params := smart_params,
      scale_init_level_size := scale1.1, scale_subs_level_size := scale1.2,
      scale_price_increment := scale_price_increment,
      scale_price_adjust_value := scaleTail.1,
      scale_price_adjust_interval := scaleTail.2.1,
      scale_profit_offset := scaleTail.2.2.1,
      scale_auto_reset := scaleTail.2.2.2.1,
      scale_init_position := scaleTail.2.2.2.2.1,
      scale_init_fill_qty := scaleTail.2.2.2.2.2.1,
      scale_random_percent := scaleTail.2.2.2.2.2.2,
      hedge_type := hedge.1, hedge_param := hedge.2,
      opt_out_smart_routing := opt_out_smart_routing,
      clearing_account := clearing_account,
      clearing_intent := clearing_intent, not_held := not_held,
      algo_strategy := algo.1, algo_params := algo.2,
      solicited := solicited, what_if := what_if,
      randomize_size := randomize.1, randomize_price := randomize.2,
      reference_contract_id := pegBench.1,
      is_pegged_change_amount_decrease := pegBench.2.1,
      pegged_change_amount := pegBench.2.2.1,
      reference_change_amount := pegBench.2.2.2.1,
      reference_exchange_id := pegBench.2.2.2.2,
      conditions := conds.1, conditions_ignore_rth := conds.2.1,
      conditions_cancel_order := conds.2.2,
      adjusted_order_type := adjusted.1, trigger_price := adjusted.2.1,
      lmt_price_offset := adjusted.2.2.2.1,
      adjusted_stop_price := adjusted.2.2.2.2.1,
      adjusted_stop_limit_price := adjusted.2.2.2.2.2.1,
      adjusted_trailing_amount := adjusted.2.2.2.2.2.2.1,
      adjustable_trailing_unit := adjusted.2.2.2.2.2.2.2,
      soft_dollar_tier := sdt, cash_qty := cash_qty,
      dont_use_auto_price_for_hedge := dont_use_aph,
      is_oms_container := is_oms_container,
      discretionary_up_to_limit_price := dutlp, use_price_mgmt_algo := upma,
      duration := duration, post_to_ats := post_to_ats,
      auto_cancel_date := autoCancel.1, filled_quantity := autoCancel.2.1,
      ref_futures_con_id := autoCancel.2.2.1,
      auto_cancel_parent := autoCancel.2.2.2.1,
      shareholder := autoCancel.2.2.2.2.1,
      imbalance_only := imbalance_only2.getD autoCancel.2.2.2.2.2.1,
      route_marketable_to_bbo := autoCancel.2.2.2.2.2.2.1,
      parent_perm_id := autoCancel.2.2.2.2.2.2.2,
      min_trade_qty := pegMid.1, min_compete_size := pegMid.2.1,
      compete_against_best_offset := pegMid.2.2.1,
      mid_offset_at_whole := pegMid.2.2.2.1,
      mid_offset_at_half := pegMid.2.2.2.2,
      customer_account := customer_account,
      professional_customer := professional_customer,
      bond_accrued_interest := bond_accrued_interest,
      include_overnight := include_overnight,
      ext_operator := cme.1, manual_order_indicator := cme.2,
      submitter := submitter }
  let contract : Contract :=
    { contract with
      combo_legs_descrip := combo_legs_descrip,
      combo_legs := legs.1, delta_neutral_contract := dnc }
  let order_state : OrderState :=
    { status := os_status,
      init_margin_before := osExt.1, maint_margin_before := osExt.2.1,
      equity_with_loan_before := osExt.2.2.1,
      init_margin_change := osExt.2.2.2.1,
      maint_margin_change := osExt.2.2.2.2.1,
      equity_with_loan_change := osExt.2.2.2.2.2,
      init_margin_after := init_margin_after,
      maint_margin_after := maint_margin_after,
      equity_with_loan_after := equity_with_loan_after,
      commission_and_fees := commission_and_fees,
      min_commission_and_fees := min_commission_and_fees,
      max_commission_and_fees := max_commission_and_fees,
      commission_and_fees_currency := commission_and_fees_currency,
      margin_currency := osPreview.1,
      init_margin_before_outside_rth := osPreview.2.1,
      maint_margin_before_outside_rth := osPreview.2.2.1,
      equity_with_loan_before_outside_rth := osPreview.2.2.2.1,
      init_margin_change_outside_rth := osPreview.2.2.2.2.1,
      maint_margin_change_outside_rth := osPreview.2.2.2.2.2.1,
      equity_with_loan_change_outside_rth := osPreview.2.2.2.2.2.2.1,
      init_margin_after_outside_rth := osPreview.2.2.2.2.2.2.2.1,
      maint_margin_after_outside_rth := osPreview.2.2.2.2.2.2.2.2.1,
      equity_with_loan_after_outside_rth := osPreview.2.2.2.2.2.2.2.2.2.1,
      suggested_size := osPreview.2.2.2.2.2.2.2.2.2.2.1,
      reject_reason := osPreview.2.2.2.2.2.2.2.2.2.2.2.1,
      order_allocations := osPreview.2.2.2.2.2.2.2.2.2.2.2.2,
      warning_text := warning_text }
  pure (.openOrder order_id contract order order_state)

/-- `decode_completed_order` (COMPLETED_ORDER, 101); `version` is `i32::MAX`. -/
def decodeCompletedOrder : DecM IBEvent := do
  let sv ← getServerVersion
  let version : Int := i32MAX
  let contract ← decodeOrderContract
  let order : Order := {}
  let action ← decodeEnumOptT Action.fromBytes
  let total_quantity ← decodeDecimalMax
  let order_type ← decodeEnumOptT (fun s => some (OrderType.fromBytes s))
  let lmt_price ← decodeF64Max
  let aux_price ← decodeF64Max
  let tif ← decodeEnumOptT (fun s => some (TimeInForce.fromBytes s))
  let oca_group ← decodeString
  let account ← decodeString
  let open_close ← decodeString
  let origin0 ← decodeI32
  let origin := (Origin.tryFrom origin0).getD .customer
  let order_ref ← decodeString
  let perm_id ← decodeIdLong
  let outside_rth ← decodeBool
  let hidden ← decodeBool
  let discretionary_amt ← decodeF64
  let good_after_time ← decodeString
  let fa_group ← decodeString
  let fa_method ← decodeString
  let fa_percentage ← decodeString
  if sv < svFA_PROFILE_DESUPPORT then skipField else pure ()
  let model_code ← if sv ≥ svMODELS_SUPPORT then decodeString else pure []
  let good_till_date ← decodeString
  let rule_80a ← decodeString
  let percent_offset ← decodeF64Max
  let settling_firm ← decodeString
  let short_sale_slot ← decodeI32
  let designated_location ← decodeString
  let exempt_code ← decodeI32
  let starting_price ← decodeF64Max
  let stock_ref_price ← decodeF64Max
  let delta ← decodeF64Max
  let stock_range_lower ← decodeF64Max
  let stock_range_upper ← decodeF64Max
  let display_size ← decodeI32
  let sweep_to_fill ← decodeBool
  let all_or_none ← decodeBool
  let min_qty ← decodeI32Max
  let oca_type ← decodeI32
  let trigger_method ← decodeI32
  let volatility ← decodeF64Max
  let volatility_type ← decodeI32Max
  let delta_neutral_order_type ← decodeString
  let delta_neutral_aux_price ← decodeF64Max
  let dn_con_id ←
    if version ≥ 27 ∧ delta_neutral_order_type ≠ [] then decodeI64
    else pure 0
  let dn2 ←
    if version ≥ 31 ∧ delta_neutral_order_type ≠ [] then do
      let dn_open_close ← decodeString
      let dn_short_sale ← decodeBool
      let dn_sss ← decodeI32
      let dn_dl ← decodeString
      pure (dn_open_close, dn_short_sale, dn_sss, dn_dl)
    else pure ([], false, 0, [])
  let continuous_update ← decodeBool
  let reference_price_type ← decodeI32Max
  let _trail_stop_price0 ← decodeF64Max
  let trailing_percent ← decodeF64Max
  let combo_legs_descrip ← decodeString
  let count ← decodeI32
  let legs ←
    if count > 0 then do
      let _ ← vecWithCapacity count
      let l ← forCount count (do
        let leg_con_id ← decodeI32
        let ratio ← decodeI32
        let leg_action ← decodeEnumOptT Action.fromBytes
        let leg_exchange ← decodeString
        let oc0 ← decodeI32
        let leg_open_close := (LegOpenClose.tryFrom oc0).getD .same
        let sss ← decodeI32
        let dl ← decodeString
        let ec ← decodeI32
        pure { con_id := leg_con_id, ratio := ratio, action := leg_action,
               exchange := leg_exchange, open_close := leg_open_close,
               short_sale_slot := sss, designated_location := dl,
               exempt_code := ec : ComboLeg })
      pure (some l)
    else pure none
  let ocl_count ← decodeI32
  let ocls ←
    if ocl_count > 0 then do
      let _ ← vecWithCapacity ocl_count
      let l ← forCount ocl_count (do
        let p ← decodeF64Max
        pure ({ price := p } : OrderComboLeg))
      pure (some l)
    else pure none
  let sc_count ← decodeI32
  let smart_params ←
    if sc_count > 0 then do
      let _ ← vecWithCapacity sc_count
      let l ← forCount sc_count (do
        let tag ← decodeString
        let value ← decodeString
        pure ({ tag := tag, value := value } : TagValue))
      pure (some l)
    else pure none
  let scale_init_level_size ← decodeI32Max
  let scale_subs_level_size ← decodeI32Max
  let scale_price_increment ← decodeF64Max
  let scaleTail ←
    if (match scale_price_increment with
        | some inc => inc.isPos
        | none => false) = true then do
      let spav ← decodeF64Max
      let spai ← decodeI32Max
      let spo ← decodeF64Max
      let sar ← decodeBool
      let sip ← decodeI32Max
      let sifq ← decodeI32Max
      let srp ← decodeBool
      pure (spav, spai, spo, sar, sip, sifq, srp)
    else pure (none, none, none, false, none, none, false)
  let hedge_type ← decodeString
  let hedge_param ← if hedge_type ≠ [] then decodeString else pure []
  let clearing_account ← decodeString
  let clearing_intent ← decodeString
  let not_held ← decodeBool
  let has_dn ← decodeBool
  let dnc ←
    if has_dn then do
      let c ← decodeI32
      let d ← decodeF64
      let p ← decodeF64
      pure (some { con_id := c, delta := d, price := p :
        DeltaNeutralContract })
    else pure none
  let algo_strategy ← decodeString
  let algo_params ←
    if algo_strategy ≠ [] then do
      let cnt ← decodeI32
      if cnt > 0 then do
        let _ ← vecWithCapacity cnt
        let l ← forCount cnt (do
          let tag ← decodeString
          let value ← decodeString
          pure ({ tag := tag, value := value } : TagValue))
        pure (some l)
      else pure none
    else pure none
  let solicited ← decodeBool
  let os_status ← decodeString
  let randomize_size ← decodeBool
  let randomize_price ← decodeBool
  let pegBench ←
    if sv ≥ svPEGGED_TO_BENCHMARK ∧ order_type = some OrderType.peggedToBenchmark
    then do
      let rcid ← decodeI32Max
      let ipcad ← decodeBool
      let pca ← decodeF64Max
      let rca ← decodeF64Max
      let rei ← decodeString
      pure (rcid, ipcad, pca, rca, rei)
    else pure (none, false, none, none, [])
  let conds ←
    if sv ≥ svPEGGED_TO_BENCHMARK then do
      let cond_size ← decodeI32
      if cond_size > 0 then do
        let _ ← vecWithCapacity cond_size
        let cs ← forCount cond_size (do
          let ct ← decodeI32
          decodeOrderCondition ct)
        let cir ← decodeBool
        let cco ← decodeBool
        pure (cs, cir, cco)
      else pure ([], false, false)
    else pure ([], false, false)
  let trail_stop_price ← decodeF64Max
  let lmt_price_offset ← decodeF64Max
  let cash_qty ← if sv ≥ svCASH_QTY then decodeF64Max else pure none
  let dont_use_aph ← if sv ≥ svAUTO_PRICE_FOR_HEDGE then decodeBool
    else pure false
  let is_oms_container ← if sv ≥ svORDER_CONTAINER then decodeBool
    else pure false
  let auto_cancel_date ← decodeString
  let filled_quantity ← decodeDecimalMax
  let ref_futures_con_id ← decodeI32Max
  let auto_cancel_parent ← decodeBool
  let shareholder ← decodeString
  let imbalance_only ← decodeBool
  let route_marketable_to_bbo ← decodeBool
  let parent_perm_id ← decodeI64Max
  let completed_time ← decodeString
  let completed_status ← decodeString
  let pegMid ←
    if sv ≥ svPEGBEST_PEGMID_OFFSETS then do
      let mtq ← decodeI32Max
      let mcs ← decodeI32Max
      let cabo ← decodeF64Max
      let moaw ← decodeF64Max
      let moah ← decodeF64Max
      pure (mtq, mcs, cabo, moaw, moah)
    else pure (none, none, none, none, none)
  let customer_account ← if sv ≥ svCUSTOMER_ACCOUNT then decodeString
    else pure []
  let professional_customer ← if sv ≥ svPROFESSIONAL_CUSTOMER then decodeBool
    else pure false
  let submitter ← if sv ≥ svSUBMITTER then decodeString else pure []
  let order : Order :=
    { order with
      action := action, total_quantity := total_quantity,
      order_type := order_type, lmt_price := lmt_price,
      aux_price := aux_price, tif := tif, oca_group := oca_group,
      account := account, open_close := open_close, origin := origin,
      order_ref := order_ref, perm_id := perm_id,
      outside_rth := outside_rth, hidden := hidden,
      discretionary_amt := discretionary_amt,
      good_after_time := good_after_time, fa_group := fa_group,
      fa_method := fa_method, fa_percentage := fa_percentage,
      model_code := model_code, good_till_date := good_till_date,
      rule_80a := rule_80a, percent_offset := percent_offset,
      settling_firm := settling_firm, short_sale_slot := short_sale_slot,
      designated_location := designated_location, exempt_code := exempt_code,
      starting_price := starting_price, stock_ref_price := stock_ref_price,
      delta := delta, stock_range_lower := stock_range_lower,
      stock_range_upper := stock_range_upper, display_size := display_size,
      sweep_to_fill := sweep_to_fill, all_or_none := all_or_none,
      min_qty := min_qty, oca_type := oca_type,
      trigger_method := trigger_method, volatility := volatility,
      volatility_type := volatility_type,
      delta_neutral_order_type := delta_neutral_order_type,
      delta_neutral_aux_price := delta_neutral_aux_price,
      delta_neutral_con_id := dn_con_id,
      delta_neutral_open_close := dn2.1,
      delta_neutral_short_sale := dn2.2.1,
      delta_neutral_short_sale_slot := dn2.2.2.1,
      delta_neutral_designated_location := dn2.2.2.2,
      continuous_update := continuous_update,
      reference_price_type := reference_price_type,
      trail_stop_price := trail_stop_price,
      trailing_percent := trailing_percent,
      order_combo_legs := ocls, smart_combo_routing_params := smart_params,
      scale_init_level_size := scale_init_level_size,
      scale_subs_level_size := scale_subs_level_size,
      scale_price_increment := scale_price_increment,
      scale_price_adjust_value := scaleTail.1,
      scale_price_adjust_interval := scaleTail.2.1,
      scale_profit_offset := scaleTail.2.2.1,
      scale_auto_reset := scaleTail.2.2.2.1,
      scale_init_position := scaleTail.2.2.2.2.1,
      scale_init_fill_qty := scaleTail.2.2.2.2.2.1,
      scale_random_percent := scaleTail.2.2.2.2.2.2,
      hedge_type := hedge_type, hedge_param := hedge_param,
      clearing_account := clearing_account,
      clearing_intent := clearing_intent, not_held := not_held,
      algo_strategy := algo_strategy, algo_params := algo_params,
      solicited := solicited,
      randomize_size := randomize_size, randomize_price := randomize_price,
      reference_contract_id := pegBench.1,
      is_pegged_change_amount_decrease := pegBench.2.1,
      pegged_change_amount := pegBench.2.2.1,
      reference_change_amount := pegBench.2.2.2.1,
      reference_exchange_id := pegBench.2.2.2.2,
      conditions := conds.1, conditions_ignore_rth := conds.2.1,
      conditions_cancel_order := conds.2.2,
      lmt_price_offset := lmt_price_offset, cash_qty := cash_qty,
      dont_use_auto_price_for_hedge := dont_use_aph,
      is_oms_container := is_oms_container,
      auto_cancel_date := auto_cancel_date,
      filled_quantity := filled_quantity,
      ref_futures_con_id := ref_futures_con_id,
      auto_cancel_parent := auto_cancel_parent, shareholder := shareholder,
      imbalance_only := imbalance_only,
      route_marketable_to_bbo := route_marketable_to_bbo,
      parent_perm_id := parent_perm_id,
      min_trade_qty := pegMid.1, min_compete_size := pegMid.2.1,
      compete_against_best_offset := pegMid.2.2.1,
      mid_offset_at_whole := pegMid.2.2.2.1,
      mid_offset_at_half := pegMid.2.2.2.2,
      customer_account := customer_account,
      professional_customer := professional_customer,
      submitter := submitter }
  let contract : Contract :=
    { contract with
      combo_legs_descrip := combo_legs_descrip,
      combo_legs := legs, delta_neutral_contract := dnc }
  let order_state : OrderState :=
    { status := os_status, completed_time := completed_time,
      completed_status := completed_status }
  pure (.completedOrder contract order order_state)

/-- `decode_execution_data` (EXECUTION_DATA, 11). -/
def decodeExecutionData : DecM IBEvent := do
  let sv ← getServerVersion
  let version ← if sv < svLAST_LIQUIDITY then decodeI32 else pure sv
  let req_id ← if version ≥ 7 then decodeI32 else pure (-1)
  let order_id ← decodeI32
  let contract : Contract := {}
  let con_id ← if version ≥ 5 then decodeI32 else pure contract.con_id
  let symbol ← decodeString
  let sec_type ← decodeEnumOptT (fun s => some (SecType.fromBytes s))
  let ltd ← decodeString
  let strike ← decodeF64Max
  let right ← decodeEnumOptT (fun s => some (Right.fromBytes s))
  let multiplier ← if version ≥ 9 then decodeString else pure []
  let exchange ← decodeString
  let currency ← decodeString
  let local_symbol ← decodeString
  let trading_class ← if version ≥ 10 then decodeString else pure []
  let contract : Contract :=
    { contract with
      con_id := con_id, symbol := symbol, sec_type := sec_type,
      last_trade_date_or_contract_month := ltd, strike := strike,
      right := right, multiplier := multiplier, exchange := exchange,
      currency := currency, local_symbol := local_symbol,
      trading_class := trading_class }
  let exec : Execution := {}
  let exec_id ← decodeString
  let time ← decodeString
  let acct_number ← decodeString
  let ex_exchange ← decodeString
  let side ← decodeString
  let shares ← decodeDecimalMax
  let price ← decodeF64
  let perm_id ← if version ≥ 2 then decodeI32 else pure exec.perm_id
  let client_id ← if version ≥ 3 then decodeI32 else pure exec.client_id
  let liquidation ← if version ≥ 4 then decodeI32 else pure exec.liquidation
  let cq ←
    if version ≥ 6 then do
      let cum_qty ← decodeDecimalMax
      let avg_price ← decodeF64
      pure (cum_qty, avg_price)
    else pure (exec.cum_qty, exec.avg_price)
  let order_ref ← if version ≥ 8 then decodeString else pure []
  let ev ←
    if version ≥ 9 then do
      let ev_rule ← decodeString
      let ev_multiplier ← decodeF64
      pure (ev_rule, ev_multiplier)
    else pure (exec.ev_rule, exec.ev_multiplier)
  let model_code ← if sv ≥ svMODELS_SUPPORT then decodeString else pure []
  let last_liquidity ← if sv ≥ svLAST_LIQUIDITY then decodeI32
    else pure exec.last_liquidity
  let pending_price_revision ← if sv ≥ svPENDING_PRICE_REVISION then decodeBool
    else pure false
  let submitter ← if sv ≥ svSUBMITTER then decodeString else pure []
  let exec : Execution :=
    { exec with
      order_id := order_id, exec_id := exec_id, time := time,
      acct_number := acct_number, exchange := ex_exchange, side := side,
      shares := shares, price := price, perm_id := perm_id,
      client_id := client_id, liquidation := liquidation,
      cum_qty := cq.1, avg_price := cq.2, order_ref := order_ref,
      ev_rule := ev.1, ev_multiplier := ev.2, model_code := model_code,
      last_liquidity := last_liquidity,
      pending_price_revision := pending_price_revision,
      submitter := submitter }
  pure (.execDetails req_id contract exec)

/-- `decode_execution_data_end` (EXECUTION_DATA_END, 55). -/
def decodeExecutionDataEnd : DecM IBEvent := do
  let _version ← decodeI32
  let req_id ← decodeI32
  pure (.execDetailsEnd req_id)

/-- `decode_commission_report` (COMMISSION_AND_FEES_REPORT, 59). -/
def decodeCommissionReport : DecM IBEvent := do
  let _version ← decodeI32
  let exec_id ← decodeString
  let commission_and_fees ← decodeF64
  let currency ← decodeString
  let realized_pnl ← decodeF64
  let yield_rate ← decodeF64
  let yield_redemption_date ← decodeI32
  pure (.commissionReport
    { exec_id := exec_id, commission_and_fees := commission_and_fees,
      currency := currency, realized_pnl := realized_pnl,
      yield_rate := yield_rate,
      yield_redemption_date := yield_redemption_date })

/-- `decode_acct_value` (ACCT_VALUE, 6). -/
def decodeAcctValue : DecM IBEvent := do
  let _version ← decodeI32
  let key ← decodeString
  let value ← decodeString
  let currency ← decodeString
  let account_name ← decodeString
  pure (.updateAccountValue key value currency account_name)

/-- `decode_portfolio_value` (PORTFOLIO_VALUE, 7). -/
def decodePortfolioValue : DecM IBEvent := do
  let version ← decodeI32
  let contract : Contract := {}
  let con_id ← if version ≥ 6 then decodeI32 else pure contract.con_id
  let symbol ← decodeString
  let sec_type ← decodeEnumOptT (fun s => some (SecType.fromBytes s))
  let ltd ← decodeString
  let strike ← decodeF64Max
  let right ← decodeEnumOptT (fun s => some (Right.fromBytes s))
  let mp ←
    if version ≥ 7 then do
      let multiplier ← decodeString
      let primary_exchange ← decodeString
      pure (multiplier, primary_exchange)
    else pure ([], [])
  let currency ← decodeString
  let local_symbol ← if version ≥ 2 then decodeString else pure []
  let trading_class ← if version ≥ 8 then decodeString else pure []
  let contract : Contract :=
    { contract with
      con_id := con_id, symbol := symbol, sec_type := sec_type,
      last_trade_date_or_contract_month := ltd, strike := strike,
      right := right, multiplier := mp.1, primary_exchange := mp.2,
      currency := currency, local_symbol := local_symbol,
      trading_class := trading_class }
  let position ← decodeDecimal
  let market_price ← decodeF64
  let market_value ← decodeF64
  let pnl3 ←
    if version ≥ 3 then do
      let a ← decodeF64
      let b ← decodeF64
      let c ← decodeF64
      pure (a, b, c)
    else pure (WireF64.finite 0 0, WireF64.finite 0 0, WireF64.finite 0 0)
  let account_name ← if version ≥ 4 then decodeString else pure []
  pure (.updatePortfolio contract position market_price market_value
    pnl3.1 pnl3.2.1 pnl3.2.2 account_name)

/-- `decode_acct_update_time` (ACCT_UPDATE_TIME, 8). -/
def decodeAcctUpdateTime : DecM IBEvent := do
  let _version ← decodeI32
  let timestamp ← decodeString
  pure (.updateAccountTime timestamp)

/-- `decode_acct_download_end` (ACCT_DOWNLOAD_END, 54). -/
def decodeAcctDownloadEnd : DecM IBEvent := do
  let _version ← decodeI32
  let account ← decodeString
  pure (.accountDownloadEnd account)

/-- `decode_account_summary` (ACCOUNT_SUMMARY, 63). -/
def decodeAccountSummary : DecM IBEvent := do
  let _version ← decodeI32
  let req_id ← decodeI32
  let account ← decodeString
  let tag ← decodeString
  let value ← decodeString
  let currency ← decodeString
  pure (.accountSummary req_id account tag value currency)

/-- `decode_account_summary_end` (ACCOUNT_SUMMARY_END, 64). -/
def decodeAccountSummaryEnd : DecM IBEvent := do
  let _version ← decodeI32
  let req_id ← decodeI32
  pure (.accountSummaryEnd req_id)

/-- `decode_position_data` (POSITION_DATA, 61). -/
def decodePositionData : DecM IBEvent := do
  let version ← decodeI32
  let account ← decodeString
  let con_id ← decodeI32
  let symbol ← decodeString
  let sec_type ← decodeEnumOptT (fun s => some (SecType.fromBytes s))
  let ltd ← decodeString
  let strike ← decodeF64Max
  let right ← decodeEnumOptT (fun s => some (Right.fromBytes s))
  let multiplier ← decodeString
  let exchange ← decodeString
  let currency ← decodeString
  let local_symbol ← decodeString
  let trading_class ← if version ≥ 2 then decodeString else pure []
  let contract : Contract :=
    { con_id := con_id, symbol := symbol, sec_type := sec_type,
      last_trade_date_or_contract_month := ltd, strike := strike,
      right := right, multiplier := multiplier, exchange := exchange,
      currency := currency, local_symbol := local_symbol,
      trading_class := trading_class }
  let position ← decodeDecimal
  let avg_cost ← if version ≥ 3 then decodeF64 else pure (WireF64.finite 0 0)
  pure (.position account contract position avg_cost)

/-- `decode_position_multi` (POSITION_MULTI, 71). -/
def decodePositionMulti : DecM IBEvent := do
  let _version ← decodeI32
  let req_id ← decodeI32
  let account ← decodeString
  let contract ← decodeOrderContract
  let pos ← decodeDecimal
  let avg_cost ← decodeF64
  let model_code ← decodeString
  pure (.positionMulti req_id account model_code contract pos avg_cost)

/-- `decode_position_multi_end` (POSITION_MULTI_END, 72). -/
def decodePositionMultiEnd : DecM IBEvent := do
  let _version ← decodeI32
  let req_id ← decodeI32
  pure (.positionMultiEnd req_id)

/-- `decode_account_update_multi` (ACCOUNT_UPDATE_MULTI, 73). -/
def decodeAccountUpdateMulti : DecM IBEvent := do
  let _version ← decodeI32
  let req_id ← decodeI32
  let account ← decodeString
  let model_code ← decodeString
  let key ← decodeString
  let value ← decodeString
  let currency ← decodeString
  pure (.accountUpdateMulti req_id account model_code key value currency)

/-- `decode_account_update_multi_end` (ACCOUNT_UPDATE_MULTI_END, 74). -/
def decodeAccountUpdateMultiEnd : DecM IBEvent := do
  let _version ← decodeI32
  let req_id ← decodeI32
  pure (.accountUpdateMultiEnd req_id)

/-- `decode_contract_data` (CONTRACT_DATA, 10). -/
def decodeContractData : DecM IBEvent := do
  let sv ← getServerVersion
  let version ← if sv < svSIZE_RULES then decodeI32 else pure sv
  let req_id ← if version ≥ 3 then decodeI32 else pure (-1)
  let d : ContractDetails := {}
  let symbol ← decodeString
  let sec_type ← decodeEnumOptT (fun s => some (SecType.fromBytes s))
  let last_trade_date ← if sv ≥ svLAST_TRADE_DATE then decodeString
    else pure []
  let ltd ← decodeString
  let strike ← decodeF64Max
  let right ← decodeEnumOptT (fun s => some (Right.fromBytes s))
  let exchange ← decodeString
  let currency ← decodeString
  let local_symbol ← decodeString
  let market_name ← decodeString
  let trading_class ← decodeString
  let con_id ← decodeI32
  let min_tick ← decodeF64
  if svMD_SIZE_MULTIPLIER ≤ sv ∧ sv < svSIZE_RULES then skipField
  else pure ()
  let multiplier ← decodeString
  let order_types ← decodeString
  let valid_exchanges ← decodeString
  let price_magnifier ← decodeI64
  let under_con_id ← if version ≥ 4 then decodeI32 else pure d.under_con_id
  let v5 ←
    if version ≥ 5 then do
      let long_name ← decodeString
      let primary_exchange ← decodeString
      pure (long_name, primary_exchange)
    else pure ([], [])
  let v6 ←
    if version ≥ 6 then do
      let contract_month ← decodeString
      let industry ← decodeString
      let category ← decodeString
      let subcategory ← decodeString
      let time_zone_id ← decodeString
      let trading_hours ← decodeString
      let liquid_hours ← decodeString
      pure (contract_month, industry, category, subcategory, time_zone_id,
        trading_hours, liquid_hours)
    else pure ([], [], [], [], [], [], [])
  let v8 ←
    if version ≥ 8 then do
      let ev_rule ← decodeString
      let ev_multiplier ← decodeF64
      pure (ev_rule, ev_multiplier)
    else pure (d.ev_rule, d.ev_multiplier)
  let sec_id_list ←
    if version ≥ 7 then do
      let count ← decodeI32
      if count > 0 then do
        let _ ← vecWithCapacity count
        let l ← forCount count (do
          let tag ← decodeString
          let value ← decodeString
          pure ({ tag := tag, value := value } : TagValue))
        pure (some l)
      else pure none
    else pure none
  let agg_group ← if sv ≥ svAGG_GROUP then decodeI32Max else pure none
  let under ←
    if sv ≥ svUNDERLYING_INFO then do
      let under_symbol ← decodeString
      let under_sec_type ← decodeString
      pure (under_symbol, under_sec_type)
    else pure ([], [])
  let market_rule_ids ← if sv ≥ svMARKET_RULES then decodeString else pure []
  let real_expiration_date ← if sv ≥ svREAL_EXPIRATION_DATE then decodeString
    else pure []
  let stock_type ← if sv ≥ svSTOCK_TYPE then decodeString else pure []
  if svFRACTIONAL_SIZE_SUPPORT ≤ sv ∧ sv < svSIZE_RULES then skipField
  else pure ()
  let sizes ←
    if sv ≥ svSIZE_RULES then do
      let min_size ← decodeDecimalMax
      let size_increment ← decodeDecimalMax
      let suggested_size_increment ← decodeDecimalMax
      pure (min_size, size_increment, suggested_size_increment)
    else pure (none, none, none)
  let fund ←
    if sv ≥ svFUND_DATA_FIELDS ∧ sec_type = some SecType.fund then do
      let fund_name ← decodeString
      let fund_family ← decodeString
      let fund_type ← decodeString
      let fund_front_load ← decodeString
      let fund_back_load ← decodeString
      let fund_back_load_time_interval ← decodeString
      let fund_management_fee ← decodeString
      let fund_closed ← decodeBool
      let fund_closed_for_new_investors ← decodeBool
      let fund_closed_for_new_money ← decodeBool
      let fund_notify_amount ← decodeString
      let fund_minimum_initial_purchase ← decodeString
      let fund_subsequent_minimum_purchase ← decodeString
      let fund_blue_sky_states ← decodeString
      let fund_blue_sky_territories ← decodeString
      let dp ← decodeString
      let fdpi :=
        if dp = strBytes "Y" ∨ dp = strBytes "1" then
          FundDistributionPolicyIndicator.accumulationFund
        else if dp = strBytes "D" ∨ dp = strBytes "2" then
          FundDistributionPolicyIndicator.incomeFund
        else FundDistributionPolicyIndicator.none
      let ast ← decodeString
      let fat :=
        if ast = strBytes "001" then FundAssetType.others
        else if ast = strBytes "002" then FundAssetType.moneyMarket
        else if ast = strBytes "003" then FundAssetType.fixedIncome
        else if ast = strBytes "004" then FundAssetType.multiAsset
        else if ast = strBytes "005" then FundAssetType.equity
        else if ast = strBytes "006" then FundAssetType.sector
        else if ast = strBytes "007" then FundAssetType.guaranteed
        else if ast = strBytes "008" then FundAssetType.alternative
        else FundAssetType.none
      pure (fund_name, fund_family, fund_type, fund_front_load,
        fund_back_load, fund_back_load_time_interval, fund_management_fee,
        fund_closed, fund_closed_for_new_investors,
        fund_closed_for_new_money, fund_notify_amount,
        fund_minimum_initial_purchase, fund_subsequent_minimum_purchase,
        fund_blue_sky_states, fund_blue_sky_territories, fdpi, fat)
    else pure ([], [], [], [], [], [], [], false, false, false, [], [], [],
      [], [], FundDistributionPolicyIndicator.none, FundAssetType.none)
  let ineligibility ←
    if sv ≥ svINELIGIBILITY_REASONS then do
      let count ← decodeI32
      if count > 0 then do
        let _ ← vecWithCapacity count
        let l ← forCount count (do
          let id ← decodeString
          let description ← decodeString
          pure ({ id := id, description := description } :
            IneligibilityReason))
        pure (some l)
      else pure none
    else pure none
  let d : ContractDetails :=
    { d with
      contract :=
        { symbol := symbol, sec_type := sec_type,
          last_trade_date := last_trade_date,
          last_trade_date_or_contract_month := ltd, strike := strike,
          right := right, exchange := exchange, currency := currency,
          local_symbol := local_symbol, trading_class := trading_class,
          con_id := con_id, multiplier := multiplier,
          primary_exchange := v5.2 },
      market_name := market_name, min_tick := min_tick,
      order_types := order_types, valid_exchanges := valid_exchanges,
      price_magnifier := price_magnifier, under_con_id := under_con_id,
      long_name := v5.1, contract_month := v6.1, industry := v6.2.1,
      category := v6.2.2.1, subcategory := v6.2.2.2.1,
      time_zone_id := v6.2.2.2.2.1, trading_hours := v6.2.2.2.2.2.1,
      liquid_hours := v6.2.2.2.2.2.2, ev_rule := v8.1,
      ev_multiplier := v8.2, sec_id_list := sec_id_list,
      agg_group := agg_group, under_symbol := under.1,
      under_sec_type := under.2, market_rule_ids := market_rule_ids,
      real_expiration_date := real_expiration_date,
      stock_type := stock_type, min_size := sizes.1,
      size_increment := sizes.2.1, suggested_size_increment := sizes.2.2,
      fund_name := fund.1, fund_family := fund.2.1, fund_type := fund.2.2.1,
      fund_front_load := fund.2.2.2.1, fund_back_load := fund.2.2.2.2.1,
      fund_back_load_time_interval := fund.2.2.2.2.2.1,
      fund_management_fee := fund.2.2.2.2.2.2.1,
      fund_closed := fund.2.2.2.2.2.2.2.1,
      fund_closed_for_new_investors := fund.2.2.2.2.2.2.2.2.1,
      fund_closed_for_new_money := fund.2.2.2.2.2.2.2.2.2.1,
      fund_notify_amount := fund.2.2.2.2.2.2.2.2.2.2.1,
      fund_minimum_initial_purchase := fund.2.2.2.2.2.2.2.2.2.2.2.1,
      fund_subsequent_minimum_purchase := fund.2.2.2.2.2.2.2.2.2.2.2.2.1,
      fund_blue_sky_states := fund.2.2.2.2.2.2.2.2.2.2.2.2.2.1,
      fund_blue_sky_territories := fund.2.2.2.2.2.2.2.2.2.2.2.2.2.2.1,
      fund_distribution_policy_indicator :=
        fund.2.2.2.2.2.2.2.2.2.2.2.2.2.2.2.1,
      fund_asset_type := fund.2.2.2.2.2.2.2.2.2.2.2.2.2.2.2.2,
      ineligibility_reason_list := ineligibility }
  pure (.contractDetails req_id d)

/-- `decode_bond_contract_data` (BOND_CONTRACT_DATA, 18). -/
def decodeBondContractData : DecM IBEvent := do
  let sv ← getServerVersion
  let version ← if sv < svSIZE_RULES then decodeI32 else pure sv
  let req_id ← if version ≥ 3 then decodeI32 else pure (-1)
  let symbol ← decodeString
  let sec_type ← decodeEnumOptT (fun s => some (SecType.fromBytes s))
  let cusip ← decodeString
  let coupon ← decodeF64
  let last_trade_date ← if sv ≥ svLAST_TRADE_DATE then decodeString
    else pure []
  let ltd ← decodeString
  let issue_date ← decodeString
  let ratings ← decodeString
  let bond_type ← decodeString
  let coupon_type ← decodeString
  let convertible ← decodeBool
  let callable ← decodeBool
  let putable ← decodeBool
  let desc_append ← decodeString
  let exchange ← decodeString
  let currency ← decodeString
  let market_name ← decodeString
  let trading_class ← decodeString
  let con_id ← decodeI32
  let min_tick ← decodeF64
  if svMD_SIZE_MULTIPLIER ≤ sv ∧ sv < svSIZE_RULES then skipField
  else pure ()
  let order_types ← decodeString
  let valid_exchanges ← decodeString
  let v2 ←
    if version ≥ 2 then do
      let next_option_date ← decodeString
      let next_option_type ← decodeString
      let next_option_part ← decodeBool
      let notes ← decodeString
      pure (next_option_date, next_option_type, next_option_part, notes)
    else pure ([], [], false, [])
  let long_name ← if version ≥ 4 then decodeString else pure []
  let hours ←
    if sv ≥ svBOND_TRADING_HOURS then do
      let time_zone_id ← decodeString
      let trading_hours ← decodeString
      let liquid_hours ← decodeString
      pure (time_zone_id, trading_hours, liquid_hours)
    else pure ([], [], [])
  let v6 ←
    if version ≥ 6 then do
      let ev_rule ← decodeString
      let ev_multiplier ← decodeF64
      pure (ev_rule, ev_multiplier)
    else pure ([], WireF64.finite 0 0)
  let sec_id_list ←
    if version ≥ 5 then do
      let count ← decodeI32
      if count > 0 then do
        let _ ← vecWithCapacity count
        let l ← forCount count (do
          let tag ← decodeString
          let value ← decodeString
          pure ({ tag := tag, value := value } : TagValue))
        pure (some l)
      else pure none
    else pure none
  let agg_group ← if sv ≥ svAGG_GROUP then decodeI32Max else pure none
  let market_rule_ids ← if sv ≥ svMARKET_RULES then decodeString else pure []
  let sizes ←
    if sv ≥ svSIZE_RULES then do
      let min_size ← decodeDecimalMax
      let size_increment ← decodeDecimalMax
      let suggested_size_increment ← decodeDecimalMax
      pure (min_size, size_increment, suggested_size_increment)
    else pure (none, none, none)
  let d : ContractDetails :=
    { contract :=
        { symbol := symbol, sec_type := sec_type,
          last_trade_date := last_trade_date,
          last_trade_date_or_contract_month := ltd, exchange := exchange,
          currency := currency, trading_class := trading_class,
          con_id := con_id },
      cusip := cusip, coupon := coupon, issue_date := issue_date,
      ratings := ratings, bond_type := bond_type,
      coupon_type := coupon_type, convertible := convertible,
      callable := callable, putable := putable, desc_append := desc_append,
      market_name := market_name, min_tick := min_tick,
      order_types := order_types, valid_exchanges := valid_exchanges,
      next_option_date := v2.1, next_option_type := v2.2.1,
      next_option_part := v2.2.2.1, notes := v2.2.2.2,
      long_name := long_name, time_zone_id := hours.1,
      trading_hours := hours.2.1, liquid_hours := hours.2.2,
      ev_rule := v6.1, ev_multiplier := v6.2, sec_id_list := sec_id_list,
      agg_group := agg_group, market_rule_ids := market_rule_ids,
      min_size := sizes.1, size_increment := sizes.2.1,
      suggested_size_increment := sizes.2.2 }
  pure (.bondContractDetails req_id d)

/-- `decode_contract_data_end` (CONTRACT_DATA_END, 52). -/
def decodeContractDataEnd : DecM IBEvent := do
  let _version ← decodeI32
  let req_id ← decodeI32
  pure (.contractDetailsEnd req_id)

/-- `decode_symbol_samples` (SYMBOL_SAMPLES, 79). -/
def decodeSymbolSamples : DecM IBEvent := do
  let req_id ← decodeI32
  let count ← decodeI32
  let _ ← vecWithCapacity count
  let descriptions ← forCount count (do
    let con_id ← decodeI32
    let symbol ← decodeString
    let sec_type ← decodeEnumOptT (fun s => some (SecType.fromBytes s))
    let primary_exchange ← decodeString
    let currency ← decodeString
    let n_types ← decodeI32
    let _ ← vecWithCapacity n_types
    let types ← forCount n_types decodeString
    let description ← decodeString
    let issuer_id ← decodeString
    pure { contract :=
             { con_id := con_id, symbol := symbol, sec_type := sec_type,
               primary_exchange := primary_exchange, currency := currency,
               description := description, issuer_id := issuer_id },
           derivative_sec_types := types : ContractDescription })
  pure (.symbolSamples req_id descriptions)

/-- `decode_delta_neutral_validation` (DELTA_NEUTRAL_VALIDATION, 56). -/
def decodeDeltaNeutralValidation : DecM IBEvent := do
  let _version ← decodeI32
  let req_id ← decodeI32
  let con_id ← decodeI32
  let delta ← decodeF64
  let price ← decodeF64
  pure (.deltaNeutralValidation req_id
    { con_id := con_id, delta := delta, price := price })

/-- `decode_sec_def_opt_params` (SECURITY_DEFINITION_OPTION_PARAMETER, 75). -/
def decodeSecDefOptParams : DecM IBEvent := do
  let req_id ← decodeI32
  let exchange ← decodeString
  let underlying_con_id ← decodeI32
  let trading_class ← decodeString
  let multiplier ← decodeString
  let exp_count ← decodeI32
  let _ ← vecWithCapacity exp_count
  let expirations ← forCount exp_count decodeString
  let strike_count ← decodeI32
  let _ ← vecWithCapacity strike_count
  let strikes ← forCount strike_count decodeF64
  pure (.securityDefinitionOptionalParameter req_id exchange
    underlying_con_id trading_class multiplier expirations strikes)

/-- `decode_sec_def_opt_params_end`
(SECURITY_DEFINITION_OPTION_PARAMETER_END, 76). -/
def decodeSecDefOptParamsEnd : DecM IBEvent := do
  let req_id ← decodeI32
  pure (.securityDefinitionOptionalParameterEnd req_id)

/-- `decode_market_depth` (MARKET_DEPTH, 12). -/
def decodeMarketDepth : DecM IBEvent := do
  let _version ← decodeI32
  let req_id ← decodeI32
  let position ← decodeI32
  let operation ← decodeI32
  let side ← decodeI32
  let price ← decodeF64
  let size ← decodeDecimal
  pure (.updateMktDepth req_id position operation side price size)

/-- `decode_market_depth_l2` (MARKET_DEPTH_L2, 13). -/
def decodeMarketDepthL2 : DecM IBEvent := do
  let _version ← decodeI32
  let req_id ← decodeI32
  let position ← decodeI32
  let market_maker ← decodeString
  let operation ← decodeI32
  let side ← decodeI32
  let price ← decodeF64
  let size ← decodeDecimal
  let sv ← getServerVersion
  let is_smart_depth ← if sv ≥ svSMART_DEPTH then decodeBool else pure false
  pure (.updateMktDepthL2 req_id position market_maker operation side price
    size is_smart_depth)

/-- `decode_mkt_depth_exchanges` (MKT_DEPTH_EXCHANGES, 80). -/
def decodeMktDepthExchanges : DecM IBEvent := do
  let count ← decodeI32
  let _ ← vecWithCapacity count
  let descriptions ← forCount count (do
    let exchange ← decodeString
    let sec_type ← decodeString
    let listing_exch ← decodeString
    let service_data_type ← decodeString
    let sv ← getServerVersion
    let agg_group ← if sv ≥ svSERVICE_DATA_TYPE then decodeI32Max
      else pure none
    pure { exchange := exchange, sec_type := sec_type,
           listing_exch := listing_exch,
           service_data_type := service_data_type, agg_group := agg_group :
           DepthMktDataDescription })
  pure (.mktDepthExchanges descriptions)

/-- `decode_historical_data` (HISTORICAL_DATA, 17). -/
def decodeHistoricalData : DecM IBEvent := do
  let sv ← getServerVersion
  if sv < svSYNT_REALTIME_BARS then skipField else pure ()
  let req_id ← decodeI32
  if sv < svHISTORICAL_DATA_END then skipFields 2 else pure ()
  let item_count ← decodeI32
  let _ ← vecWithCapacity item_count
  let bars ← forCount item_count (do
    let time ← decodeString
    let op ← decodeF64
    let high ← decodeF64
    let low ← decodeF64
    let close ← decodeF64
    let volume ← decodeDecimalMax
    let wap ← decodeDecimalMax
    if sv < svSYNT_REALTIME_BARS then skipField else pure ()
    let count ← decodeI32
    pure { time := time, open_ := op, high := high, low := low,
           close := close, volume := volume, wap := wap, count := count :
           Bar })
  pure (.historicalData req_id bars)

/-- `decode_historical_data_update` (HISTORICAL_DATA_UPDATE, 90). -/
def decodeHistoricalDataUpdate : DecM IBEvent := do
  let req_id ← decodeI32
  let time ← decodeString
  let op ← decodeF64
  let high ← decodeF64
  let low ← decodeF64
  let close ← decodeF64
  let volume ← decodeDecimalMax
  let wap ← decodeDecimalMax
  let count ← decodeI32
  pure (.historicalDataUpdate req_id
    { time := time, open_ := op, high := high, low := low, close := close,
      volume := volume, wap := wap, count := count })

/-- `decode_historical_data_end_msg` (HISTORICAL_DATA_END, 108). -/
def decodeHistoricalDataEndMsg : DecM IBEvent := do
  let req_id ← decodeI32
  let start ← decodeString
  let endStr ← decodeString
  pure (.historicalDataEnd req_id start endStr)

/-- `decode_head_timestamp` (HEAD_TIMESTAMP, 88). -/
def decodeHeadTimestamp : DecM IBEvent := do
  let req_id ← decodeI32
  let head_timestamp ← decodeString
  pure (.headTimestamp req_id head_timestamp)

/-- `decode_historical_ticks` (HISTORICAL_TICKS, 96). -/
def decodeHistoricalTicks : DecM IBEvent := do
  let req_id ← decodeI32
  let count ← decodeI32
  let _ ← vecWithCapacity count
  let ticks ← forCount count (do
    let time ← decodeI64
    skipField
    let price ← decodeF64
    let size ← decodeDecimalMax
    pure { time := time, price := price, size := size : HistoricalTick })
  let done ← decodeBool
  pure (.historicalTicks req_id ticks done)

/-- `decode_historical_ticks_bid_ask` (HISTORICAL_TICKS_BID_ASK, 97).
Note the bit assignment: `ask_past_high` is bit 0 and `bid_past_low` is
bit 1, the reverse of `decode_tick_by_tick`. -/
def decodeHistoricalTicksBidAsk : DecM IBEvent := do
  let req_id ← decodeI32
  let count ← decodeI32
  let _ ← vecWithCapacity count
  let ticks ← forCount count (do
    let time ← decodeI64
    let attr_mask ← decodeI32
    let price_bid ← decodeF64
    let price_ask ← decodeF64
    let size_bid ← decodeDecimalMax
    let size_ask ← decodeDecimalMax
    pure { time := time,
           tick_attrib_bid_ask :=
             { ask_past_high := attr_mask.emod 2 = 1,
               bid_past_low := (attr_mask.fdiv 2).emod 2 = 1 },
           price_bid := price_bid, price_ask := price_ask,
           size_bid := size_bid, size_ask := size_ask :
           HistoricalTickBidAsk })
  let done ← decodeBool
  pure (.historicalTicksBidAsk req_id ticks done)

/-- `decode_historical_ticks_last` (HISTORICAL_TICKS_LAST, 98). -/
def decodeHistoricalTicksLast : DecM IBEvent := do
  let req_id ← decodeI32
  let count ← decodeI32
  let _ ← vecWithCapacity count
  let ticks ← forCount count (do
    let time ← decodeI64
    let attr_mask ← decodeI32
    let price ← decodeF64
    let size ← decodeDecimalMax
    let exchange ← decodeString
    let special_conditions ← decodeString
    pure { time := time,
           tick_attrib_last :=
             { past_limit := attr_mask.emod 2 = 1,
               unreported := (attr_mask.fdiv 2).emod 2 = 1 },
           price := price, size := size, exchange := exchange,
           special_conditions := special_conditions : HistoricalTickLast })
  let done ← decodeBool
  pure (.historicalTicksLast req_id ticks done)

/-- `decode_historical_schedule` (HISTORICAL_SCHEDULE, 106). -/
def decodeHistoricalSchedule : DecM IBEvent := do
  let req_id ← decodeI32
  let start_date_time ← decodeString
  let end_date_time ← decodeString
  let time_zone ← decodeString
  let count ← decodeI32
  let _ ← vecWithCapacity count
  let sessions ← forCount count (do
    let s ← decodeString
    let e ← decodeString
    let r ← decodeString
    pure { start_date_time := s, end_date_time := e, ref_date := r :
      HistoricalSession })
  pure (.historicalSchedule req_id start_date_time end_date_time time_zone
    sessions)

/-- `decode_real_time_bars` (REAL_TIME_BARS, 50). -/
def decodeRealTimeBars : DecM IBEvent := do
  let _version ← decodeI32
  let req_id ← decodeI32
  let time ← decodeI64
  let op ← decodeF64
  let high ← decodeF64
  let low ← decodeF64
  let close ← decodeF64
  let volume ← decodeDecimal
  let wap ← decodeDecimal
  let count ← decodeI32
  pure (.realtimeBar req_id time op high low close volume wap count)

/-- `decode_scanner_data` (SCANNER_DATA, 20).  The `Vec::with_capacity`
on the raw decoded `count` is the panic site of the scanner-response
robustness analysis. -/
def decodeScannerData : DecM IBEvent := do
  let _version ← decodeI32
  let req_id ← decodeI32
  let count ← decodeI32
  let _ ← vecWithCapacity count
  let items ← forCount count (do
    let rank ← decodeI32
    let con_id ← decodeI32
    let symbol ← decodeString
    let sec_type ← decodeEnumOptT (fun s => some (SecType.fromBytes s))
    let ltd ← decodeString
    let strike ← decodeF64Max
    let right ← decodeEnumOptT (fun s => some (Right.fromBytes s))
    let exchange ← decodeString
    let currency ← decodeString
    let local_symbol ← decodeString
    let market_name ← decodeString
    let trading_class ← decodeString
    let distance ← decodeString
    let benchmark ← decodeString
    let projection ← decodeString
    let legs_str ← decodeString
    pure { rank := rank,
           contract_details :=
             { contract :=
                 { con_id := con_id, symbol := symbol, sec_type := sec_type,
                   last_trade_date_or_contract_month := ltd,
                   strike := strike, right := right, exchange := exchange,
                   currency := currency, local_symbol := local_symbol,
                   trading_class := trading_class },
               market_name := market_name },
           distance := distance, benchmark := benchmark,
           projection := projection, legs_str := legs_str :
           ScannerDataItem })
  pure (.scannerData req_id items)

/-- `decode_scanner_parameters` (SCANNER_PARAMETERS, 19). -/
def decodeScannerParameters : DecM IBEvent := do
  let _version ← decodeI32
  let xml ← decodeString
  pure (.scannerParameters xml)

/-- `decode_pnl` (PNL, 94). -/
def decodePnl : DecM IBEvent := do
  let req_id ← decodeI32
  let daily_pnl ← decodeF64
  let sv ← getServerVersion
  let unrealized_pnl ← if sv ≥ svUNREALIZED_PNL then decodeF64
    else pure f64MAX
  let realized_pnl ← if sv ≥ svREALIZED_PNL then decodeF64 else pure f64MAX
  pure (.pnl req_id daily_pnl unrealized_pnl realized_pnl)

/-- `decode_pnl_single` (PNL_SINGLE, 95). -/
def decodePnlSingle : DecM IBEvent := do
  let req_id ← decodeI32
  let pos ← decodeDecimal
  let daily_pnl ← decodeF64
  let sv ← getServerVersion
  let unrealized_pnl ← if sv ≥ svUNREALIZED_PNL then decodeF64
    else pure f64MAX
  let realized_pnl ← if sv ≥ svREALIZED_PNL then decodeF64 else pure f64MAX
  let value ← decodeF64
  pure (.pnlSingle req_id pos daily_pnl unrealized_pnl realized_pnl value)

/-- `decode_news_bulletins` (NEWS_BULLETINS, 14). -/
def decodeNewsBulletins : DecM IBEvent := do
  let _version ← decodeI32
  let msg_id ← decodeI32
  let msg_type ← decodeI32
  let message ← decodeString
  let origin_exch ← decodeString
  pure (.updateNewsBulletin msg_id msg_type message origin_exch)

/-- `decode_news_article` (NEWS_ARTICLE, 83). -/
def decodeNewsArticle : DecM IBEvent := do
  let req_id ← decodeI32
  let article_type ← decodeI32
  let article_text ← decodeString
  pure (.newsArticle req_id article_type article_text)

/-- `decode_news_providers` (NEWS_PROVIDERS, 85). -/
def decodeNewsProviders : DecM IBEvent := do
  let count ← decodeI32
  let _ ← vecWithCapacity count
  let providers ← forCount count (do
    let provider_code ← decodeString
    let provider_name ← decodeString
    pure { provider_code := provider_code, provider_name := provider_name :
      NewsProvider })
  pure (.newsProviders providers)

/-- `decode_historical_news` (HISTORICAL_NEWS, 86). -/
def decodeHistoricalNews : DecM IBEvent := do
  let req_id ← decodeI32
  let time ← decodeString
  let provider_code ← decodeString
  let article_id ← decodeString
  let headline ← decodeString
  pure (.historicalNews req_id time provider_code article_id headline)

/-- `decode_historical_news_end` (HISTORICAL_NEWS_END, 87). -/
def decodeHistoricalNewsEnd : DecM IBEvent := do
  let req_id ← decodeI32
  let has_more ← decodeBool
  pure (.historicalNewsEnd req_id has_more)

/-- `decode_fundamental_data` (FUNDAMENTAL_DATA, 51). -/
def decodeFundamentalData : DecM IBEvent := do
  let _version ← decodeI32
  let req_id ← decodeI32
  let data ← decodeString
  pure (.fundamentalData req_id data)

/-- `decode_market_rule` (MARKET_RULE, 93). -/
def decodeMarketRule : DecM IBEvent := do
  let market_rule_id ← decodeI32
  let count ← decodeI32
  let _ ← vecWithCapacity count
  let price_increments ← forCount count (do
    let low_edge ← decodeF64
    let increment ← decodeF64
    pure { low_edge := low_edge, increment := increment : PriceIncrement })
  pure (.marketRule market_rule_id price_increments)

/-- First Unicode scalar value of a (valid) UTF-8 byte string
(`str::chars().next()`), or the space character when empty. -/
def utf8FirstChar (l : List Nat) : Nat :=
  match l with
  | [] => 32
  | b :: rest =>
    if b < 128 then b
    else if b < 224 then (b - 192) * 64 + (rest.headD 0 - 128)
    else if b < 240 then
      (b - 224) * 4096 + (rest.headD 0 - 128) * 64 + (rest.getD 1 0 - 128)
    else
      (b - 240) * 262144 + (rest.headD 0 - 128) * 4096 +
        (rest.getD 1 0 - 128) * 64 + (rest.getD 2 0 - 128)

/-- `decode_smart_components` (SMART_COMPONENTS, 82). -/
def decodeSmartComponents : DecM IBEvent := do
  let req_id ← decodeI32
  let count ← decodeI32
  let _ ← vecWithCapacity count
  let components ← forCount count (do
    let bit_number ← decodeI32
    let exchange ← decodeString
    let letter ← decodeString
    let exchange_letter := utf8FirstChar letter
    pure { bit_number := bit_number, exchange := exchange,
           exchange_letter := exchange_letter : SmartComponent })
  pure (.smartComponents req_id components)

/-- `decode_family_codes` (FAMILY_CODES, 78). -/
def decodeFamilyCodes : DecM IBEvent := do
  let count ← decodeI32
  let _ ← vecWithCapacity count
  let codes ← forCount count (do
    let account_id ← decodeString
    let family_code_str ← decodeString
    pure { account_id := account_id, family_code_str := family_code_str :
      FamilyCode })
  pure (.familyCodes codes)

/-- `decode_soft_dollar_tiers` (SOFT_DOLLAR_TIERS, 77). -/
def decodeSoftDollarTiers : DecM IBEvent := do
  let req_id ← decodeI32
  let count ← decodeI32
  let _ ← vecWithCapacity count
  let tiers ← forCount count (do
    let name ← decodeString
    let val ← decodeString
    let display_name ← decodeString
    pure { name := name, val := val, display_name := display_name :
      SoftDollarTier })
  pure (.softDollarTiers req_id tiers)

/-- `decode_histogram_data` (HISTOGRAM_DATA, 89). -/
def decodeHistogramData : DecM IBEvent := do
  let req_id ← decodeI32
  let count ← decodeI32
  let _ ← vecWithCapacity count
  let data ← forCount count (do
    let price ← decodeF64
    let size ← decodeDecimalMax
    pure { price := price, size := size : HistogramEntry })
  pure (.histogramData req_id data)

/-- `decode_reroute_mkt_data_req` (REROUTE_MKT_DATA_REQ, 91). -/
def decodeRerouteMktDataReq : DecM IBEvent := do
  let req_id ← decodeI32
  let con_id ← decodeI32
  let exchange ← decodeString
  pure (.rerouteMktDataReq req_id con_id exchange)

/-- `decode_reroute_mkt_depth_req` (REROUTE_MKT_DEPTH_REQ, 92). -/
def decodeRerouteMktDepthReq : DecM IBEvent := do
  let req_id ← decodeI32
  let con_id ← decodeI32
  let exchange ← decodeString
  pure (.rerouteMktDepthReq req_id con_id exchange)

/-- `decode_receive_fa` (RECEIVE_FA, 16). -/
def decodeReceiveFa : DecM IBEvent := do
  let _version ← decodeI32
  let fa_data_type ← decodeI32
  let xml ← decodeString
  pure (.receiveFa fa_data_type xml)

/-- `decode_replace_fa_end` (REPLACE_FA_END, 103). -/
def decodeReplaceFaEnd : DecM IBEvent := do
  let req_id ← decodeI32
  let text ← decodeString
  pure (.replaceFaEnd req_id text)

/-- `decode_display_group_list` (DISPLAY_GROUP_LIST, 67). -/
def decodeDisplayGroupList : DecM IBEvent := do
  let _version ← decodeI32
  let req_id ← decodeI32
  let groups ← decodeString
  pure (.displayGroupList req_id groups)

/-- `decode_display_group_updated` (DISPLAY_GROUP_UPDATED, 68). -/
def decodeDisplayGroupUpdated : DecM IBEvent := do
  let _version ← decodeI32
  let req_id ← decodeI32
  let contract_info ← decodeString
  pure (.displayGroupUpdated req_id contract_info)

/-- `decode_verify_message_api` (VERIFY_MESSAGE_API, 65). -/
def decodeVerifyMessageApi : DecM IBEvent := do
  let _version ← decodeI32
  let api_data ← decodeString
  pure (.verifyMessageApi api_data)

/-- `decode_verify_completed` (VERIFY_COMPLETED, 66). -/
def decodeVerifyCompleted : DecM IBEvent := do
  let _version ← decodeI32
  let s ← decodeString
  let is_successful := s = strBytes "true"
  let error_text ← decodeString
  pure (.verifyCompleted is_successful error_text)

/-- `decode_verify_and_auth_message_api` (VERIFY_AND_AUTH_MESSAGE_API, 69). -/
def decodeVerifyAndAuthMessageApi : DecM IBEvent := do
  let _version ← decodeI32
  let api_data ← decodeString
  let xyz_challenge ← decodeString
  pure (.verifyAndAuthMessageApi api_data xyz_challenge)

/-- `decode_verify_and_auth_completed` (VERIFY_AND_AUTH_COMPLETED, 70). -/
def decodeVerifyAndAuthCompleted : DecM IBEvent := do
  let _version ← decodeI32
  let s ← decodeString
  let is_successful := s = strBytes "true"
  let error_text ← decodeString
  pure (.verifyAndAuthCompleted is_successful error_text)

/-- `decode_wsh_meta_data` (WSH_META_DATA, 104). -/
def decodeWshMetaData : DecM IBEvent := do
  let req_id ← decodeI32
  let data_json ← decodeString
  pure (.wshMetaData req_id data_json)

/-- `decode_wsh_event_data` (WSH_EVENT_DATA, 105). -/
def decodeWshEventData : DecM IBEvent := do
  let req_id ← decodeI32
  let data_json ← decodeString
  pure (.wshEventData req_id data_json)

/-- `decode_user_info` (USER_INFO, 107). -/
def decodeUserInfo : DecM IBEvent := do
  let req_id ← decodeI32
  let white_branding_id ← decodeString
  pure (.userInfo req_id white_branding_id)

/-! ## Protobuf branch (`proto_decode.rs`) and message dispatch
(`decoder.rs::decode_server_msg`) -/

/-- The six prost leaf parsers used by `proto_decode.rs` are generated by
`prost-build` into `generated/protobuf.rs`, which is not part of the
hand-written sources.  The in-source dispatch is therefore modelled
parametrically in the leaf parsers' behaviour: each field stands for the
corresponding `decode_*_pb` body after its `pb::X::decode` call. -/
structure PbLeaves where
  order_status : List Nat → Except DecFail IBEvent
  err_msg : List Nat → Except DecFail IBEvent
  open_order : List Nat → Except DecFail IBEvent
  execution_data : List Nat → Except DecFail IBEvent
  open_order_end : List Nat → Except DecFail IBEvent
  execution_data_end : List Nat → Except DecFail IBEvent

/-- Incoming message IDs (`protocol.rs::incoming`). -/
def incTICK_PRICE : Int := 1
def incTICK_SIZE : Int := 2
def incORDER_STATUS : Int := 3
def incERR_MSG : Int := 4
def incOPEN_ORDER : Int := 5
def incACCT_VALUE : Int := 6
def incPORTFOLIO_VALUE : Int := 7
def incACCT_UPDATE_TIME : Int := 8
def incNEXT_VALID_ID : Int := 9
def incCONTRACT_DATA : Int := 10
def incEXECUTION_DATA : Int := 11
def incMARKET_DEPTH : Int := 12
def incMARKET_DEPTH_L2 : Int := 13
def incNEWS_BULLETINS : Int := 14
def incMANAGED_ACCTS : Int := 15
def incRECEIVE_FA : Int := 16
def incHISTORICAL_DATA : Int := 17
def incBOND_CONTRACT_DATA : Int := 18
def incSCANNER_PARAMETERS : Int := 19
def incSCANNER_DATA : Int := 20
def incTICK_OPTION_COMPUTATION : Int := 21
def incTICK_GENERIC : Int := 45
def incTICK_STRING : Int := 46
def incTICK_EFP : Int := 47
def incCURRENT_TIME : Int := 49
def incREAL_TIME_BARS : Int := 50
def incFUNDAMENTAL_DATA : Int := 51
def incCONTRACT_DATA_END : Int := 52
def incOPEN_ORDER_END : Int := 53
def incACCT_DOWNLOAD_END : Int := 54
def incEXECUTION_DATA_END : Int := 55
def incDELTA_NEUTRAL_VALIDATION : Int := 56
def incTICK_SNAPSHOT_END : Int := 57
def incMARKET_DATA_TYPE : Int := 58
def incCOMMISSION_AND_FEES_REPORT : Int := 59
def incPOSITION_DATA : Int := 61
def incPOSITION_END : Int := 62
def incACCOUNT_SUMMARY : Int := 63
def incACCOUNT_SUMMARY_END : Int := 64
def incVERIFY_MESSAGE_API : Int := 65
def incVERIFY_COMPLETED : Int := 66
def incDISPLAY_GROUP_LIST : Int := 67
def incDISPLAY_GROUP_UPDATED : Int := 68
def incVERIFY_AND_AUTH_MESSAGE_API : Int := 69
def incVERIFY_AND_AUTH_COMPLETED : Int := 70
def incPOSITION_MULTI : Int := 71
def incPOSITION_MULTI_END : Int := 72
def incACCOUNT_UPDATE_MULTI : Int := 73
def incACCOUNT_UPDATE_MULTI_END : Int := 74
def incSECURITY_DEFINITION_OPTION_PARAMETER : Int := 75
def incSECURITY_DEFINITION_OPTION_PARAMETER_END : Int := 76
def incSOFT_DOLLAR_TIERS : Int := 77
def incFAMILY_CODES : Int := 78
def incSYMBOL_SAMPLES : Int := 79
def incMKT_DEPTH_EXCHANGES : Int := 80
def incTICK_REQ_PARAMS : Int := 81
def incSMART_COMPONENTS : Int := 82
def incNEWS_ARTICLE : Int := 83
def incTICK_NEWS : Int := 84
def incNEWS_PROVIDERS : Int := 85
def incHISTORICAL_NEWS : Int := 86
def incHISTORICAL_NEWS_END : Int := 87
def incHEAD_TIMESTAMP : Int := 88
def incHISTOGRAM_DATA : Int := 89
def incHISTORICAL_DATA_UPDATE : Int := 90
def incREROUTE_MKT_DATA_REQ : Int := 91
def incREROUTE_MKT_DEPTH_REQ : Int := 92
def incMARKET_RULE : Int := 93
def incPNL : Int := 94
def incPNL_SINGLE : Int := 95
def incHISTORICAL_TICKS : Int := 96
def incHISTORICAL_TICKS_BID_ASK : Int := 97
def incHISTORICAL_TICKS_LAST : Int := 98
def incTICK_BY_TICK : Int := 99
def incORDER_BOUND : Int := 100
def incCOMPLETED_ORDER : Int := 101
def incCOMPLETED_ORDERS_END : Int := 102
def incREPLACE_FA_END : Int := 103
def incWSH_META_DATA : Int := 104
def incWSH_EVENT_DATA : Int := 105
def incHISTORICAL_SCHEDULE : Int := 106
def incUSER_INFO : Int := 107
def incHISTORICAL_DATA_END_MSG : Int := 108
def incCURRENT_TIME_IN_MILLIS : Int := 109

/-- `proto_decode::decode_protobuf_msg`: dispatch on the real (offset-
subtracted) message ID over the six protobuf-capable types; any other ID
is a `Decoding` error. -/
def decodeProtobufMsg (leaves : PbLeaves) (real_msg_id : Int)
    (data : List Nat) : Except DecFail IBEvent :=
  if real_msg_id = incORDER_STATUS then leaves.order_status data
  else if real_msg_id = incERR_MSG then leaves.err_msg data
  else if real_msg_id = incOPEN_ORDER then leaves.open_order data
  else if real_msg_id = incEXECUTION_DATA then leaves.execution_data data
  else if real_msg_id = incOPEN_ORDER_END then leaves.open_order_end data
  else if real_msg_id = incEXECUTION_DATA_END then
    leaves.execution_data_end data
  else .error (.err .decoding)

/-- `decode_server_msg_inner`: read the message ID, take the protobuf
branch when `msg_id > PROTOBUF_MSG_ID`, otherwise dispatch on the ID. -/
def decodeServerMsgRun (leaves : PbLeaves) (data : List Nat) :
    DecM IBEvent := do
    let msg_id ← decodeMsgId
    if msg_id > PROTOBUF_MSG_ID then do
      let remaining ← remainingBytes
      fun s =>
        match decodeProtobufMsg leaves (msg_id - PROTOBUF_MSG_ID) remaining
        with
        | .ok e => .ok (e, s)
        | .error e => .error e
    else if msg_id = incERR_MSG then decodeErrMsg
    else if msg_id = incNEXT_VALID_ID then decodeNextValidId
    else if msg_id = incMANAGED_ACCTS then decodeManagedAccts
    else if msg_id = incCURRENT_TIME then decodeCurrentTime
    else if msg_id = incCURRENT_TIME_IN_MILLIS then decodeCurrentTimeInMillis
    else if msg_id = incTICK_PRICE then decodeTickPrice
    else if msg_id = incTICK_SIZE then decodeTickSize
    else if msg_id = incTICK_OPTION_COMPUTATION then
      decodeTickOptionComputation
    else if msg_id = incTICK_GENERIC then decodeTickGeneric
    else if msg_id = incTICK_STRING then decodeTickString
    else if msg_id = incTICK_EFP then decodeTickEfp
    else if msg_id = incTICK_SNAPSHOT_END then decodeTickSnapshotEnd
    else if msg_id = incTICK_REQ_PARAMS then decodeTickReqParams
    else if msg_id = incTICK_NEWS then decodeTickNews
    else if msg_id = incMARKET_DATA_TYPE then decodeMarketDataType
    else if msg_id = incTICK_BY_TICK then decodeTickByTick
    else if msg_id = incORDER_STATUS then decodeOrderStatus
    else if msg_id = incOPEN_ORDER then decodeOpenOrder
    else if msg_id = incOPEN_ORDER_END then pure .openOrderEnd
    else if msg_id = incORDER_BOUND then decodeOrderBound
    else if msg_id = incCOMPLETED_ORDER then decodeCompletedOrder
    else if msg_id = incCOMPLETED_ORDERS_END then pure .completedOrdersEnd
    else if msg_id = incEXECUTION_DATA then decodeExecutionData
    else if msg_id = incEXECUTION_DATA_END then decodeExecutionDataEnd
    else if msg_id = incCOMMISSION_AND_FEES_REPORT then
      decodeCommissionReport
    else if msg_id = incACCT_VALUE then decodeAcctValue
    else if msg_id = incPORTFOLIO_VALUE then decodePortfolioValue
    else if msg_id = incACCT_UPDATE_TIME then decodeAcctUpdateTime
    else if msg_id = incACCT_DOWNLOAD_END then decodeAcctDownloadEnd
    else if msg_id = incACCOUNT_SUMMARY then decodeAccountSummary
    else if msg_id = incACCOUNT_SUMMARY_END then decodeAccountSummaryEnd
    else if msg_id = incPOSITION_DATA then decodePositionData
    else if msg_id = incPOSITION_END then pure .positionEnd
    else if msg_id = incPOSITION_MULTI then decodePositionMulti
    else if msg_id = incPOSITION_MULTI_END then decodePositionMultiEnd
    else if msg_id = incACCOUNT_UPDATE_MULTI then decodeAccountUpdateMulti
    else if msg_id = incACCOUNT_UPDATE_MULTI_END then
      decodeAccountUpdateMultiEnd
    else if msg_id = incCONTRACT_DATA then decodeContractData
    else if msg_id = incBOND_CONTRACT_DATA then decodeBondContractData
    else if msg_id = incCONTRACT_DATA_END then decodeContractDataEnd
    else if msg_id = incSYMBOL_SAMPLES then decodeSymbolSamples
    else if msg_id = incDELTA_NEUTRAL_VALIDATION then
      decodeDeltaNeutralValidation
    else if msg_id = incSECURITY_DEFINITION_OPTION_PARAMETER then
      decodeSecDefOptParams
    else if msg_id = incSECURITY_DEFINITION_OPTION_PARAMETER_END then
      decodeSecDefOptParamsEnd
    else if msg_id = incMARKET_DEPTH then decodeMarketDepth
    else if msg_id = incMARKET_DEPTH_L2 then decodeMarketDepthL2
    else if msg_id = incMKT_DEPTH_EXCHANGES then decodeMktDepthExchanges
    else if msg_id = incHISTORICAL_DATA then decodeHistoricalData
    else if msg_id = incHISTORICAL_DATA_UPDATE then
      decodeHistoricalDataUpdate
    else if msg_id = incHISTORICAL_DATA_END_MSG then
      decodeHistoricalDataEndMsg
    else if msg_id = incHEAD_TIMESTAMP then decodeHeadTimestamp
    else if msg_id = incHISTORICAL_TICKS then decodeHistoricalTicks
    else if msg_id = incHISTORICAL_TICKS_BID_ASK then
      decodeHistoricalTicksBidAsk
    else if msg_id = incHISTORICAL_TICKS_LAST then decodeHistoricalTicksLast
    else if msg_id = incHISTORICAL_SCHEDULE then decodeHistoricalSchedule
    else if msg_id = incREAL_TIME_BARS then decodeRealTimeBars
    else if msg_id = incSCANNER_DATA then decodeScannerData
    else if msg_id = incSCANNER_PARAMETERS then decodeScannerParameters
    else if msg_id = incPNL then decodePnl
    else if msg_id = incPNL_SINGLE then decodePnlSingle
    else if msg_id = incNEWS_BULLETINS then decodeNewsBulletins
    else if msg_id = incNEWS_ARTICLE then decodeNewsArticle
    else if msg_id = incNEWS_PROVIDERS then decodeNewsProviders
    else if msg_id = incHISTORICAL_NEWS then decodeHistoricalNews
    else if msg_id = incHISTORICAL_NEWS_END then decodeHistoricalNewsEnd
    else if msg_id = incFUNDAMENTAL_DATA then decodeFundamentalData
    else if msg_id = incMARKET_RULE then decodeMarketRule
    else if msg_id = incSMART_COMPONENTS then decodeSmartComponents
    else if msg_id = incFAMILY_CODES then decodeFamilyCodes
    else if msg_id = incSOFT_DOLLAR_TIERS then decodeSoftDollarTiers
    else if msg_id = incHISTOGRAM_DATA then decodeHistogramData
    else if msg_id = incREROUTE_MKT_DATA_REQ then decodeRerouteMktDataReq
    else if msg_id = incREROUTE_MKT_DEPTH_REQ then decodeRerouteMktDepthReq
    else if msg_id = incRECEIVE_FA then decodeReceiveFa
    else if msg_id = incREPLACE_FA_END then decodeReplaceFaEnd
    else if msg_id = incDISPLAY_GROUP_LIST then decodeDisplayGroupList
    else if msg_id = incDISPLAY_GROUP_UPDATED then decodeDisplayGroupUpdated
    else if msg_id = incVERIFY_MESSAGE_API then decodeVerifyMessageApi
    else if msg_id = incVERIFY_COMPLETED then decodeVerifyCompleted
    else if msg_id = incVERIFY_AND_AUTH_MESSAGE_API then
      decodeVerifyAndAuthMessageApi
    else if msg_id = incVERIFY_AND_AUTH_COMPLETED then
      decodeVerifyAndAuthCompleted
    else if msg_id = incWSH_META_DATA then decodeWshMetaData
    else if msg_id = incWSH_EVENT_DATA then decodeWshEventData
    else if msg_id = incUSER_INFO then decodeUserInfo
    else pure (.unknown msg_id data)

/-- `decode_server_msg_inner`: run the dispatch on a fresh decoder over
the frame body. -/
def decodeServerMsgInner (leaves : PbLeaves) (data : List Nat)
    (server_version : Int) : Except DecFail IBEvent :=
  match decodeServerMsgRun leaves data
      { data := data, pos := 0, server_version := server_version } with
  | .ok (e, _) => .ok e
  | .error e => .error e

/-- `decode_server_msg`: catch decoder `Err`s as `Unknown { msg_id: -1 }`.
A Rust panic aborts instead of producing an event, modelled as `none`. -/
def decodeServerMsg (leaves : PbLeaves) (data : List Nat)
    (server_version : Int) : Option IBEvent :=
  match decodeServerMsgInner leaves data server_version with
  | .ok e => some e
  | .error (.err _) => some (.unknown (-1) data)
  | .error .panicked => none

/-! ## Encoder (`encoder.rs`) -/

/-- `is_ascii_printable`: ASCII 32–126 plus tab, LF, CR. -/
def is_ascii_printable (s : List Nat) : Bool :=
  s.all (fun b => (32 ≤ b ∧ b < 127) ∨ b = 9 ∨ b = 10 ∨ b = 13)

/-- `MessageEncoder`: the message buffer plus the negotiated server
version.  `MessageEncoder::new` reserves four zero bytes for the length
header. -/
structure Enc where
  buf : List Nat
  server_version : Int
deriving DecidableEq

/-- `MessageEncoder::new`. -/
def mkEncoder (server_version : Int) : Enc :=
  { buf := [0, 0, 0, 0], server_version := server_version }

/-- `encode_field_str`: a non-printable value only produces a
`tracing::warn!`; the bytes are appended regardless, followed by the null
terminator. -/
def encode_field_str (e : Enc) (value : List Nat) : Enc :=
  { e with buf := e.buf ++ value ++ [0] }

/-- `encode_field_i32` (`Display` for `i32` is the ASCII decimal). -/
def encode_field_i32 (e : Enc) (value : Int) : Enc :=
  { e with buf := e.buf ++ intToBytes value ++ [0] }

/-- `encode_field_i64`. -/
def encode_field_i64 (e : Enc) (value : Int) : Enc :=
  { e with buf := e.buf ++ intToBytes value ++ [0] }

/-- `encode_field_f64`: positive infinity is sent as the literal
`"Infinity"`; any other value uses `f64` `Display` (ryu shortest
round-trip form, whose decimal output the `WireF64` model carries in
canonical form). -/
def encode_field_f64 (e : Enc) (value : WireF64) : Enc :=
  { e with buf := e.buf ++
      (match value with
       | .inf => strBytes "Infinity"
       | .finite m s => f64DisplayBytes (.finite m s)) ++ [0] }

/-- `encode_field_bool`: `"1"` / `"0"`. -/
def encode_field_bool (e : Enc) (value : Bool) : Enc :=
  { e with buf := e.buf ++ (if value then [49] else [48]) ++ [0] }

/-- `encode_field_decimal` (`rust_decimal` `Display`). -/
def encode_field_decimal (e : Enc) (value : WireDecimal) : Enc :=
  { e with buf := e.buf ++ decimalToBytes value ++ [0] }

/-- `encode_field_max_i32`: `None` becomes the empty field. -/
def encode_field_max_i32 (e : Enc) (value : Option Int) : Enc :=
  match value with
  | some v => encode_field_i32 e v
  | none => { e with buf := e.buf ++ [0] }

/-- `encode_field_max_i64`. -/
def encode_field_max_i64 (e : Enc) (value : Option Int) : Enc :=
  match value with
  | some v => encode_field_i64 e v
  | none => { e with buf := e.buf ++ [0] }

/-- `encode_field_max_f64`. -/
def encode_field_max_f64 (e : Enc) (value : Option WireF64) : Enc :=
  match value with
  | some v => encode_field_f64 e v
  | none => { e with buf := e.buf ++ [0] }

/-- `encode_field_max_decimal`. -/
def encode_field_max_decimal (e : Enc) (value : Option WireDecimal) : Enc :=
  match value with
  | some v => encode_field_decimal e v
  | none => { e with buf := e.buf ++ [0] }

/-- `encode_raw_int`: 4-byte big-endian two's complement, no null. -/
def encode_raw_int (e : Enc) (value : Int) : Enc :=
  let u := (value.emod (2 ^ 32)).toNat
  { e with buf := e.buf ++
      [u / 2 ^ 24 % 256, u / 2 ^ 16 % 256, u / 2 ^ 8 % 256, u % 256] }

/-- `encode_msg_id`: raw big-endian when `server_version >= PROTOBUF`,
ASCII decimal field otherwise. -/
def encode_msg_id (e : Enc) (msg_id : Int) : Enc :=
  if e.server_version ≥ svPROTOBUF then encode_raw_int e msg_id
  else encode_field_i32 e msg_id

/-- `encode_field_opt_display` at a `Display`able payload given by
`toBytes`: `None` is the empty field. -/
def encode_field_opt_display (e : Enc) (value : Option (List Nat)) : Enc :=
  match value with
  | some v => encode_field_str e v
  | none => { e with buf := e.buf ++ [0] }

/-- `encode_contract`: the thirteen-field contract block. -/
def encode_contract (e : Enc) (contract : Contract) : Enc :=
  let e := encode_field_i64 e contract.con_id
  let e := encode_field_str e contract.symbol
  let e := encode_field_opt_display e (contract.sec_type.map SecType.toBytes)
  let e := encode_field_str e contract.last_trade_date_or_contract_month
  let e := encode_field_max_f64 e contract.strike
  let e := encode_field_opt_display e (contract.right.map Right.toBytes)
  let e := encode_field_str e contract.multiplier
  let e := encode_field_str e contract.exchange
  let e := encode_field_str e contract.primary_exchange
  let e := encode_field_str e contract.currency
  let e := encode_field_str e contract.local_symbol
  let e := encode_field_str e contract.trading_class
  encode_field_bool e contract.include_expired

/-- `encode_tag_value_list`: `"k1=v1;k2=v2;"` as one string field. -/
def encode_tag_value_list (e : Enc) (tags : List TagValue) : Enc :=
  encode_field_str e
    (tags.foldl (fun acc tv => acc ++ tv.tag ++ [61] ++ tv.value ++ [59]) [])

/-- Big-endian 4-byte encoding of a message length. -/
def be32 (n : Nat) : List Nat :=
  [n / 2 ^ 24 % 256, n / 2 ^ 16 % 256, n / 2 ^ 8 % 256, n % 256]

/-- `MessageEncoder::finalize`: an over-long body is an `Encoding` error;
otherwise the big-endian length replaces the four reserved bytes. -/
def finalize (e : Enc) : Except IBApiError (List Nat) :=
  let msg_len := e.buf.length - HEADER_LEN
  if msg_len > MAX_MSG_LEN then .error .encoding
  else .ok (be32 msg_len ++ e.buf.drop HEADER_LEN)

/-! ## Transport (`transport.rs`) and client (`client.rs`) -/

/-- Outgoing message IDs (`protocol.rs::outgoing`) used here. -/
def outREQ_MKT_DATA : Int := 1
def outREQ_CURRENT_TIME : Int := 49
def outREQ_CURRENT_TIME_IN_MILLIS : Int := 105

/-- `read_message`, abstracted over the socket: the input is the byte
stream available before EOF.  Returns the extracted body together with
the rest of the stream.  A zero or over-max header length is a `Protocol`
error; EOF before a complete header or body is `Disconnected`. -/
def readMessage (stream : List Nat) :
    Except IBApiError (List Nat × List Nat) :=
  if stream.length < HEADER_LEN then .error .disconnected
  else
    let msg_len := stream.getD 0 0 * 2 ^ 24 + stream.getD 1 0 * 2 ^ 16 +
      stream.getD 2 0 * 2 ^ 8 + stream.getD 3 0
    if msg_len = 0 ∨ msg_len > MAX_MSG_LEN then
      .error (.protocol (strBytes "invalid message length: " ++
        natToBytes msg_len))
    else if stream.length < HEADER_LEN + msg_len then .error .disconnected
    else .ok ((stream.drop HEADER_LEN).take msg_len,
      stream.drop (HEADER_LEN + msg_len))

/-- The state `process_connect_ack` establishes on success. -/
structure ConnAck where
  server_version : Int
  tws_time : List Nat
deriving DecidableEq

/-- `process_connect_ack`, applied to an already-read message body: a
negative first field is a redirect (`Protocol` error embedding the
host:port), an out-of-range version is a `Protocol` error, otherwise the
TWS time field completes the handshake. -/
def connectAckRun : DecM ConnAck := do
  let sv ← decodeI32
  if sv < 0 then do
    let hostport ← decodeString
    fun _ => .error (.err (.protocol
      (strBytes "server redirect to " ++ hostport)))
  else if ¬ (MIN_CLIENT_VER ≤ sv ∧ sv ≤ MAX_CLIENT_VER) then
    fun _ => .error (.err (.protocol
      (strBytes "unsupported server version " ++ intToBytes sv ++
        strBytes " (expected " ++ intToBytes MIN_CLIENT_VER ++
        strBytes ".." ++ intToBytes MAX_CLIENT_VER ++ strBytes ")")))
  else do
    let tws_time ← decodeString
    pure { server_version := sv, tws_time := tws_time }

/-- `process_connect_ack` applied to an already-read message body. -/
def processConnectAck (msg : List Nat) : Except IBApiError ConnAck :=
  match connectAckRun { data := msg, pos := 0, server_version := 0 } with
  | .ok (a, _) => .ok a
  | .error (.err e) => .error e
  | .error .panicked => .error .decoding

/-- `IBClient`'s request-relevant state: the negotiated server version,
the connected flag, and (for observability) the log of framed messages
handed to the transport. -/
structure ClientState where
  server_version : Int
  connected : Bool
  sent : List (List Nat) := []
deriving DecidableEq

/-- `IBClient::disconnect` (idempotent `swap(false)`). -/
def ClientState.disconnect (c : ClientState) : ClientState :=
  { c with connected := false }

/-- `IBClient::send_raw`: a `Connection` error when not connected,
otherwise the framed bytes go to the writer. -/
def sendRaw (c : ClientState) (data : List Nat) :
    Except IBApiError Unit × ClientState :=
  if ¬ c.connected then (.error .connection, c)
  else (.ok (), { c with sent := c.sent ++ [data] })

/-- `IBClient::check_server_version`: an `Encoding` error below the
required minimum. -/
def checkServerVersion (c : ClientState) (min_version : Int) :
    Except IBApiError Unit :=
  if c.server_version < min_version then .error .encoding else .ok ()

/-- `IBClient::send_encoded` = `finalize` then `send_raw`. -/
def sendEncoded (c : ClientState) (enc : Enc) :
    Except IBApiError Unit × ClientState :=
  match finalize enc with
  | .error e => (.error e, c)
  | .ok bytes => sendRaw c bytes

/-- `IBClient::req_current_time`. -/
def reqCurrentTime (c : ClientState) :
    Except IBApiError Unit × ClientState :=
  let enc := mkEncoder c.server_version
  let enc := encode_msg_id enc outREQ_CURRENT_TIME
  let enc := encode_field_i32 enc 1
  sendEncoded c enc

/-- `IBClient::req_current_time_in_millis`: gated on
`CURRENT_TIME_IN_MILLIS` (197) before anything is encoded or sent. -/
def reqCurrentTimeInMillis (c : ClientState) :
    Except IBApiError Unit × ClientState :=
  match checkServerVersion c svCURRENT_TIME_IN_MILLIS with
  | .error e => (.error e, c)
  | .ok _ =>
    let enc := mkEncoder c.server_version
    let enc := encode_msg_id enc outREQ_CURRENT_TIME_IN_MILLIS
    sendEncoded c enc

/-- `IBClient::req_mkt_data`: version-11 request with the gated contract
fields, the BAG combo-leg block, the delta-neutral block, and the
trailing option fields. -/
def reqMktData (c : ClientState) (ticker_id : Int) (contract : Contract)
    (generic_ticks : List Nat) (snapshot : Bool)
    (regulatory_snapshot : Bool) (mkt_data_options : List TagValue) :
    Except IBApiError Unit × ClientState :=
  let sv := c.server_version
  let enc := mkEncoder sv
  let enc := encode_msg_id enc outREQ_MKT_DATA
  let enc := encode_field_i32 enc 11
  let enc := encode_field_i32 enc ticker_id
  let enc := if sv ≥ svREQ_MKT_DATA_CONID then
    encode_field_i64 enc contract.con_id else enc
  let enc := encode_field_str enc contract.symbol
  let enc := encode_field_opt_display enc
    (contract.sec_type.map SecType.toBytes)
  let enc := encode_field_str enc contract.last_trade_date_or_contract_month
  let enc := encode_field_max_f64 enc contract.strike
  let enc := encode_field_opt_display enc (contract.right.map Right.toBytes)
  let enc := encode_field_str enc contract.multiplier
  let enc := encode_field_str enc contract.exchange
  let enc := encode_field_str enc contract.primary_exchange
  let enc := encode_field_str enc contract.currency
  let enc := encode_field_str enc contract.local_symbol
  let enc := if sv ≥ svTRADING_CLASS then
    encode_field_str enc contract.trading_class else enc
  let enc :=
    if contract.sec_type.map SecType.toBytes = some (strBytes "BAG") then
      match contract.combo_legs with
      | some legs =>
        let enc := encode_field_i32 enc legs.length
        legs.foldl (fun enc leg =>
          let enc := encode_field_i64 enc leg.con_id
          let enc := encode_field_i64 enc leg.ratio
          let enc := encode_field_opt_display enc
            (leg.action.map Action.toBytes)
          encode_field_str enc leg.exchange) enc
      | none => encode_field_i32 enc 0
    else enc
  let enc :=
    if sv ≥ svDELTA_NEUTRAL then
      match contract.delta_neutral_contract with
      | some dnc =>
        let enc := encode_field_bool enc true
        let enc := encode_field_i64 enc dnc.con_id
        let enc := encode_field_f64 enc dnc.delta
        encode_field_f64 enc dnc.price
      | none => encode_field_bool enc false
    else enc
  let enc := encode_field_str enc generic_ticks
  let enc := encode_field_bool enc snapshot
  let enc := if sv ≥ svREQ_SMART_COMPONENTS then
    encode_field_bool enc regulatory_snapshot else enc
  let enc := if sv ≥ svLINKING then
    encode_tag_value_list enc mkt_data_options else enc
  sendEncoded c enc

/-! ## Helper lemmas for the claim theorems -/

/-- The body an encoder hands to the transport: its buffer without the
four-byte length header. -/
def encBody (e : Enc) : List Nat := e.buf.drop HEADER_LEN

theorem findIdx_zero_append (s rest : List Nat) (h : ∀ b ∈ s, b ≠ 0) :
    (s ++ 0 :: rest).findIdx? (fun b => decide (b = 0)) = some s.length := by
  induction s with
  | nil => simp [List.findIdx?_cons]
  | cons a s ih =>
    have ha : a ≠ 0 := h a (by simp)
    have ih' := ih (fun b hb => h b (by simp [hb]))
    simp [List.findIdx?_cons, ha, ih', Option.map_some']

/-- `read_field_str` on a buffer that starts with a null-free, UTF-8
valid field: the field is returned and the cursor lands past its null. -/
theorem readFieldStr_spec (sv : Int) (s rest : List Nat)
    (h0 : ∀ b ∈ s, b ≠ 0) (hv : utf8Valid s = true) :
    readFieldStr { data := s ++ 0 :: rest, pos := 0, server_version := sv } =
      .ok (s, { data := s ++ 0 :: rest, pos := s.length + 1,
                server_version := sv }) := by
  have hlen : 0 < (s ++ 0 :: rest).length := by simp
  have htake : (s ++ 0 :: rest).take s.length = s := by
    simp
  simp [readFieldStr, hlen, findIdx_zero_append s rest h0, htake, hv]

theorem natToBytes_bytes (n : Nat) : ∀ b ∈ natToBytes n, 48 ≤ b ∧ b ≤ 57 := by
  intro b hb
  have hall := natToBytes_all_digits n
  rw [List.all_eq_true] at hall
  have := hall b hb
  simp only [isDigitByte, Bool.and_eq_true, decide_eq_true_eq] at this
  omega

theorem intToBytes_bytes (i : Int) : ∀ b ∈ intToBytes i, 45 ≤ b ∧ b ≤ 57 := by
  intro b hb
  unfold intToBytes at hb
  split at hb
  · rcases List.mem_cons.1 hb with rfl | hb
    · omega
    · have := natToBytes_bytes i.natAbs b hb
      omega
  · have := natToBytes_bytes i.natAbs b hb
    omega

theorem intToBytes_ne_nil (i : Int) : intToBytes i ≠ [] := by
  unfold intToBytes
  split
  · simp
  · exact natToBytes_ne_nil i.natAbs

theorem udecimalBytes_bytes (n e : Nat) :
    ∀ b ∈ udecimalBytes n e, 46 ≤ b ∧ b ≤ 57 := by
  intro b hb
  rw [udecimalBytes_eq] at hb
  rcases List.mem_append.1 hb with h | h
  · obtain ⟨d, hd, rfl⟩ := List.mem_map.1 h
    have := paddedDigits_lt n e d (List.mem_of_mem_take hd)
    omega
  · by_cases he : e = 0
    · simp [he] at h
    · simp only [he, if_false] at h
      rcases List.mem_cons.1 h with rfl | h
      · omega
      · obtain ⟨d, hd, rfl⟩ := List.mem_map.1 h
        have := paddedDigits_lt n e d (List.mem_of_mem_drop hd)
        omega

theorem udecimalBytes_ne_nil (n e : Nat) : udecimalBytes n e ≠ [] := by
  intro h
  have hlen := paddedDigits_len n e
  rw [udecimalBytes_eq] at h
  have hcong := congrArg List.length h
  have hmin : min ((paddedDigits n e).length - e) (paddedDigits n e).length
      = (paddedDigits n e).length - e := Nat.min_eq_left (Nat.sub_le _ _)
  simp only [List.length_append, List.length_map, List.length_take,
    List.length_nil, hmin] at hcong
  omega

theorem decimalBytes_bytes (m : Int) (e : Nat) :
    ∀ b ∈ decimalBytes m e, 45 ≤ b ∧ b ≤ 57 := by
  intro b hb
  unfold decimalBytes at hb
  rcases List.mem_append.1 hb with h | h
  · by_cases hm : m < 0
    · simp [hm] at h
      omega
    · simp [hm] at h
  · have := udecimalBytes_bytes m.natAbs e b h
    omega

theorem decimalBytes_ne_nil (m : Int) (e : Nat) : decimalBytes m e ≠ [] := by
  intro h
  rcases List.append_eq_nil.1 h with ⟨_, h2⟩
  exact udecimalBytes_ne_nil m.natAbs e h2

theorem decimalBytes_ne_infinity (m : Int) (e : Nat) :
    decimalBytes m e ≠ strBytes "Infinity" := by
  intro h
  have h73 : (73 : Nat) ∈ decimalBytes m e := by
    rw [h]
    decide
  have := decimalBytes_bytes m e 73 h73
  omega

/-- Evaluating a monadic bind when the first step succeeds. -/
theorem DecM.bind_ok {α β : Type} (x : DecM α) (f : α → DecM β)
    (st st' : Dec) (a : α) (h : x st = .ok (a, st')) :
    (x >>= f) st = f a st' := by
  show (match x st with
    | .ok (a, s') => f a s'
    | .error e => .error e) = f a st'
  rw [h]

/-- Evaluating a monadic bind when the first step fails. -/
theorem DecM.bind_err {α β : Type} (x : DecM α) (f : α → DecM β)
    (st : Dec) (e : DecFail) (h : x st = .error e) :
    (x >>= f) st = .error e := by
  show (match x st with
    | .ok (a, s') => f a s'
    | .error e => .error e) = .error e
  rw [h]

theorem decodeString_rt (sv : Int) (s rest : List Nat)
    (h0 : ∀ b ∈ s, b ≠ 0) (hv : utf8Valid s = true) :
    decodeString { data := s ++ 0 :: rest, pos := 0, server_version := sv } =
      .ok (s, { data := s ++ 0 :: rest, pos := s.length + 1,
                server_version := sv }) :=
  readFieldStr_spec sv s rest h0 hv

theorem decodeI32_rt (sv v : Int) (rest : List Nat)
    (h1 : -(2 ^ 31) ≤ v) (h2 : v < 2 ^ 31) :
    decodeI32 { data := intToBytes v ++ 0 :: rest, pos := 0,
                server_version := sv } =
      .ok (v, { data := intToBytes v ++ 0 :: rest,
                pos := (intToBytes v).length + 1, server_version := sv }) := by
  have h0 : ∀ b ∈ intToBytes v, b ≠ 0 := fun b hb => by
    have := intToBytes_bytes v b hb
    omega
  have hva := utf8Valid_of_ascii _ (fun b hb => by
    have := intToBytes_bytes v b hb
    omega)
  have hrd := readFieldStr_spec sv (intToBytes v) rest h0 hva
  unfold decodeI32
  rw [DecM.bind_ok _ _ _ _ _ hrd, if_neg (intToBytes_ne_nil v),
    parseIntWidth_intToBytes 32 v h1 h2]
  rfl

theorem decodeI64_rt (sv v : Int) (rest : List Nat)
    (h1 : -(2 ^ 63) ≤ v) (h2 : v < 2 ^ 63) :
    decodeI64 { data := intToBytes v ++ 0 :: rest, pos := 0,
                server_version := sv } =
      .ok (v, { data := intToBytes v ++ 0 :: rest,
                pos := (intToBytes v).length + 1, server_version := sv }) := by
  have h0 : ∀ b ∈ intToBytes v, b ≠ 0 := fun b hb => by
    have := intToBytes_bytes v b hb
    omega
  have hva := utf8Valid_of_ascii _ (fun b hb => by
    have := intToBytes_bytes v b hb
    omega)
  have hrd := readFieldStr_spec sv (intToBytes v) rest h0 hva
  unfold decodeI64
  rw [DecM.bind_ok _ _ _ _ _ hrd, if_neg (intToBytes_ne_nil v),
    parseIntWidth_intToBytes 64 v h1 h2]
  rfl

theorem decodeF64_rt (sv : Int) (m : Int) (e : Nat) (rest : List Nat)
    (hc : (WireF64.finite m e).canonical) :
    decodeF64 { data := decimalBytes m e ++ 0 :: rest, pos := 0,
                server_version := sv } =
      .ok (.finite m e, { data := decimalBytes m e ++ 0 :: rest,
                          pos := (decimalBytes m e).length + 1,
                          server_version := sv }) := by
  have h0 : ∀ b ∈ decimalBytes m e, b ≠ 0 := fun b hb => by
    have := decimalBytes_bytes m e b hb
    omega
  have hva := utf8Valid_of_ascii _ (fun b hb => by
    have := decimalBytes_bytes m e b hb
    omega)
  have hrd := readFieldStr_spec sv (decimalBytes m e) rest h0 hva
  unfold decodeF64
  rw [DecM.bind_ok _ _ _ _ _ hrd, if_neg (decimalBytes_ne_nil m e),
    if_neg (decimalBytes_ne_infinity m e),
    show parseF64Bytes (decimalBytes m e) = some (.finite m e) from
      parseF64Bytes_display m e hc]
  rfl

theorem decodeDecimal_rt (sv : Int) (d : WireDecimal) (rest : List Nat)
    (h1 : d.mant.natAbs < 2 ^ 96) (h2 : d.scale ≤ 28) :
    decodeDecimal { data := decimalToBytes d ++ 0 :: rest, pos := 0,
                    server_version := sv } =
      .ok (d, { data := decimalToBytes d ++ 0 :: rest,
                pos := (decimalToBytes d).length + 1, server_version := sv })
      := by
  have h0 : ∀ b ∈ decimalToBytes d, b ≠ 0 := fun b hb => by
    have := decimalBytes_bytes d.mant d.scale b hb
    omega
  have hva := utf8Valid_of_ascii _ (fun b hb => by
    have := decimalBytes_bytes d.mant d.scale b hb
    omega)
  have hrd := readFieldStr_spec sv (decimalToBytes d) rest h0 hva
  unfold decodeDecimal
  rw [DecM.bind_ok _ _ _ _ _ hrd,
    if_neg (show decimalToBytes d ≠ [] from
      decimalBytes_ne_nil d.mant d.scale),
    parseDecimalBytes_decimalToBytes d h1 h2]
  rfl

theorem decodeBool_rt_false (sv : Int) :
    decodeBool { data := [48, 0], pos := 0, server_version := sv } =
      .ok (false, { data := [48, 0], pos := 2, server_version := sv }) := rfl

theorem decodeBool_rt_true (sv : Int) :
    decodeBool { data := [49, 0], pos := 0, server_version := sv } =
      .ok (true, { data := [49, 0], pos := 2, server_version := sv }) := rfl

theorem decodeF64_infinity (sv : Int) (rest : List Nat) :
    decodeF64 { data := strBytes "Infinity" ++ 0 :: rest, pos := 0,
                server_version := sv } =
      .ok (.inf, { data := strBytes "Infinity" ++ 0 :: rest, pos := 9,
                   server_version := sv }) := by
  have hrd := readFieldStr_spec sv (strBytes "Infinity") rest (by decide)
    (by decide)
  unfold decodeF64
  rw [DecM.bind_ok _ _ _ _ _ hrd]
  rfl

theorem decodeI32Max_none (sv : Int) (rest : List Nat) :
    decodeI32Max { data := 0 :: rest, pos := 0, server_version := sv } =
      .ok (none, { data := 0 :: rest, pos := 1, server_version := sv }) := by
  have hrd := readFieldStr_spec sv [] rest (by simp) (by decide)
  unfold decodeI32Max
  rw [DecM.bind_ok _ _ _ _ _ (by simpa using hrd)]
  rfl

theorem decodeI64Max_none (sv : Int) (rest : List Nat) :
    decodeI64Max { data := 0 :: rest, pos := 0, server_version := sv } =
      .ok (none, { data := 0 :: rest, pos := 1, server_version := sv }) := by
  have hrd := readFieldStr_spec sv [] rest (by simp) (by decide)
  unfold decodeI64Max
  rw [DecM.bind_ok _ _ _ _ _ (by simpa using hrd)]
  rfl

theorem decodeF64Max_none (sv : Int) (rest : List Nat) :
    decodeF64Max { data := 0 :: rest, pos := 0, server_version := sv } =
      .ok (none, { data := 0 :: rest, pos := 1, server_version := sv }) := by
  have hrd := readFieldStr_spec sv [] rest (by simp) (by decide)
  unfold decodeF64Max
  rw [DecM.bind_ok _ _ _ _ _ (by simpa using hrd)]
  rfl

theorem decodeDecimalMax_none (sv : Int) (rest : List Nat) :
    decodeDecimalMax { data := 0 :: rest, pos := 0, server_version := sv } =
      .ok (none, { data := 0 :: rest, pos := 1, server_version := sv }) := by
  have hrd := readFieldStr_spec sv [] rest (by simp) (by decide)
  unfold decodeDecimalMax
  rw [DecM.bind_ok _ _ _ _ _ (by simpa using hrd)]
  rfl

theorem decodeI32Max_some (sv v : Int) (rest : List Nat)
    (h1 : -(2 ^ 31) ≤ v) (h2 : v < 2 ^ 31) :
    decodeI32Max { data := intToBytes v ++ 0 :: rest, pos := 0,
                   server_version := sv } =
      .ok (some v, { data := intToBytes v ++ 0 :: rest,
                     pos := (intToBytes v).length + 1,
                     server_version := sv }) := by
  have h0 : ∀ b ∈ intToBytes v, b ≠ 0 := fun b hb => by
    have := intToBytes_bytes v b hb
    omega
  have hva := utf8Valid_of_ascii _ (fun b hb => by
    have := intToBytes_bytes v b hb
    omega)
  have hrd := readFieldStr_spec sv (intToBytes v) rest h0 hva
  unfold decodeI32Max
  rw [DecM.bind_ok _ _ _ _ _ hrd, if_neg (intToBytes_ne_nil v),
    parseIntWidth_intToBytes 32 v h1 h2]
  rfl

theorem decodeF64Max_some (sv : Int) (m : Int) (e : Nat) (rest : List Nat)
    (hc : (WireF64.finite m e).canonical) :
    decodeF64Max { data := decimalBytes m e ++ 0 :: rest, pos := 0,
                   server_version := sv } =
      .ok (some (.finite m e), { data := decimalBytes m e ++ 0 :: rest,
                                 pos := (decimalBytes m e).length + 1,
                                 server_version := sv }) := by
  have h0 : ∀ b ∈ decimalBytes m e, b ≠ 0 := fun b hb => by
    have := decimalBytes_bytes m e b hb
    omega
  have hva := utf8Valid_of_ascii _ (fun b hb => by
    have := decimalBytes_bytes m e b hb
    omega)
  have hrd := readFieldStr_spec sv (decimalBytes m e) rest h0 hva
  unfold decodeF64Max
  rw [DecM.bind_ok _ _ _ _ _ hrd, if_neg (decimalBytes_ne_nil m e),
    if_neg (decimalBytes_ne_infinity m e),
    show parseF64Bytes (decimalBytes m e) = some (.finite m e) from
      parseF64Bytes_display m e hc]
  rfl

/-- A non-empty field decoded through `decode_enum_opt`. -/
theorem decodeEnumOptT_rt {ε : Type} (f : List Nat → Option ε) (sv : Int)
    (s rest : List Nat) (x : ε) (h0 : ∀ b ∈ s, b ≠ 0)
    (hv : utf8Valid s = true) (hne : s ≠ []) (hf : f s = some x) :
    decodeEnumOptT f { data := s ++ 0 :: rest, pos := 0,
                       server_version := sv } =
      .ok (some x, { data := s ++ 0 :: rest, pos := s.length + 1,
                     server_version := sv }) := by
  have hrd := readFieldStr_spec sv s rest h0 hv
  unfold decodeEnumOptT
  rw [DecM.bind_ok _ _ _ _ _ hrd, if_neg hne, hf]
  rfl

/-- An empty field decoded through `decode_enum_opt`. -/
theorem decodeEnumOptT_none {ε : Type} (f : List Nat → Option ε) (sv : Int)
    (rest : List Nat) :
    decodeEnumOptT f { data := 0 :: rest, pos := 0, server_version := sv } =
      .ok (none, { data := 0 :: rest, pos := 1, server_version := sv }) := by
  have hrd := readFieldStr_spec sv [] rest (by simp) (by decide)
  unfold decodeEnumOptT
  rw [DecM.bind_ok _ _ _ _ _ (by simpa using hrd)]
  rfl

/-- `SecType` `FromStr ∘ Display` is the identity away from the `Other`
escape. -/
theorem SecType.fromBytes_toBytes (x : SecType)
    (h : ∀ s, x ≠ SecType.other s) :
    SecType.fromBytes (SecType.toBytes x) = x := by
  cases x
  case other s => exact absurd rfl (h s)
  all_goals rfl

theorem SecType.toBytes_bytes (x : SecType) (h : ∀ s, x ≠ SecType.other s) :
    (∀ b ∈ SecType.toBytes x, b ≠ 0 ∧ b < 128) ∧ SecType.toBytes x ≠ [] := by
  cases x
  case other s => exact absurd rfl (h s)
  all_goals decide

/-- `Right` `FromStr ∘ Display` is the identity away from `Undefined`
(whose `Display` is the empty string). -/
theorem Right.fromBytesOfToBytes (x : Right) (h : x ≠ Right.undefined) :
    Right.fromBytes (Right.toBytes x) = x := by
  cases x
  case undefined => exact absurd rfl h
  all_goals rfl

/-- Decoder state on `body` at position `p` (notation for the claim
statements). -/
def decOn (body : List Nat) (sv : Int) (p : Nat) : Dec :=
  { data := body, pos := p, server_version := sv }

/-- The concrete contract used by the C1 counterexample. -/
def c1Contract : Contract :=
  { symbol := strBytes "AAPL", sec_type := some .stock,
    exchange := strBytes "SMART", primary_exchange := strBytes "NASDAQ",
    currency := strBytes "USD", include_expired := true }

/-! ## Claim C1 -/

/-- C1 (counterexample): the contract preamble does not round-trip.
`encode_contract` writes thirteen fields (including `primary_exchange`
at position 9 and `include_expired` at position 13), but
`decode_order_contract` reads only eleven (neither of those two), so on
the encoding of a contract with `primary_exchange = "NASDAQ"` and
`currency = "USD"` the decoder returns `currency = "NASDAQ"`, an empty
`primary_exchange`, and `include_expired = false`. -/
theorem c1_contract_preamble_mismatch :
    c1Contract.currency = strBytes "USD" ∧
    c1Contract.primary_exchange = strBytes "NASDAQ" ∧
    c1Contract.include_expired = true ∧
    (decodeOrderContract (decOn (encBody (encode_contract (mkEncoder 150)
        c1Contract)) 150 0)).map
      (fun p => (p.1.currency, p.1.primary_exchange, p.1.include_expired)) =
      .ok (strBytes "NASDAQ", [], false) := by
  exact ⟨rfl, rfl, rfl, by rfl⟩

/-- C1: encode-then-decode is the identity for the scalar field codecs:
strings (null-free, UTF-8 valid), `i32` and `i64` in range, finite
canonical `f64` and positive infinity via the `"Infinity"` literal,
booleans, in-range `Decimal`s, every `_max` variant on `None` (a single
empty field) and on `Some`, and the `SecType`/`Right` enum codecs away
from their escape constructors.  (The contract preamble and tag-value
lists are excluded: see the counterexample.) -/
theorem c1_scalar_field_roundtrips :
    (∀ (sv : Int) (s rest : List Nat), (∀ b ∈ s, b ≠ 0) →
      utf8Valid s = true →
      decodeString (decOn (encBody (encode_field_str (mkEncoder sv) s)
          ++ rest) sv 0) =
        .ok (s, decOn (encBody (encode_field_str (mkEncoder sv) s)
          ++ rest) sv (s.length + 1))) ∧
    (∀ (sv v : Int) (rest : List Nat), -(2 ^ 31) ≤ v → v < 2 ^ 31 →
      decodeI32 (decOn (encBody (encode_field_i32 (mkEncoder sv) v)
          ++ rest) sv 0) =
        .ok (v, decOn (encBody (encode_field_i32 (mkEncoder sv) v)
          ++ rest) sv ((intToBytes v).length + 1))) ∧
    (∀ (sv v : Int) (rest : List Nat), -(2 ^ 63) ≤ v → v < 2 ^ 63 →
      decodeI64 (decOn (encBody (encode_field_i64 (mkEncoder sv) v)
          ++ rest) sv 0) =
        .ok (v, decOn (encBody (encode_field_i64 (mkEncoder sv) v)
          ++ rest) sv ((intToBytes v).length + 1))) ∧
    (∀ (sv m : Int) (e : Nat) (rest : List Nat),
      (WireF64.finite m e).canonical →
      decodeF64 (decOn (encBody (encode_field_f64 (mkEncoder sv)
          (.finite m e)) ++ rest) sv 0) =
        .ok (.finite m e, decOn (encBody (encode_field_f64 (mkEncoder sv)
          (.finite m e)) ++ rest) sv ((decimalBytes m e).length + 1))) ∧
    (∀ (sv : Int) (rest : List Nat),
      decodeF64 (decOn (encBody (encode_field_f64 (mkEncoder sv) .inf)
          ++ rest) sv 0) =
        .ok (.inf, decOn (encBody (encode_field_f64 (mkEncoder sv) .inf)
          ++ rest) sv 9)) ∧
    (∀ (sv : Int) (b : Bool),
      decodeBool (decOn (encBody (encode_field_bool (mkEncoder sv) b))
          sv 0) =
        .ok (b, decOn (encBody (encode_field_bool (mkEncoder sv) b))
          sv 2)) ∧
    (∀ (sv : Int) (d : WireDecimal) (rest : List Nat),
      d.mant.natAbs < 2 ^ 96 → d.scale ≤ 28 →
      decodeDecimal (decOn (encBody (encode_field_decimal (mkEncoder sv) d)
          ++ rest) sv 0) =
        .ok (d, decOn (encBody (encode_field_decimal (mkEncoder sv) d)
          ++ rest) sv ((decimalToBytes d).length + 1))) ∧
    (∀ (sv : Int) (rest : List Nat),
      decodeI32Max (decOn (encBody (encode_field_max_i32 (mkEncoder sv)
          none) ++ rest) sv 0) =
        .ok (none, decOn (encBody (encode_field_max_i32 (mkEncoder sv)
          none) ++ rest) sv 1) ∧
      decodeI64Max (decOn (encBody (encode_field_max_i64 (mkEncoder sv)
          none) ++ rest) sv 0) =
        .ok (none, decOn (encBody (encode_field_max_i64 (mkEncoder sv)
          none) ++ rest) sv 1) ∧
      decodeF64Max (decOn (encBody (encode_field_max_f64 (mkEncoder sv)
          none) ++ rest) sv 0) =
        .ok (none, decOn (encBody (encode_field_max_f64 (mkEncoder sv)
          none) ++ rest) sv 1) ∧
      decodeDecimalMax (decOn (encBody (encode_field_max_decimal
          (mkEncoder sv) none) ++ rest) sv 0) =
        .ok (none, decOn (encBody (encode_field_max_decimal (mkEncoder sv)
          none) ++ rest) sv 1)) ∧
    (∀ (sv v : Int) (rest : List Nat), -(2 ^ 31) ≤ v → v < 2 ^ 31 →
      decodeI32Max (decOn (encBody (encode_field_max_i32 (mkEncoder sv)
          (some v)) ++ rest) sv 0) =
        .ok (some v, decOn (encBody (encode_field_max_i32 (mkEncoder sv)
          (some v)) ++ rest) sv ((intToBytes v).length + 1))) ∧
    (∀ (sv m : Int) (e : Nat) (rest : List Nat),
      (WireF64.finite m e).canonical →
      decodeF64Max (decOn (encBody (encode_field_max_f64 (mkEncoder sv)
          (some (.finite m e))) ++ rest) sv 0) =
        .ok (some (.finite m e), decOn (encBody (encode_field_max_f64
          (mkEncoder sv) (some (.finite m e))) ++ rest) sv
          ((decimalBytes m e).length + 1))) ∧
    (∀ (sv : Int) (x : SecType) (rest : List Nat),
      (∀ s, x ≠ SecType.other s) →
      decodeEnumOptT (fun s => some (SecType.fromBytes s))
        (decOn (encBody (encode_field_opt_display (mkEncoder sv)
          ((some x).map SecType.toBytes)) ++ rest) sv 0) =
        .ok (some x, decOn (encBody (encode_field_opt_display (mkEncoder sv)
          ((some x).map SecType.toBytes)) ++ rest) sv
          ((SecType.toBytes x).length + 1))) ∧
    (∀ (sv : Int) (rest : List Nat),
      decodeEnumOptT (fun s => some (SecType.fromBytes s))
        (decOn (encBody (encode_field_opt_display (mkEncoder sv)
          ((none : Option SecType).map SecType.toBytes)) ++ rest) sv 0) =
        .ok (none, decOn (encBody (encode_field_opt_display (mkEncoder sv)
          ((none : Option SecType).map SecType.toBytes)) ++ rest) sv 1)) ∧
    (∀ (sv : Int) (x : Right) (rest : List Nat), x ≠ Right.undefined →
      decodeEnumOptT (fun s => some (Right.fromBytes s))
        (decOn (encBody (encode_field_opt_display (mkEncoder sv)
          ((some x).map Right.toBytes)) ++ rest) sv 0) =
        .ok (some x, decOn (encBody (encode_field_opt_display (mkEncoder sv)
          ((some x).map Right.toBytes)) ++ rest) sv
          ((Right.toBytes x).length + 1))) := by
  refine ⟨?_, ?_, ?_, ?_, ?_, ?_, ?_, ?_, ?_, ?_, ?_, ?_, ?_⟩
  · intro sv s rest h0 hv
    rw [show encBody (encode_field_str (mkEncoder sv) s) ++ rest =
        s ++ 0 :: rest from by
      simp [encBody, encode_field_str, mkEncoder, HEADER_LEN]]
    exact decodeString_rt sv s rest h0 hv
  · intro sv v rest h1 h2
    rw [show encBody (encode_field_i32 (mkEncoder sv) v) ++ rest =
        intToBytes v ++ 0 :: rest from by
      simp [encBody, encode_field_i32, mkEncoder, HEADER_LEN]]
    exact decodeI32_rt sv v rest h1 h2
  · intro sv v rest h1 h2
    rw [show encBody (encode_field_i64 (mkEncoder sv) v) ++ rest =
        intToBytes v ++ 0 :: rest from by
      simp [encBody, encode_field_i64, mkEncoder, HEADER_LEN]]
    exact decodeI64_rt sv v rest h1 h2
  · intro sv m e rest hc
    rw [show encBody (encode_field_f64 (mkEncoder sv) (.finite m e))
        ++ rest = decimalBytes m e ++ 0 :: rest from by
      simp [encBody, encode_field_f64, mkEncoder, HEADER_LEN,
        f64DisplayBytes]]
    exact decodeF64_rt sv m e rest hc
  · intro sv rest
    rw [show encBody (encode_field_f64 (mkEncoder sv) .inf) ++ rest =
        strBytes "Infinity" ++ 0 :: rest from by
      simp [encBody, encode_field_f64, mkEncoder, HEADER_LEN]]
    exact decodeF64_infinity sv rest
  · intro sv b
    cases b
    · exact decodeBool_rt_false sv
    · exact decodeBool_rt_true sv
  · intro sv d rest h1 h2
    rw [show encBody (encode_field_decimal (mkEncoder sv) d) ++ rest =
        decimalToBytes d ++ 0 :: rest from by
      simp [encBody, encode_field_decimal, mkEncoder, HEADER_LEN]]
    exact decodeDecimal_rt sv d rest h1 h2
  · intro sv rest
    exact ⟨decodeI32Max_none sv rest, decodeI64Max_none sv rest,
      decodeF64Max_none sv rest, decodeDecimalMax_none sv rest⟩
  · intro sv v rest h1 h2
    rw [show encBody (encode_field_max_i32 (mkEncoder sv) (some v))
        ++ rest = intToBytes v ++ 0 :: rest from by
      simp [encBody, encode_field_max_i32, encode_field_i32, mkEncoder,
        HEADER_LEN]]
    exact decodeI32Max_some sv v rest h1 h2
  · intro sv m e rest hc
    rw [show encBody (encode_field_max_f64 (mkEncoder sv)
        (some (.finite m e))) ++ rest = decimalBytes m e ++ 0 :: rest
        from by
      simp [encBody, encode_field_max_f64, encode_field_f64, mkEncoder,
        HEADER_LEN, f64DisplayBytes]]
    exact decodeF64Max_some sv m e rest hc
  · intro sv x rest hx
    have hb := SecType.toBytes_bytes x hx
    rw [show encBody (encode_field_opt_display (mkEncoder sv)
        ((some x).map SecType.toBytes)) ++ rest =
        SecType.toBytes x ++ 0 :: rest from by
      simp [encBody, encode_field_opt_display, encode_field_str, mkEncoder,
        HEADER_LEN]]
    exact decodeEnumOptT_rt _ sv (SecType.toBytes x) rest x
      (fun b hbb => (hb.1 b hbb).1)
      (utf8Valid_of_ascii _ (fun b hbb => (hb.1 b hbb).2)) hb.2
      (congrArg some (SecType.fromBytes_toBytes x hx))
  · intro sv rest
    exact decodeEnumOptT_none _ sv rest
  · intro sv x rest hx
    cases x
    case undefined => exact absurd rfl hx
    case call =>
      exact decodeEnumOptT_rt _ sv (strBytes "C") rest Right.call (by decide)
        (by decide) (by decide) rfl
    case put =>
      exact decodeEnumOptT_rt _ sv (strBytes "P") rest Right.put (by decide)
        (by decide) (by decide) rfl

/-- C1 (witness): the round-trip theorem at concrete inputs, one
instantiation per hypothesis-bearing conjunct. -/
theorem c1_scalar_field_roundtrips_witness :
    decodeString (decOn (encBody (encode_field_str (mkEncoder 150)
        (strBytes "USD")) ++ [7]) 150 0) =
      .ok (strBytes "USD", decOn (encBody (encode_field_str (mkEncoder 150)
        (strBytes "USD")) ++ [7]) 150 4) ∧
    decodeI32 (decOn (encBody (encode_field_i32 (mkEncoder 150) (-12))
        ++ []) 150 0) =
      .ok (-12, decOn (encBody (encode_field_i32 (mkEncoder 150) (-12))
        ++ []) 150 4) ∧
    decodeI64 (decOn (encBody (encode_field_i64 (mkEncoder 150)
        5000000000) ++ []) 150 0) =
      .ok (5000000000, decOn (encBody (encode_field_i64 (mkEncoder 150)
        5000000000) ++ []) 150 11) ∧
    decodeF64 (decOn (encBody (encode_field_f64 (mkEncoder 150)
        (.finite 1505 1)) ++ []) 150 0) =
      .ok (.finite 1505 1, decOn (encBody (encode_field_f64 (mkEncoder 150)
        (.finite 1505 1)) ++ []) 150 6) ∧
    decodeDecimal (decOn (encBody (encode_field_decimal (mkEncoder 150)
        ⟨10, 0⟩) ++ []) 150 0) =
      .ok (⟨10, 0⟩, decOn (encBody (encode_field_decimal (mkEncoder 150)
        ⟨10, 0⟩) ++ []) 150 3) ∧
    decodeI32Max (decOn (encBody (encode_field_max_i32 (mkEncoder 150)
        (some 7)) ++ []) 150 0) =
      .ok (some 7, decOn (encBody (encode_field_max_i32 (mkEncoder 150)
        (some 7)) ++ []) 150 2) ∧
    decodeF64Max (decOn (encBody (encode_field_max_f64 (mkEncoder 150)
        (some (.finite 25 0))) ++ []) 150 0) =
      .ok (some (.finite 25 0), decOn (encBody (encode_field_max_f64
        (mkEncoder 150) (some (.finite 25 0))) ++ []) 150 3) ∧
    decodeEnumOptT (fun s => some (SecType.fromBytes s))
      (decOn (encBody (encode_field_opt_display (mkEncoder 150)
        ((some SecType.stock).map SecType.toBytes)) ++ []) 150 0) =
      .ok (some SecType.stock, decOn (encBody (encode_field_opt_display
        (mkEncoder 150) ((some SecType.stock).map SecType.toBytes))
        ++ []) 150 4) ∧
    decodeEnumOptT (fun s => some (Right.fromBytes s))
      (decOn (encBody (encode_field_opt_display (mkEncoder 150)
        ((some Right.call).map Right.toBytes)) ++ []) 150 0) =
      .ok (some Right.call, decOn (encBody (encode_field_opt_display
        (mkEncoder 150) ((some Right.call).map Right.toBytes)) ++ [])
        150 2) := by
  refine ⟨?_, ?_, ?_, ?_, ?_, ?_, ?_, ?_, ?_⟩
  · exact c1_scalar_field_roundtrips.1 150 (strBytes "USD") [7]
      (by decide) (by decide)
  · exact c1_scalar_field_roundtrips.2.1 150 (-12) [] (by decide)
      (by decide)
  · exact c1_scalar_field_roundtrips.2.2.1 150 5000000000 [] (by decide)
      (by decide)
  · exact c1_scalar_field_roundtrips.2.2.2.1 150 1505 1 []
      (Or.inr (by decide))
  · exact c1_scalar_field_roundtrips.2.2.2.2.2.2.1 150 ⟨10, 0⟩ []
      (by decide) (by decide)
  · exact c1_scalar_field_roundtrips.2.2.2.2.2.2.2.2.1 150 7 [] (by decide)
      (by decide)
  · exact c1_scalar_field_roundtrips.2.2.2.2.2.2.2.2.2.1 150 25 0 []
      (Or.inl rfl)
  · exact c1_scalar_field_roundtrips.2.2.2.2.2.2.2.2.2.2.1 150
      SecType.stock [] (by intro s h; cases h)
  · exact c1_scalar_field_roundtrips.2.2.2.2.2.2.2.2.2.2.2.2 150
      Right.call [] (by intro h; cases h)

/-! ## Claims C2 and C7 -/

/-- A concrete instantiation of the protobuf leaf parsers, used by
witnesses (the dispatch facts hold for every instantiation). -/
def pbLeavesNull : PbLeaves :=
  ⟨fun _ => .error (.err .decoding), fun _ => .error (.err .decoding),
   fun _ => .error (.err .decoding), fun _ => .error (.err .decoding),
   fun _ => .error (.err .decoding), fun _ => .error (.err .decoding)⟩

/-- A SCANNER_DATA (20) frame body whose version is 1, request id 7 and
item count `-1`. -/
def scannerCountFrame : List Nat :=
  strBytes "20" ++ [0] ++ strBytes "1" ++ [0] ++ strBytes "7" ++ [0] ++
    strBytes "-1" ++ [0]

/-- C2: `decode_server_msg` is not total.  On a SCANNER_DATA frame with
item count `-1`, `decode_scanner_data` reaches
`Vec::with_capacity(count as usize)` with `count as usize = 2^64 - 1`,
which panics ("capacity overflow") instead of returning an event; the
model renders the aborted call as `none`. -/
theorem c2_scanner_negative_count_panics (leaves : PbLeaves) :
    decodeServerMsg leaves scannerCountFrame 150 = none := by
  rfl

/-- C2 (witness): the panic theorem at the concrete leaf instantiation. -/
theorem c2_scanner_negative_count_panics_witness :
    decodeServerMsg pbLeavesNull scannerCountFrame 150 = none :=
  c2_scanner_negative_count_panics pbLeavesNull

/-- The ORDER_STATUS frame body
`"3\0100\0Filled\010\00\0150.50\0200\00\0150.50\01\0\00.0\0"`. -/
def orderStatusFrame : List Nat :=
  strBytes "3" ++ [0] ++ strBytes "100" ++ [0] ++ strBytes "Filled" ++ [0]
    ++ strBytes "10" ++ [0] ++ strBytes "0" ++ [0] ++ strBytes "150.50"
    ++ [0] ++ strBytes "200" ++ [0] ++ strBytes "0" ++ [0]
    ++ strBytes "150.50" ++ [0] ++ strBytes "1" ++ [0] ++ [0]
    ++ strBytes "0.0" ++ [0]

/-- C7: for every negotiated server version in
`[MARKET_CAP_PRICE, PERM_ID_AS_LONG) = [131, 191)`, decoding the ASCII
ORDER_STATUS frame body yields exactly the stated `OrderStatus` event
(`avg_fill_price = last_fill_price = 150.50`, `mkt_cap_price = 0.0`,
empty `why_held`), for any protobuf leaf behaviour. -/
theorem c7_order_status_frame_decode (leaves : PbLeaves) (sv : Int)
    (h1 : svMARKET_CAP_PRICE ≤ sv) (h2 : sv < svPERM_ID_AS_LONG) :
    decodeServerMsg leaves orderStatusFrame sv =
      some (.orderStatus 100 (strBytes "Filled") ⟨10, 0⟩ ⟨0, 0⟩
        (.finite 1505 1) 200 0 (.finite 1505 1) 1 [] (.finite 0 0)) := by
  have h1' : (131 : Int) ≤ sv := h1
  have h2' : sv < (191 : Int) := h2
  clear h1 h2
  interval_cases sv <;> rfl

/-- C7 (witness): the frame decode at server version 150. -/
theorem c7_order_status_frame_decode_witness :
    svMARKET_CAP_PRICE ≤ (150 : Int) ∧ (150 : Int) < svPERM_ID_AS_LONG ∧
    decodeServerMsg pbLeavesNull orderStatusFrame 150 =
      some (.orderStatus 100 (strBytes "Filled") ⟨10, 0⟩ ⟨0, 0⟩
        (.finite 1505 1) 200 0 (.finite 1505 1) 1 [] (.finite 0 0)) :=
  ⟨by decide, by decide,
    c7_order_status_frame_decode pbLeavesNull 150 (by decide) (by decide)⟩

/-! ## Claim C3 -/

/-- C3 (counterexample): the encoder does not reject non-printable
strings.  `encode_field_str` has no failure path at all: on the
non-printable byte 7 it only logs a `tracing::warn!` and appends the
bytes and the null terminator unchanged. -/
theorem c3_encoder_emits_nonprintable :
    is_ascii_printable [7] = false ∧
    (encode_field_str (mkEncoder 150) [7]).buf = [0, 0, 0, 0, 7, 0] := by
  exact ⟨rfl, rfl⟩

/-- C3: `encode_field_str` unconditionally appends `value ++ [0]`
(printable or not), while on the decode side `read_field_str` accepts a
non-printable but UTF-8-valid field (byte 7) and rejects an invalid
UTF-8 field (byte 255) with a `Decoding` error. -/
theorem c3_encode_warn_only_decode_checks_utf8 :
    (∀ (e : Enc) (v : List Nat),
      (encode_field_str e v).buf = e.buf ++ v ++ [0]) ∧
    (is_ascii_printable [7] = false ∧ utf8Valid [7] = true ∧
      readFieldStr (decOn [7, 0] 150 0) = .ok ([7], decOn [7, 0] 150 2)) ∧
    (utf8Valid [255] = false ∧
      readFieldStr (decOn [255, 0] 150 0) = .error (.err .decoding)) := by
  exact ⟨fun e v => rfl, ⟨rfl, rfl, rfl⟩, ⟨rfl, rfl⟩⟩

/-- C3 (witness): the warn-only append at a concrete encoder state. -/
theorem c3_encode_warn_only_witness :
    (encode_field_str (mkEncoder 100) [7]).buf =
      (mkEncoder 100).buf ++ [7] ++ [0] :=
  c3_encode_warn_only_decode_checks_utf8.1 (mkEncoder 100) [7]

/-! ## Claim C4 -/

/-- Reading back a raw big-endian `i32` written by `encode_raw_int`. -/
theorem decodeRawInt_rt (sv sv2 id : Int) (rest : List Nat)
    (h1 : -(2 ^ 31) ≤ id) (h2 : id < 2 ^ 31) :
    decodeRawInt (decOn (encBody (encode_raw_int (mkEncoder sv) id)
        ++ rest) sv2 0) =
      .ok (id, decOn (encBody (encode_raw_int (mkEncoder sv) id) ++ rest)
        sv2 4) := by
  have h0 : 0 ≤ id.emod (2 ^ 32) := Int.emod_nonneg id (by norm_num)
  have hlt : id.emod (2 ^ 32) < 2 ^ 32 :=
    Int.emod_lt_of_pos id (by norm_num)
  set u : Nat := (id.emod (2 ^ 32)).toNat with hu
  have hu32 : u < 2 ^ 32 := by omega
  have hbridge : encBody (encode_raw_int (mkEncoder sv) id) ++ rest =
      [u / 2 ^ 24 % 256, u / 2 ^ 16 % 256, u / 2 ^ 8 % 256, u % 256]
        ++ rest := by
    simp [encBody, encode_raw_int, mkEncoder, HEADER_LEN, hu]
  rw [hbridge]
  unfold decodeRawInt
  rw [if_neg (by simp [decOn])]
  have hn : ([u / 2 ^ 24 % 256, u / 2 ^ 16 % 256, u / 2 ^ 8 % 256,
      u % 256] ++ rest).getD 0 0 * 2 ^ 24 +
      ([u / 2 ^ 24 % 256, u / 2 ^ 16 % 256, u / 2 ^ 8 % 256, u % 256]
        ++ rest).getD 1 0 * 2 ^ 16 +
      ([u / 2 ^ 24 % 256, u / 2 ^ 16 % 256, u / 2 ^ 8 % 256, u % 256]
        ++ rest).getD 2 0 * 2 ^ 8 +
      ([u / 2 ^ 24 % 256, u / 2 ^ 16 % 256, u / 2 ^ 8 % 256, u % 256]
        ++ rest).getD 3 0 = u := by
    simp only [List.cons_append, List.getD_cons_zero, List.getD_cons_succ]
    omega
  simp only [decOn, List.drop_zero]
  rw [hn]
  have hval : (if u < 2 ^ 31 then (u : Int) else (u : Int) - 2 ^ 32)
      = id := by
    have h0' : 0 ≤ id % 4294967296 := Int.emod_nonneg id (by norm_num)
    have hlt' : id % 4294967296 < 4294967296 :=
      Int.emod_lt_of_pos id (by norm_num)
    have hu' : (u : Int) = id % 4294967296 := by
      rw [hu, show (2 : Int) ^ 32 = 4294967296 from by norm_num]
      exact Int.toNat_of_nonneg h0'
    split <;> omega
  rw [hval]

/-- `decode_msg_id` reads back a raw-encoded message ID (protobuf-capable
server). -/
theorem decodeMsgId_raw_rt (sv id : Int) (rest : List Nat)
    (hsv : svPROTOBUF ≤ sv) (h1 : -(2 ^ 31) ≤ id) (h2 : id < 2 ^ 31) :
    decodeMsgId (decOn (encBody (encode_msg_id (mkEncoder sv) id) ++ rest)
        sv 0) =
      .ok (id, decOn (encBody (encode_msg_id (mkEncoder sv) id) ++ rest)
        sv 4) := by
  have henc : encode_msg_id (mkEncoder sv) id =
      encode_raw_int (mkEncoder sv) id := by
    unfold encode_msg_id
    rw [if_pos (show (mkEncoder sv).server_version ≥ svPROTOBUF from hsv)]
  rw [henc]
  unfold decodeMsgId
  rw [if_pos (show (decOn (encBody (encode_raw_int (mkEncoder sv) id)
    ++ rest) sv 0).server_version ≥ svPROTOBUF from hsv)]
  exact decodeRawInt_rt sv sv id rest h1 h2

/-- `decode_msg_id` reads back an ASCII-encoded message ID (legacy
server). -/
theorem decodeMsgId_ascii_rt (sv id : Int) (rest : List Nat)
    (hsv : sv < svPROTOBUF) (h1 : -(2 ^ 31) ≤ id) (h2 : id < 2 ^ 31) :
    decodeMsgId (decOn (encBody (encode_msg_id (mkEncoder sv) id) ++ rest)
        sv 0) =
      .ok (id, decOn (encBody (encode_msg_id (mkEncoder sv) id) ++ rest)
        sv ((intToBytes id).length + 1)) := by
  have henc : encode_msg_id (mkEncoder sv) id =
      encode_field_i32 (mkEncoder sv) id := by
    unfold encode_msg_id
    rw [if_neg (show ¬ (mkEncoder sv).server_version ≥ svPROTOBUF from
      not_le.mpr hsv)]
  rw [henc]
  unfold decodeMsgId
  rw [if_neg (show ¬ (decOn (encBody (encode_field_i32 (mkEncoder sv) id)
    ++ rest) sv 0).server_version ≥ svPROTOBUF from not_le.mpr hsv)]
  rw [show encBody (encode_field_i32 (mkEncoder sv) id) ++ rest =
      intToBytes id ++ 0 :: rest from by
    simp [encBody, encode_field_i32, mkEncoder, HEADER_LEN]]
  exact decodeI32_rt sv id rest h1 h2

/-- The protobuf branch of `decode_server_msg_inner`: a raw-encoded
message ID above `PROTOBUF_MSG_ID` routes the remaining frame bytes to
`decode_protobuf_msg` at the offset-subtracted ID. -/
theorem decodeServerMsgInner_protobuf (leaves : PbLeaves) (sv id : Int)
    (remaining : List Nat) (hsv : svPROTOBUF ≤ sv)
    (hid : id > PROTOBUF_MSG_ID) (h2 : id < 2 ^ 31) :
    decodeServerMsgInner leaves
        (encBody (encode_msg_id (mkEncoder sv) id) ++ remaining) sv =
      decodeProtobufMsg leaves (id - PROTOBUF_MSG_ID) remaining := by
  have h1 : -(2 ^ 31) ≤ id := by
    have : (0 : Int) < id := by
      have : (200 : Int) < id := hid
      omega
    omega
  have hmsg := decodeMsgId_raw_rt sv id remaining hsv h1 h2
  have hrem : remainingBytes (decOn (encBody (encode_msg_id
      (mkEncoder sv) id) ++ remaining) sv 4) =
      .ok (remaining, decOn (encBody (encode_msg_id (mkEncoder sv) id)
        ++ remaining) sv 4) := by
    have hlen : (encBody (encode_msg_id (mkEncoder sv) id)).length = 4 := by
      have henc : encode_msg_id (mkEncoder sv) id =
          encode_raw_int (mkEncoder sv) id := by
        unfold encode_msg_id
        rw [if_pos (show (mkEncoder sv).server_version ≥ svPROTOBUF
          from hsv)]
      rw [henc]
      simp [encBody, encode_raw_int, mkEncoder, HEADER_LEN]
    have hdrop : (encBody (encode_msg_id (mkEncoder sv) id)
        ++ remaining).drop 4 = remaining := by
      rw [← hlen]
      exact List.drop_left _ _
    simp [remainingBytes, decOn, hdrop]
  unfold decodeServerMsgInner decodeServerMsgRun
  rw [show ({ data := encBody (encode_msg_id (mkEncoder sv) id)
        ++ remaining, pos := 0, server_version := sv } : Dec) =
      decOn (encBody (encode_msg_id (mkEncoder sv) id) ++ remaining) sv 0
      from rfl]
  rw [DecM.bind_ok _ _ _ _ _ hmsg, if_pos hid,
    DecM.bind_ok _ _ _ _ _ hrem]
  cases hpb : decodeProtobufMsg leaves (id - PROTOBUF_MSG_ID) remaining
    with
  | ok e => simp [hpb]
  | error e => simp [hpb]

/-- C4: the message-ID encoding is raw 4-byte big-endian exactly when the
negotiated version is at least PROTOBUF (201) and an ASCII decimal field
otherwise, symmetrically on encode (`encode_msg_id`) and decode
(`decode_msg_id`); in either regime decode-after-encode returns the ID;
and whenever the decoded ID exceeds PROTOBUF_MSG_ID (200) the dispatcher
hands the remaining frame bytes to the protobuf sub-decoder at the ID
minus 200. -/
theorem c4_msg_id_dual_encoding_and_protobuf_dispatch :
    (∀ (e : Enc) (id : Int), svPROTOBUF ≤ e.server_version →
      encode_msg_id e id = encode_raw_int e id) ∧
    (∀ (e : Enc) (id : Int), e.server_version < svPROTOBUF →
      encode_msg_id e id = encode_field_i32 e id) ∧
    (∀ (st : Dec), svPROTOBUF ≤ st.server_version →
      decodeMsgId st = decodeRawInt st) ∧
    (∀ (st : Dec), st.server_version < svPROTOBUF →
      decodeMsgId st = decodeI32 st) ∧
    (∀ (sv id : Int) (rest : List Nat), svPROTOBUF ≤ sv →
      -(2 ^ 31) ≤ id → id < 2 ^ 31 →
      decodeMsgId (decOn (encBody (encode_msg_id (mkEncoder sv) id)
          ++ rest) sv 0) =
        .ok (id, decOn (encBody (encode_msg_id (mkEncoder sv) id) ++ rest)
          sv 4)) ∧
    (∀ (sv id : Int) (rest : List Nat), sv < svPROTOBUF →
      -(2 ^ 31) ≤ id → id < 2 ^ 31 →
      decodeMsgId (decOn (encBody (encode_msg_id (mkEncoder sv) id)
          ++ rest) sv 0) =
        .ok (id, decOn (encBody (encode_msg_id (mkEncoder sv) id) ++ rest)
          sv ((intToBytes id).length + 1))) ∧
    (∀ (leaves : PbLeaves) (sv id : Int) (remaining : List Nat),
      svPROTOBUF ≤ sv → id > PROTOBUF_MSG_ID → id < 2 ^ 31 →
      decodeServerMsgInner leaves
          (encBody (encode_msg_id (mkEncoder sv) id) ++ remaining) sv =
        decodeProtobufMsg leaves (id - PROTOBUF_MSG_ID) remaining) := by
  refine ⟨?_, ?_, ?_, ?_, ?_, ?_, ?_⟩
  · intro e id h
    unfold encode_msg_id
    rw [if_pos (show e.server_version ≥ svPROTOBUF from h)]
  · intro e id h
    unfold encode_msg_id
    rw [if_neg (show ¬ e.server_version ≥ svPROTOBUF from not_le.mpr h)]
  · intro st h
    unfold decodeMsgId
    rw [if_pos (show st.server_version ≥ svPROTOBUF from h)]
  · intro st h
    unfold decodeMsgId
    rw [if_neg (show ¬ st.server_version ≥ svPROTOBUF from not_le.mpr h)]
  · intro sv id rest hsv h1 h2
    exact decodeMsgId_raw_rt sv id rest hsv h1 h2
  · intro sv id rest hsv h1 h2
    exact decodeMsgId_ascii_rt sv id rest hsv h1 h2
  · intro leaves sv id remaining hsv hid h2
    exact decodeServerMsgInner_protobuf leaves sv id remaining hsv hid h2

/-- C4 (witness): the dual encoding and the dispatch at concrete inputs:
server versions 201 and 150, message ID 203 (protobuf real ID 3). -/
theorem c4_msg_id_dual_encoding_witness :
    encode_msg_id (mkEncoder 201) 203 = encode_raw_int (mkEncoder 201) 203
      ∧
    encode_msg_id (mkEncoder 150) 49 = encode_field_i32 (mkEncoder 150) 49
      ∧
    decodeMsgId (decOn [0, 0, 0, 203] 201 0) =
      decodeRawInt (decOn [0, 0, 0, 203] 201 0) ∧
    decodeMsgId (decOn [52, 57, 0] 150 0) =
      decodeI32 (decOn [52, 57, 0] 150 0) ∧
    decodeMsgId (decOn (encBody (encode_msg_id (mkEncoder 201) 203)
        ++ [1]) 201 0) =
      .ok (203, decOn (encBody (encode_msg_id (mkEncoder 201) 203) ++ [1])
        201 4) ∧
    decodeMsgId (decOn (encBody (encode_msg_id (mkEncoder 150) 49)
        ++ []) 150 0) =
      .ok (49, decOn (encBody (encode_msg_id (mkEncoder 150) 49) ++ [])
        150 3) ∧
    decodeServerMsgInner pbLeavesNull
        (encBody (encode_msg_id (mkEncoder 201) 203) ++ [1, 2]) 201 =
      decodeProtobufMsg pbLeavesNull 3 [1, 2] := by
  refine ⟨?_, ?_, ?_, ?_, ?_, ?_, ?_⟩
  · exact c4_msg_id_dual_encoding_and_protobuf_dispatch.1 (mkEncoder 201)
      203 (by decide)
  · exact c4_msg_id_dual_encoding_and_protobuf_dispatch.2.1
      (mkEncoder 150) 49 (by decide)
  · exact c4_msg_id_dual_encoding_and_protobuf_dispatch.2.2.1
      (decOn [0, 0, 0, 203] 201 0) (by decide)
  · exact c4_msg_id_dual_encoding_and_protobuf_dispatch.2.2.2.1
      (decOn [52, 57, 0] 150 0) (by decide)
  · exact c4_msg_id_dual_encoding_and_protobuf_dispatch.2.2.2.2.1 201 203
      [1] (by decide) (by decide) (by decide)
  · exact c4_msg_id_dual_encoding_and_protobuf_dispatch.2.2.2.2.2.1 150 49
      [] (by decide) (by decide) (by decide)
  · exact c4_msg_id_dual_encoding_and_protobuf_dispatch.2.2.2.2.2.2
      pbLeavesNull 201 203 [1, 2] (by decide) (by decide) (by decide)

/-! ## Claim C5 -/

/-- An encoder state holding body `B` after the four reserved header
bytes (what any sequence of field encoders on `mkEncoder` produces). -/
def encWithBody (sv : Int) (B : List Nat) : Enc :=
  { buf := [0, 0, 0, 0] ++ B, server_version := sv }

/-- C5 (counterexample): the empty body breaks the finalize/unframe
duality.  `finalize` accepts `N = 0` and emits the frame
`[0, 0, 0, 0]`, but `read_message` rejects a zero length header with a
`Protocol` error instead of returning the empty body. -/
theorem c5_zero_length_frame_rejected :
    finalize (mkEncoder 100) = .ok [0, 0, 0, 0] ∧
    readMessage [0, 0, 0, 0] =
      .error (.protocol (strBytes "invalid message length: "
        ++ natToBytes 0)) := by
  exact ⟨rfl, rfl⟩

/-- C5: for a body `B` of `N` bytes, `finalize` fails with an `Encoding`
error exactly when `N > 16777215` and otherwise yields the 4-byte
big-endian `N` followed by `B`; `read_message` recovers `B` (and leaves
the rest of the stream) only for `1 ≤ N`: the zero-length frame is a
`Protocol` error on the read side (see the counterexample). -/
theorem c5_finalize_framing :
    (∀ (sv : Int) (B : List Nat), B.length > MAX_MSG_LEN →
      finalize (encWithBody sv B) = .error .encoding) ∧
    (∀ (sv : Int) (B : List Nat), B.length ≤ MAX_MSG_LEN →
      finalize (encWithBody sv B) = .ok (be32 B.length ++ B)) ∧
    (∀ (B rest : List Nat), 1 ≤ B.length → B.length ≤ MAX_MSG_LEN →
      readMessage (be32 B.length ++ B ++ rest) = .ok (B, rest)) := by
  refine ⟨?_, ?_, ?_⟩
  · intro sv B h
    unfold finalize encWithBody
    rw [show (([0, 0, 0, 0] ++ B : List Nat)).length - HEADER_LEN
      = B.length from by simp [HEADER_LEN]]
    rw [if_pos h]
  · intro sv B h
    unfold finalize encWithBody
    rw [show (([0, 0, 0, 0] ++ B : List Nat)).length - HEADER_LEN
      = B.length from by simp [HEADER_LEN]]
    rw [if_neg (not_lt.mpr h)]
    rw [show ([0, 0, 0, 0] ++ B : List Nat).drop HEADER_LEN = B from by
      simp [HEADER_LEN]]
  · intro B rest h1 h2
    have hN32 : B.length < 2 ^ 32 := by
      have : MAX_MSG_LEN < 2 ^ 32 := by norm_num [MAX_MSG_LEN]
      omega
    have hstream : be32 B.length ++ B ++ rest =
        be32 B.length ++ (B ++ rest) := by
      simp
    rw [hstream]
    unfold readMessage
    have hlenstream : (be32 B.length ++ (B ++ rest)).length =
        4 + (B.length + rest.length) := by
      simp [be32]
      omega
    rw [if_neg (by rw [hlenstream]; simp [HEADER_LEN])]
    have hmsglen : (be32 B.length ++ (B ++ rest)).getD 0 0 * 2 ^ 24 +
        (be32 B.length ++ (B ++ rest)).getD 1 0 * 2 ^ 16 +
        (be32 B.length ++ (B ++ rest)).getD 2 0 * 2 ^ 8 +
        (be32 B.length ++ (B ++ rest)).getD 3 0 = B.length := by
      simp only [be32, List.cons_append, List.getD_cons_zero,
        List.getD_cons_succ]
      omega
    rw [hmsglen]
    rw [if_neg (by
      push_neg
      constructor
      · omega
      · exact h2)]
    rw [if_neg (by rw [hlenstream]; simp [HEADER_LEN])]
    rw [show (be32 B.length ++ (B ++ rest)).drop HEADER_LEN = B ++ rest
      from by
      rw [show HEADER_LEN = (be32 B.length).length from by
        simp [be32, HEADER_LEN]]
      exact List.drop_left _ _]
    rw [List.take_left]
    rw [show HEADER_LEN + B.length =
      (be32 B.length ++ B).length from by
      simp [be32, HEADER_LEN]
      omega]
    rw [show be32 B.length ++ (B ++ rest) =
      (be32 B.length ++ B) ++ rest from by simp]
    rw [List.drop_left]

/-- C5 (witness): framing and unframing the three-byte body
`[65, 66, 67]`. -/
theorem c5_finalize_framing_witness :
    finalize (encWithBody 150 [65, 66, 67]) =
      .ok (be32 3 ++ [65, 66, 67]) ∧
    readMessage (be32 3 ++ [65, 66, 67] ++ [9]) =
      .ok ([65, 66, 67], [9]) := by
  constructor
  · exact c5_finalize_framing.2.1 150 [65, 66, 67] (by decide)
  · exact c5_finalize_framing.2.2 [65, 66, 67] [9] (by decide) (by decide)

/-- `read_field_str` at an arbitrary cursor whose remaining bytes start
with a null-free, UTF-8 valid field. -/
theorem readFieldStr_spec_pos (st : Dec) (s rest : List Nat)
    (hdrop : st.data.drop st.pos = s ++ 0 :: rest)
    (h0 : ∀ b ∈ s, b ≠ 0) (hv : utf8Valid s = true) :
    readFieldStr st = .ok (s, { st with pos := st.pos + s.length + 1 }) := by
  have hposlt : st.pos < st.data.length := by
    have := congrArg List.length hdrop
    simp only [List.length_drop, List.length_append, List.length_cons]
      at this
    omega
  unfold readFieldStr
  rw [if_pos hposlt, hdrop, findIdx_zero_append s rest h0]
  have htake : (s ++ 0 :: rest).take s.length = s := by simp
  simp only [htake, hv, if_true]

/-! ## Claim C6 -/

/-- C6: handshake processing.  A negative first field fails with a
`Protocol` error that embeds the host:port read from the next field (the
redirect is reported, not followed — `process_connect_ack` has no
reconnection path); a version outside `[MIN_CLIENT_VER, MAX_CLIENT_VER]
= [100, 203]` fails with a `Protocol` error; otherwise the second field
becomes the recorded TWS timestamp and the negotiated version is stored
in the resulting connected state. -/
theorem c6_process_connect_ack :
    (∀ (v : Int) (hostport rest : List Nat), v < 0 → -(2 ^ 31) ≤ v →
      (∀ b ∈ hostport, b ≠ 0) → utf8Valid hostport = true →
      processConnectAck (intToBytes v ++ 0 :: hostport ++ 0 :: rest) =
        .error (.protocol (strBytes "server redirect to "
          ++ hostport))) ∧
    (∀ (v : Int) (rest : List Nat), 0 ≤ v → v < 2 ^ 31 →
      ¬ (MIN_CLIENT_VER ≤ v ∧ v ≤ MAX_CLIENT_VER) →
      processConnectAck (intToBytes v ++ 0 :: rest) =
        .error (.protocol (strBytes "unsupported server version "
          ++ intToBytes v ++ strBytes " (expected "
          ++ intToBytes MIN_CLIENT_VER ++ strBytes ".."
          ++ intToBytes MAX_CLIENT_VER ++ strBytes ")"))) ∧
    (∀ (v : Int) (tws rest : List Nat), MIN_CLIENT_VER ≤ v →
      v ≤ MAX_CLIENT_VER → (∀ b ∈ tws, b ≠ 0) → utf8Valid tws = true →
      processConnectAck (intToBytes v ++ 0 :: tws ++ 0 :: rest) =
        .ok { server_version := v, tws_time := tws }) := by
  refine ⟨?_, ?_, ?_⟩
  · intro v hostport rest hneg hlo h0 hv
    unfold processConnectAck connectAckRun
    rw [show (intToBytes v ++ 0 :: hostport) ++ 0 :: rest = intToBytes v ++ 0 :: (hostport ++ 0 :: rest) from by simp]
    have hd := decodeI32_rt 0 v (hostport ++ 0 :: rest) hlo (by omega)
    rw [DecM.bind_ok _ _ _ _ _ hd, if_pos hneg]
    have hdrop : (intToBytes v ++ 0 :: (hostport ++ 0 :: rest)).drop
        ((intToBytes v).length + 1) = hostport ++ 0 :: rest := by
      rw [show intToBytes v ++ 0 :: (hostport ++ 0 :: rest) =
        (intToBytes v ++ [0]) ++ (hostport ++ 0 :: rest) from by simp]
      rw [show (intToBytes v).length + 1 =
        (intToBytes v ++ [0]).length from by simp]
      exact List.drop_left _ _
    have hrd2 := readFieldStr_spec_pos { data := intToBytes v ++ 0 :: (hostport ++ 0 :: rest), pos := (intToBytes v).length + 1, server_version := 0 } hostport rest hdrop h0 hv
    rw [DecM.bind_ok decodeString _ _ _ _ hrd2]
  · intro v rest h0v hlt hrange
    unfold processConnectAck connectAckRun
    have hd := decodeI32_rt 0 v rest (by omega) hlt
    rw [DecM.bind_ok _ _ _ _ _ hd, if_neg (not_lt.mpr h0v),
      if_pos hrange]
  · intro v tws rest hmin hmax h0 hv
    unfold processConnectAck connectAckRun
    rw [show (intToBytes v ++ 0 :: tws) ++ 0 :: rest = intToBytes v ++ 0 :: (tws ++ 0 :: rest) from by simp]
    have hd := decodeI32_rt 0 v (tws ++ 0 :: rest)
      (by
        have : (100 : Int) ≤ v := hmin
        omega)
      (by
        have : v ≤ (203 : Int) := hmax
        omega)
    rw [DecM.bind_ok _ _ _ _ _ hd,
      if_neg (show ¬ v < 0 from by
        have : (100 : Int) ≤ v := hmin
        omega),
      if_neg (not_not_intro ⟨hmin, hmax⟩)]
    have hdrop : (intToBytes v ++ 0 :: (tws ++ 0 :: rest)).drop
        ((intToBytes v).length + 1) = tws ++ 0 :: rest := by
      rw [show intToBytes v ++ 0 :: (tws ++ 0 :: rest) =
        (intToBytes v ++ [0]) ++ (tws ++ 0 :: rest) from by simp]
      rw [show (intToBytes v).length + 1 =
        (intToBytes v ++ [0]).length from by simp]
      exact List.drop_left _ _
    have hrd2 := readFieldStr_spec_pos { data := intToBytes v ++ 0 :: (tws ++ 0 :: rest), pos := (intToBytes v).length + 1, server_version := 0 } tws rest hdrop h0 hv
    rw [DecM.bind_ok decodeString _ _ _ _ hrd2]

/-- C6 (witness): the three handshake outcomes at concrete messages
(`-1` + host:port, `99`, and `176` + timestamp). -/
theorem c6_process_connect_ack_witness :
    processConnectAck (intToBytes (-1) ++ 0 :: strBytes "server2:4002"
        ++ 0 :: []) =
      .error (.protocol (strBytes "server redirect to "
        ++ strBytes "server2:4002")) ∧
    processConnectAck (intToBytes 99 ++ 0 :: []) =
      .error (.protocol (strBytes "unsupported server version "
        ++ intToBytes 99 ++ strBytes " (expected "
        ++ intToBytes MIN_CLIENT_VER ++ strBytes ".."
        ++ intToBytes MAX_CLIENT_VER ++ strBytes ")")) ∧
    processConnectAck (intToBytes 176 ++ 0 :: strBytes "20251109 12:00:00"
        ++ 0 :: []) =
      .ok { server_version := 176, tws_time := strBytes "20251109 12:00:00" }
    := by
  refine ⟨?_, ?_, ?_⟩
  · exact c6_process_connect_ack.1 (-1) (strBytes "server2:4002") []
      (by decide) (by decide) (by decide) (by decide)
  · exact c6_process_connect_ack.2.1 99 [] (by decide) (by decide)
      (by decide)
  · exact c6_process_connect_ack.2.2 176 (strBytes "20251109 12:00:00") []
      (by decide) (by decide) (by decide) (by decide)

/-! ## Claim C8 -/

/-- The AAPL/STK/SMART/USD contract of the spec's worked example. -/
def c8Contract : Contract :=
  { symbol := strBytes "AAPL", sec_type := some SecType.stock,
    exchange := strBytes "SMART", currency := strBytes "USD" }

/-- The `req_mkt_data` frame body produced for the example at server
version 176. -/
def c8Body176 : List Nat :=
  [49, 0, 49, 49, 0, 49, 0, 48, 0, 65, 65, 80, 76, 0, 83, 84, 75, 0, 0,
   0, 0, 0, 83, 77, 65, 82, 84, 0, 0, 85, 83, 68, 0, 0, 0, 48, 0, 0, 48,
   0, 48, 0, 0]

/-- The body the same call produces at server version 50 (all gated
fields omitted). -/
def c8Body50 : List Nat :=
  [49, 0, 49, 49, 0, 49, 0, 48, 0, 65, 65, 80, 76, 0, 83, 84, 75, 0, 0,
   0, 0, 0, 83, 77, 65, 82, 84, 0, 0, 85, 83, 68, 0, 0, 48, 0, 0, 48, 0]

/-- C8 (counterexample): the example body at server version 176 ends
with the booleans encoded as ASCII digit fields and the empty linking
list — bytes `48 0 48 0 0` — not with the literal
`false NUL false NUL NUL` the spec states (`encode_field_bool` writes
`"1"`/`"0"`, never `"true"`/`"false"`). -/
theorem c8_bools_not_false_literal :
    (reqMktData { server_version := 176, connected := true, sent := [] } 1
        c8Contract [] false false []).2.sent = [be32 43 ++ c8Body176] ∧
    List.isSuffixOf [48, 0, 48, 0, 0] c8Body176 = true ∧
    List.isSuffixOf (strBytes "false" ++ 0 :: strBytes "false" ++ [0, 0])
      c8Body176 = false :=
  ⟨rfl, by decide, by decide⟩

/-- C8 (amended): at server version 176 the example `req_mkt_data` call
produces exactly the framed `c8Body176`, whose body starts with the
fields `1 NUL 11 NUL 1 NUL`; at server version 50 the same call produces
the strictly shorter `c8Body50` with every gated field omitted, and the
two bodies agree byte-for-byte on the 34-byte common prefix that ends at
the last ungated contract field. -/
theorem c8_req_mkt_data_gating :
    reqMktData { server_version := 176, connected := true, sent := [] } 1
        c8Contract [] false false [] =
      (.ok (), { server_version := 176, connected := true, sent := [be32 c8Body176.length ++ c8Body176] }) ∧
    reqMktData { server_version := 50, connected := true, sent := [] } 1
        c8Contract [] false false [] =
      (.ok (), { server_version := 50, connected := true, sent := [be32 c8Body50.length ++ c8Body50] }) ∧
    c8Body50.length < c8Body176.length ∧
    c8Body50.take 34 = c8Body176.take 34 ∧
    c8Body176.take 7 = strBytes "1" ++ 0 :: strBytes "11" ++ 0 ::
      strBytes "1" ++ [0] :=
  ⟨rfl, rfl, by decide, by decide, by decide⟩

/-! ## Claim C9 -/

theorem findIdx_zero_none (s : List Nat) (h : ∀ b ∈ s, b ≠ 0) :
    s.findIdx? (fun b => decide (b = 0)) = none := by
  induction s with
  | nil => simp
  | cons a s ih =>
    have ha : a ≠ 0 := h a (by simp)
    simp [List.findIdx?_cons, ha, ih (fun b hb => h b (by simp [hb]))]

/-- C9 (counterexample): `decode_next_valid_id` on a frame body carrying
eight trailing garbage bytes succeeds after consuming only the first
four — no per-message decoder checks that consumption reached the body
length. -/
theorem c9_trailing_bytes_ignored :
    decodeNextValidId
        (decOn ([49, 0, 53, 0] ++ strBytes "GARBAGE" ++ [0]) 150 0) =
      .ok (.nextValidId 5,
        decOn ([49, 0, 53, 0] ++ strBytes "GARBAGE" ++ [0]) 150 4) ∧
    4 < ([49, 0, 53, 0] ++ strBytes "GARBAGE" ++ [0]).length :=
  ⟨rfl, by decide⟩

/-- C9 (amended): no decoder verifies full consumption of the frame body
(see the trailing-bytes counterexample), but the truncation half of the
claim holds: a field read on an exhausted buffer, a field read whose
remainder has no null terminator, and a raw-integer read with fewer than
four bytes left all return the `Decoding` error rather than panicking or
reading past the end of the frame. -/
theorem c9_truncation_is_decoding_error :
    (∀ st : Dec, st.data.length ≤ st.pos →
      readFieldStr st = .error (.err .decoding)) ∧
    (∀ st : Dec, (∀ b ∈ st.data.drop st.pos, b ≠ 0) →
      readFieldStr st = .error (.err .decoding)) ∧
    (∀ st : Dec, st.data.length - st.pos < 4 →
      decodeRawInt st = .error (.err .decoding)) := by
  refine ⟨?_, ?_, ?_⟩
  · intro st h
    unfold readFieldStr
    rw [if_neg (by omega)]
  · intro st h
    unfold readFieldStr
    by_cases hlt : st.pos < st.data.length
    · rw [if_pos hlt, findIdx_zero_none _ h]
    · rw [if_neg hlt]
  · intro st h
    unfold decodeRawInt
    rw [if_pos h]

/-- C9 (witness): the truncation errors at concrete buffers — an
exhausted buffer, a remainder with no null terminator, and a three-byte
remainder for a raw-integer read. -/
theorem c9_truncation_witness :
    readFieldStr (decOn [49, 0] 150 2) = .error (.err .decoding) ∧
    readFieldStr (decOn [49, 50, 51] 150 0) = .error (.err .decoding) ∧
    decodeRawInt (decOn [1, 2, 3] 150 0) = .error (.err .decoding) :=
  ⟨c9_truncation_is_decoding_error.1 (decOn [49, 0] 150 2) (by decide),
   c9_truncation_is_decoding_error.2.1 (decOn [49, 50, 51] 150 0)
     (by decide),
   c9_truncation_is_decoding_error.2.2 (decOn [1, 2, 3] 150 0)
     (by decide)⟩

/-! ## Claim C10 -/

theorem finalize_ok_small (e : Enc)
    (h : e.buf.length ≤ MAX_MSG_LEN + HEADER_LEN) :
    finalize e = .ok (be32 (e.buf.length - HEADER_LEN) ++
      e.buf.drop HEADER_LEN) := by
  show (if e.buf.length - HEADER_LEN > MAX_MSG_LEN then
      (.error .encoding : Except IBApiError (List Nat))
    else .ok (be32 (e.buf.length - HEADER_LEN) ++ e.buf.drop HEADER_LEN)) =
    .ok (be32 (e.buf.length - HEADER_LEN) ++ e.buf.drop HEADER_LEN)
  rw [if_neg (by omega : ¬ e.buf.length - HEADER_LEN > MAX_MSG_LEN)]

theorem sendEncoded_notConnected (c : ClientState) (e : Enc)
    (hnc : c.connected = false)
    (hlen : e.buf.length ≤ MAX_MSG_LEN + HEADER_LEN) :
    sendEncoded c e = (.error .connection, c) := by
  unfold sendEncoded
  rw [finalize_ok_small e hlen]
  simp [sendRaw, hnc]

theorem sendEncoded_state_fixed (c : ClientState) (e : Enc)
    (hnc : c.connected = false) :
    (sendEncoded c e).2 = c ∧ (sendEncoded c e).1 ≠ .ok () := by
  unfold sendEncoded
  cases hf : finalize e with
  | error er => simp
  | ok bytes => simp [sendRaw, hnc]

/-- C10 (counterexample): with the connection flag down and server
version 100, `req_current_time_in_millis` fails with the `Encoding`
error from its version gate — the gate runs before the connection check,
so a disconnected client does not always get a `Connection` error. -/
theorem c10_gate_precedes_connection_check :
    reqCurrentTimeInMillis { server_version := 100, connected := false, sent := [] } =
      (.error .encoding, { server_version := 100, connected := false, sent := [] }) ∧
    (IBApiError.encoding ≠ IBApiError.connection) :=
  ⟨rfl, by decide⟩

/-- C10 (amended): a disconnected client's requests never reach the
writer and leave the state untouched: `req_current_time` always fails
with `Connection`; `req_current_time_in_millis` fails with `Connection`
whenever its version gate passes; and `req_mkt_data` leaves the state
unchanged and never succeeds. -/
theorem c10_disconnected_requests_fail :
    (∀ c : ClientState, c.connected = false →
      reqCurrentTime c = (.error .connection, c)) ∧
    (∀ c : ClientState, c.connected = false →
      svCURRENT_TIME_IN_MILLIS ≤ c.server_version →
      reqCurrentTimeInMillis c = (.error .connection, c)) ∧
    (∀ (c : ClientState) (tid : Int) (k : Contract) (g : List Nat)
      (sn rg : Bool) (o : List TagValue), c.connected = false →
      (reqMktData c tid k g sn rg o).2 = c ∧
      (reqMktData c tid k g sn rg o).1 ≠ .ok ()) := by
  refine ⟨?_, ?_, ?_⟩
  · intro c hnc
    unfold reqCurrentTime
    show sendEncoded c (encode_field_i32
      (encode_msg_id (mkEncoder c.server_version) outREQ_CURRENT_TIME) 1) =
      (.error .connection, c)
    refine sendEncoded_notConnected c _ hnc ?_
    by_cases hp : svPROTOBUF ≤ c.server_version
    · simp [encode_field_i32, encode_msg_id, encode_raw_int, mkEncoder,
        hp, MAX_MSG_LEN, HEADER_LEN,
        show intToBytes (1 : Int) = [49] from rfl]
    · simp [encode_field_i32, encode_msg_id, mkEncoder, hp, MAX_MSG_LEN,
        HEADER_LEN, show intToBytes (1 : Int) = [49] from rfl,
        show intToBytes outREQ_CURRENT_TIME = [52, 57] from rfl]
  · intro c hnc hsv
    unfold reqCurrentTimeInMillis
    rw [show checkServerVersion c svCURRENT_TIME_IN_MILLIS = .ok () from by
      unfold checkServerVersion
      rw [if_neg (not_lt.mpr hsv)]]
    show sendEncoded c
      (encode_msg_id (mkEncoder c.server_version) outREQ_CURRENT_TIME_IN_MILLIS) =
      (.error .connection, c)
    refine sendEncoded_notConnected c _ hnc ?_
    by_cases hp : svPROTOBUF ≤ c.server_version
    · simp [encode_msg_id, encode_raw_int, mkEncoder, hp, MAX_MSG_LEN,
        HEADER_LEN]
    · simp [encode_msg_id, encode_field_i32, mkEncoder, hp, MAX_MSG_LEN,
        HEADER_LEN,
        show intToBytes outREQ_CURRENT_TIME_IN_MILLIS = [49, 48, 53] from rfl]
  · intro c tid k g sn rg o hnc
    unfold reqMktData
    exact sendEncoded_state_fixed c _ hnc

/-- C10 (witness): the disconnected failures at a concrete client state
(server version 197, flag down): both time requests fail with
`Connection`, and the market-data request leaves the state unchanged
without succeeding. -/
theorem c10_disconnected_requests_fail_witness :
    reqCurrentTime { server_version := 197, connected := false, sent := [] } =
      (.error .connection, { server_version := 197, connected := false, sent := [] }) ∧
    reqCurrentTimeInMillis { server_version := 197, connected := false, sent := [] } =
      (.error .connection, { server_version := 197, connected := false, sent := [] }) ∧
    ((reqMktData { server_version := 197, connected := false, sent := [] } 1
        ({} : Contract) [] false false []).2 =
      { server_version := 197, connected := false, sent := [] } ∧
     (reqMktData { server_version := 197, connected := false, sent := [] } 1
        ({} : Contract) [] false false []).1 ≠ .ok ()) :=
  ⟨c10_disconnected_requests_fail.1 _ rfl,
   c10_disconnected_requests_fail.2.1 _ rfl (by decide),
   c10_disconnected_requests_fail.2.2 _ 1 ({} : Contract) [] false false []
     rfl⟩
